import Mathlib

/-!
# MemorEE: a shallow embedding of `memoree.c`

The driver core of the repository (`src/memoree.c`) is embedded as pure
functions over an explicit transport state.  Every call the C code makes
into the platform layer (`platform_i2c_write`, `platform_i2c_write_read`,
`platform_spi_write_read`, `platform_ms_delay`) becomes a call of a field
of `Platform`, which is an arbitrary deterministic state machine.

Machine integers are natural numbers or integers with an explicit
reduction where the C type narrows (`uint8_t`, `uint16_t`, `uint32_t`,
`int8_t`, `int`).
-/

namespace MemorEE

/-! ## Machine integers -/

/-- Conversion of an integer to `uint8_t`. -/
def u8 (n : Nat) : Nat := n % 256

/-- Conversion of an integer to `uint16_t`. -/
def u16 (n : Nat) : Nat := n % 65536

/-- Conversion of an integer to `uint32_t`. -/
def u32 (n : Nat) : Nat := n % 4294967296

/-- Conversion of an `uint32_t` value to `int` (32 bits, two's complement). -/
def toInt32 (n : Nat) : Int :=
  if n % 4294967296 < 2147483648 then ((n % 4294967296 : Nat) : Int)
  else ((n % 4294967296 : Nat) : Int) - 4294967296

/-- Conversion of an `int` to `int8_t` (two's complement). -/
def toInt8 (z : Int) : Int :=
  if z % 256 < 128 then z % 256 else z % 256 - 256

/-- Conversion of an `int` to `uint32_t`. -/
def ofInt32 (z : Int) : Nat := (z % 4294967296).toNat

/-! ## Error codes (`memoree_err_t`) -/

def MEMOREE_ERR_OK : Int := 0
def MEMOREE_ERR_FAIL : Int := -1
def MEMOREE_ERR_MEM : Int := -2
def MEMOREE_ERR_INVALID_ARG : Int := -3
def MEMOREE_ERR_TIMEOUT : Int := -4
def MEMOREE_ERR_SFDP_NOT_SUPPORTED : Int := -5
def MEMOREE_ERR_SFDP_INVALID_HEADER : Int := -6
def MEMOREE_ERR_SFDP_INVALID_TABLE : Int := -7

/-! ## Opcodes -/

def MEMOREE_CMD_93CXX_READ : Nat := 0b110
def MEMOREE_CMD_93CXX_WRITE : Nat := 0b101
def MEMOREE_CMD_93CXX_WEN : Nat := 0b10011
def MEMOREE_CMD_93CXX_WDS : Nat := 0b10000
def MEMOREE_CMD_93CXX_ERASE : Nat := 0b111
def MEMOREE_CMD_93CXX_ERAL : Nat := 0b10010
def MEMOREE_CMD_93CXX_WRAL : Nat := 0b10001

def MEMOREE_CMD_25XX_WREN : Nat := 0x06
def MEMOREE_CMD_25XX_WRDI : Nat := 0x04
def MEMOREE_CMD_25XX_RDSR : Nat := 0x05
def MEMOREE_CMD_25XX_WRSR : Nat := 0x01
def MEMOREE_CMD_25XX_READ : Nat := 0x03
def MEMOREE_CMD_25XX_PP : Nat := 0x02
def MEMOREE_CMD_25XX_RDID : Nat := 0x9F
def MEMOREE_CMD_25XX_SFDP : Nat := 0x5A

/-! ## Variant identifiers (`memoree_variant_t`)

The enumerators in their order of declaration.  `memoree.c` names two stub
variants that the `memoree.h` at hand does not declare; each stands where the
`mem_props` table has its entry, so that the family sentinels fall on the two
filler entries of the table (indices 11 and 18), as the comments of the table
say they do.
-/

/-- Modelled from the spec: the stub variant for raw I2C pass-through, which
`memoree.c` names (`VARIANT_ISSTUB`, first entry of `mem_props`) and the
enumeration of `memoree.h` lacks.  The spec lists it as one of the two
non-hardware variants; it heads the I2C family, where `mem_props` has it. -/
def MEMOREE_VARIANT_STUB_I2C : Nat := 0
def MEMOREE_VARIANT_24XX02 : Nat := 1
def MEMOREE_VARIANT_24XX04 : Nat := 2
def MEMOREE_VARIANT_24XX08 : Nat := 3
def MEMOREE_VARIANT_24XX16 : Nat := 4
def MEMOREE_VARIANT_24XX32 : Nat := 5
def MEMOREE_VARIANT_24XX64 : Nat := 6
def MEMOREE_VARIANT_24XX128 : Nat := 7
def MEMOREE_VARIANT_24XX256 : Nat := 8
def MEMOREE_VARIANT_24XX512 : Nat := 9
def MEMOREE_VARIANT_24XX1024 : Nat := 10
def MEMOREE_VARIANT_I2C_MAX : Nat := 11
/-- Modelled from the spec: the stub variant for raw SPI pass-through, which
`memoree.c` names and the enumeration of `memoree.h` lacks; it heads the SPI
families, right after `MEMOREE_VARIANT_I2C_MAX`, where `mem_props` has it. -/
def MEMOREE_VARIANT_STUB_SPI : Nat := 12
def MEMOREE_VARIANT_93C46 : Nat := 13
def MEMOREE_VARIANT_93C56 : Nat := 14
def MEMOREE_VARIANT_93C66 : Nat := 15
def MEMOREE_VARIANT_93C76 : Nat := 16
def MEMOREE_VARIANT_93C86 : Nat := 17
def MEMOREE_VARIANT_93CXX_MAX : Nat := 18
def MEMOREE_VARIANT_25XX_SFDP : Nat := 19
def MEMOREE_VARIANT_MAX : Nat := 20

/-- Serial interface type (`memoree_type_t`). -/
inductive memoree_type_t where
  | MEMOREE_TYPE_I2C
  | MEMOREE_TYPE_SPI
deriving DecidableEq, Repr

open memoree_type_t

/-- Configuration information of a memory object (`memoree_info_t`). -/
structure memoree_info_t where
  type : memoree_type_t := MEMOREE_TYPE_I2C
  variant : Nat := 0
  size : Nat := 0
  speed : Nat := 0
  addr_len : Nat := 0
  addr : Nat := 0
  page_size : Nat := 0
  num_pages : Nat := 0
  page_write_delay_ms : Nat := 0
  protected_ : Bool := false
deriving DecidableEq, Repr

/-- The memory object (`struct memoree`); `interface = 0` is the null pointer. -/
structure memoree where
  interface : Nat
  info : memoree_info_t
deriving DecidableEq, Repr

/-- Table of memory variant properties, in the order of `memoree.c`. -/
def mem_props : List memoree_info_t := [
  { variant := MEMOREE_VARIANT_STUB_I2C, type := MEMOREE_TYPE_I2C },
  { variant := MEMOREE_VARIANT_24XX02, type := MEMOREE_TYPE_I2C, size := 256, addr_len := 8,
    page_size := 8, page_write_delay_ms := 5 },
  { variant := MEMOREE_VARIANT_24XX04, type := MEMOREE_TYPE_I2C, size := 512, addr_len := 8,
    page_size := 16, page_write_delay_ms := 5 },
  { variant := MEMOREE_VARIANT_24XX08, type := MEMOREE_TYPE_I2C, size := 1024, addr_len := 8,
    page_size := 16, page_write_delay_ms := 5 },
  { variant := MEMOREE_VARIANT_24XX16, type := MEMOREE_TYPE_I2C, size := 2048, addr_len := 8,
    page_size := 16, page_write_delay_ms := 5 },
  { variant := MEMOREE_VARIANT_24XX32, type := MEMOREE_TYPE_I2C, size := 4096, addr_len := 16,
    page_size := 32, page_write_delay_ms := 5 },
  { variant := MEMOREE_VARIANT_24XX64, type := MEMOREE_TYPE_I2C, size := 8192, addr_len := 16,
    page_size := 32, page_write_delay_ms := 5 },
  { variant := MEMOREE_VARIANT_24XX128, type := MEMOREE_TYPE_I2C, size := 16384, addr_len := 16,
    page_size := 64, page_write_delay_ms := 5 },
  { variant := MEMOREE_VARIANT_24XX256, type := MEMOREE_TYPE_I2C, size := 32768, addr_len := 16,
    page_size := 64, page_write_delay_ms := 5 },
  { variant := MEMOREE_VARIANT_24XX512, type := MEMOREE_TYPE_I2C, size := 65536, addr_len := 16,
    page_size := 128, page_write_delay_ms := 5 },
  { variant := MEMOREE_VARIANT_24XX1024, type := MEMOREE_TYPE_I2C, size := 131072, addr_len := 16,
    page_size := 128, page_write_delay_ms := 5 },
  { },
  { variant := MEMOREE_VARIANT_STUB_SPI, type := MEMOREE_TYPE_SPI },
  { variant := MEMOREE_VARIANT_93C46, type := MEMOREE_TYPE_SPI, size := 128, addr_len := 7,
    page_size := 1, page_write_delay_ms := 10 },
  { variant := MEMOREE_VARIANT_93C56, type := MEMOREE_TYPE_SPI, size := 256, addr_len := 9,
    page_size := 1, page_write_delay_ms := 5 },
  { variant := MEMOREE_VARIANT_93C66, type := MEMOREE_TYPE_SPI, size := 512, addr_len := 9,
    page_size := 1, page_write_delay_ms := 5 },
  { variant := MEMOREE_VARIANT_93C76, type := MEMOREE_TYPE_SPI, size := 1024, addr_len := 11,
    page_size := 1, page_write_delay_ms := 5 },
  { variant := MEMOREE_VARIANT_93C86, type := MEMOREE_TYPE_SPI, size := 2048, addr_len := 11,
    page_size := 1, page_write_delay_ms := 5 },
  { },
  { variant := MEMOREE_VARIANT_25XX_SFDP, type := MEMOREE_TYPE_SPI, page_write_delay_ms := 5 } ]

/-! ## Validity checks (the macros at the head of `memoree.c`) -/

/-- `VARIANT_ISSTUB(v)`. -/
def VARIANT_ISSTUB (v : Nat) : Bool :=
  v == MEMOREE_VARIANT_STUB_I2C || v == MEMOREE_VARIANT_STUB_SPI

/-- `VARIANT_ISVALID(v)`. -/
def VARIANT_ISVALID (v : Nat) : Bool :=
  decide (v < MEMOREE_VARIANT_MAX) && v != MEMOREE_VARIANT_I2C_MAX
    && v != MEMOREE_VARIANT_93CXX_MAX && v != MEMOREE_VARIANT_STUB_SPI
    && v != MEMOREE_VARIANT_STUB_I2C

/-- `MEMOREE_ISVALID(m)`; `none` is the null handle. -/
def MEMOREE_ISVALID (m : Option memoree) : Bool :=
  match m with
  | none => false
  | some mem => mem.interface != 0 && VARIANT_ISVALID mem.info.variant

/-- `ADDRESS_ISVALID(m, a)`. -/
def ADDRESS_ISVALID (m : Option memoree) (a : Nat) : Bool :=
  match m with
  | none => false
  | some mem => decide (a < mem.info.size)

/-- `PAGE_ISVALID(m, p)`. -/
def PAGE_ISVALID (m : Option memoree) (p : Nat) : Bool :=
  match m with
  | none => false
  | some mem => decide (p < mem.info.num_pages)

/-- `MEMOREE_DEFAULT_TIMEOUT(m, s)`.  C leaves the quotient undefined when
`speed / 8000` is zero; here it is zero, as every quotient by zero. -/
def MEMOREE_DEFAULT_TIMEOUT (mem : memoree) (s : Nat) : Nat :=
  s / (mem.info.speed / 8000)

/-! ## The transport boundary -/

/-- SPI transaction descriptor (`memoree_spi_transaction_t`).  A buffer
pointer is kept as the bytes it points to: `write_buff = none` is the null
pointer, otherwise the first `write_len` bytes behind it; `read_buff` only
records whether the pointer is non-null. -/
structure memoree_spi_transaction_t where
  cmd_len : Nat := 0
  cmd : Nat := 0
  addr_len : Nat := 0
  addr : Nat := 0
  dummy_len : Nat := 0
  read_len : Nat := 0
  read_buff : Bool := false
  write_len : Nat := 0
  write_buff : Option (List Nat) := none
  timeout_ms : Nat := 0
deriving DecidableEq, Repr

/-- Interface configuration (`memoree_i2c_conf_t`, `memoree_spi_conf_t`): the
fields the core reads or rewrites, `speed` for both and `addr` for I2C; the
port and pin numbers only travel to the platform layer. -/
structure interface_conf_t where
  port : Nat := 0
  speed : Nat := 0
  addr : Nat := 0
  pins : List Nat := []
deriving DecidableEq, Repr

def MEMOREE_I2C_MAX_SPEED : Nat := 400000
def MEMOREE_SPI_93X_MAX_SPEED : Nat := 2000000
def MEMOREE_SPI_MAX_SPEED : Nat := 40000000

/-- The platform layer of `memoree_platform.h` as a deterministic state
machine over a state `σ`.  Each function receives the interface pointer of
the handle and the arguments of the C prototype; buffers travel as byte
lists, and a reading call returns the bytes it stored in the read buffer.
The two initialisers return the interface pointer (`0` is `NULL`). -/
structure Platform (σ : Type) where
  i2c_init : σ → interface_conf_t → Nat × σ
  spi_init : σ → interface_conf_t → Nat × σ
  i2c_write : σ → Nat → Nat → List Nat → Nat → Int × σ
  i2c_write_read : σ → Nat → Nat → List Nat → Nat → Nat → Int × List Nat × σ
  i2c_ping : σ → Nat → Nat → Nat → Int × σ
  spi_write_read : σ → Nat → memoree_spi_transaction_t → Int × List Nat × σ
  ms_delay : σ → Nat → σ

/-- A caller buffer `data` of a write: `none` is the null pointer, `some f`
gives the byte `f k` stored at `data[k]`. -/
abbrev buffer_t := Option (Nat → Nat)

/-- The `n` bytes found at `data[off], ..., data[off + n - 1]`. -/
def bytes_at (f : Nat → Nat) (off n : Nat) : List Nat :=
  (List.range n).map (fun k => f (off + k))

/-! ## Utility functions -/

/-- The loop `while ((size >> bit_width++) & 1);` of `_get_address_space`:
`fuel` bounds the number of tests, `bw` is `bit_width` before the test. -/
def address_space_loop (x : Nat) : Nat → Nat → Nat
  | 0, bw => bw + 1
  | fuel + 1, bw =>
    if (x >>> bw) &&& 1 = 1 then address_space_loop x fuel (bw + 1) else bw + 1

/-- `_get_address_space(mem)`.  A 32-bit value has only 32 bits to test. -/
def _get_address_space (m : Option memoree) : Int :=
  match m with
  | none => MEMOREE_ERR_INVALID_ARG
  | some mem =>
    if mem.info.size = 0 ∨ mem.info.size % 2 ≠ 0 then MEMOREE_ERR_INVALID_ARG
    else
      let size := mem.info.size - 1
      ((address_space_loop size 32 0 : Nat) : Int)

/-- The address bytes prepended by the `do { i -= 8; *write_p++ = addr >> i; }`
loops; `n` counts the remaining passes, `i` is the loop variable. -/
def address_bytes (addr : Nat) : Nat → Nat → List Nat
  | 0, _ => []
  | n + 1, i => u8 (addr >>> (i - 8)) :: address_bytes addr n (i - 8)

/-- The caller pointer `data + k`. -/
def shift (f : Nat → Nat) (k : Nat) : Nat → Nat := fun j => f (k + j)

/-- Subtraction of two `uint32_t` values. -/
def usub32 (a b : Nat) : Nat := (a % 4294967296 + 4294967296 - b % 4294967296) % 4294967296

/-- The expression `addr & (mem->info.size - 1)` in `uint32_t`. -/
def mask_addr (addr size : Nat) : Nat := addr &&& usub32 size 1

/-- `_memoree_write_bytes(mem, addr, data, data_len, timeout_ms)`.  The address
loop `do { i -= 8; ... } while (i)` makes `addr_len / 8` passes; C defines it
only when `addr_len` is a positive multiple of 8, as in every I2C entry of
`mem_props`. -/
def _memoree_write_bytes {σ : Type} (P : Platform σ) (m : Option memoree) (addr : Nat)
    (data : buffer_t) (data_len : Nat) (timeout_ms : Nat) (s : σ) : Int × σ :=
  match m, data with
  | some mem, some f =>
    if ¬ ADDRESS_ISVALID m addr then (MEMOREE_ERR_INVALID_ARG, s)
    else if mem.info.variant < MEMOREE_VARIANT_I2C_MAX then
      let addr_space := toInt8 (_get_address_space m)
      if addr_space ≤ 0 then (MEMOREE_ERR_INVALID_ARG, s)
      else
        let i2c_address :=
          if addr_space ≤ (mem.info.addr_len : Int) then mem.info.addr
          else u8 (mem.info.addr ||| (((addr >>> mem.info.addr_len) <<< 1) &&& 0x0F))
        let write_buffer :=
          address_bytes addr (mem.info.addr_len / 8) mem.info.addr_len ++ bytes_at f 0 data_len
        let r := P.i2c_write s mem.interface i2c_address write_buffer timeout_ms
        (if r.1 > 0 then r.1 - ((mem.info.addr_len / 8 : Nat) : Int) else r.1, r.2)
    else if mem.info.variant = MEMOREE_VARIANT_25XX_SFDP then
      let t : memoree_spi_transaction_t :=
        { cmd_len := 8, cmd := MEMOREE_CMD_25XX_PP, addr_len := mem.info.addr_len,
          addr := mask_addr addr mem.info.size, write_len := data_len,
          write_buff := some (bytes_at f 0 data_len), timeout_ms := u32 timeout_ms }
      let r := P.spi_write_read s mem.interface t
      (if r.1 = 0 then toInt32 data_len else MEMOREE_ERR_FAIL, r.2.2)
    else (MEMOREE_ERR_INVALID_ARG, s)
  | _, _ => (MEMOREE_ERR_INVALID_ARG, s)

/-- `_memoree_spi_write_enable(mem)`. -/
def _memoree_spi_write_enable {σ : Type} (P : Platform σ) (m : Option memoree) (s : σ) :
    Int × σ :=
  match m with
  | none => (MEMOREE_ERR_INVALID_ARG, s)
  | some mem =>
    if ¬ MEMOREE_ISVALID m then (MEMOREE_ERR_INVALID_ARG, s)
    else if mem.info.variant < MEMOREE_VARIANT_I2C_MAX then (MEMOREE_ERR_INVALID_ARG, s)
    else if mem.info.variant < MEMOREE_VARIANT_93CXX_MAX then
      let t : memoree_spi_transaction_t :=
        { cmd_len := 5, cmd := MEMOREE_CMD_93CXX_WEN, addr_len := 5 }
      let r := P.spi_write_read s mem.interface t
      if toInt8 r.1 = 0 then (MEMOREE_ERR_OK, r.2.2) else (MEMOREE_ERR_FAIL, r.2.2)
    else if mem.info.variant = MEMOREE_VARIANT_25XX_SFDP then
      let t : memoree_spi_transaction_t := { cmd := MEMOREE_CMD_25XX_WREN, cmd_len := 8 }
      let r := P.spi_write_read s mem.interface t
      if r.1 = 0 then (MEMOREE_ERR_OK, r.2.2) else (MEMOREE_ERR_FAIL, r.2.2)
    else (MEMOREE_ERR_FAIL, s)

/-! ## Public functions -/

/-- `memoree_read(mem, addr, data, data_len, timeout_ms)`.  `data` tells whether
the read buffer is non-null; the second component of the result holds the
bytes the transport stored in it (empty when no transaction was issued). -/
def memoree_read {σ : Type} (P : Platform σ) (m : Option memoree) (addr : Nat) (data : Bool)
    (data_len : Nat) (timeout_ms : Nat) (s : σ) : Int × List Nat × σ :=
  if (!MEMOREE_ISVALID m && !ADDRESS_ISVALID m addr) || !data then
    (MEMOREE_ERR_INVALID_ARG, [], s)
  else
    match m with
    | none => (MEMOREE_ERR_INVALID_ARG, [], s)
    | some mem =>
      if mem.info.variant < MEMOREE_VARIANT_I2C_MAX then
        let addr_space := _get_address_space m
        if addr_space ≤ 0 then (MEMOREE_ERR_INVALID_ARG, [], s)
        else
          let i2c_address :=
            if addr_space = (mem.info.addr_len : Int) then mem.info.addr
            else u8 (mem.info.addr ||| (((addr >>> mem.info.addr_len) <<< 1) &&& 0x0F))
          let write_buffer := address_bytes addr (mem.info.addr_len / 8) mem.info.addr_len
          let r := P.i2c_write_read s mem.interface i2c_address write_buffer data_len timeout_ms
          (if r.1 < 0 then r.1 else toInt32 data_len, r.2.1, r.2.2)
      else if mem.info.variant < MEMOREE_VARIANT_93CXX_MAX then
        let t : memoree_spi_transaction_t :=
          { cmd_len := 3, cmd := MEMOREE_CMD_93CXX_READ, addr_len := mem.info.addr_len,
            addr := mask_addr addr mem.info.size, read_len := data_len, read_buff := data,
            timeout_ms := u32 timeout_ms }
        let r := P.spi_write_read s mem.interface t
        (if r.1 < 0 then r.1 else toInt32 data_len, r.2.1, r.2.2)
      else if mem.info.variant = MEMOREE_VARIANT_25XX_SFDP then
        let t : memoree_spi_transaction_t :=
          { cmd_len := 8, cmd := MEMOREE_CMD_25XX_READ, addr_len := mem.info.addr_len,
            addr := mask_addr addr mem.info.size, read_len := data_len, read_buff := data,
            timeout_ms := u32 timeout_ms }
        let r := P.spi_write_read s mem.interface t
        (if r.1 < 0 then r.1 else toInt32 data_len, r.2.1, r.2.2)
      else (MEMOREE_ERR_FAIL, [], s)

/-- The byte loop of `memoree_write` on the 93Cxx family,
`do { ... } while (ret == 0 && --bytes_to_write)`: `n` is the value
`bytes_to_write` takes after the decrement of the current pass, `k` the
number of passes already made (`t.addr` and `t.write_buff` have advanced by
`k`).  The result is the last `ret`. -/
def write_byte_loop {σ : Type} (P : Platform σ) (mem : memoree) (t : memoree_spi_transaction_t)
    (f : Nat → Nat) : Nat → Nat → σ → Int × σ
  | 0, k, s =>
    let r := P.spi_write_read s mem.interface
      { t with addr := u32 (t.addr + k), write_buff := some (bytes_at f k 1) }
    (toInt8 r.1, P.ms_delay r.2.2 mem.info.page_write_delay_ms)
  | n + 1, k, s =>
    let r := P.spi_write_read s mem.interface
      { t with addr := u32 (t.addr + k), write_buff := some (bytes_at f k 1) }
    let s1 := P.ms_delay r.2.2 mem.info.page_write_delay_ms
    if toInt8 r.1 = 0 then write_byte_loop P mem t f n (k + 1) s1 else (toInt8 r.1, s1)

/-- The page loop of `memoree_write`, `for (i = 0; i < interations; i++)`: `n`
passes remain, `i` is the loop variable, `addr` and `f` are the address and
the data pointer after the alignment chunk.  The result is `true` when a
pass returned early with `MEMOREE_ERR_FAIL`. -/
def write_page_loop {σ : Type} (P : Platform σ) (mem : memoree) (addr : Nat) (f : Nat → Nat) :
    Nat → Nat → σ → Bool × σ
  | 0, _, s => (false, s)
  | n + 1, i, s =>
    let r := _memoree_write_bytes P (some mem) (u32 (addr + mem.info.page_size * i))
      (some (shift f (mem.info.page_size * i))) mem.info.page_size
      (MEMOREE_DEFAULT_TIMEOUT mem mem.info.page_size) s
    let s1 := P.ms_delay r.2 (mem.info.page_write_delay_ms * 2)
    if r.1 < 0 then (true, s1) else write_page_loop P mem addr f n (i + 1) s1

/-- The chunked part of `memoree_write` (from the computation of
`alignment_bytes` to the final `return data_len`). -/
def write_chunks {σ : Type} (P : Platform σ) (mem : memoree) (addr : Nat) (f : Nat → Nat)
    (data_len : Nat) (s : σ) : Int × σ :=
  let alignment_bytes := u16 (usub32 mem.info.page_size (addr % mem.info.page_size))
  let interations := u16 (usub32 data_len alignment_bytes / mem.info.page_size)
  let r := _memoree_write_bytes P (some mem) addr (some f) alignment_bytes
    (MEMOREE_DEFAULT_TIMEOUT mem alignment_bytes) s
  let s1 := P.ms_delay r.2 mem.info.page_write_delay_ms
  if r.1 < 0 then (MEMOREE_ERR_FAIL, s1)
  else
    let l := write_page_loop P mem (u32 (addr + alignment_bytes)) (shift f alignment_bytes)
      interations 0 s1
    if l.1 then (MEMOREE_ERR_FAIL, l.2) else (toInt32 data_len, l.2)

/-- `memoree_write`, with a budget for its nested calls: the C function calls
itself only from the wrap branch and only with `wrap = false`, so a budget of
two is never used up (`memoree_write_rec_budget`). -/
def memoree_write_rec {σ : Type} (P : Platform σ) :
    Nat → Option memoree → Nat → buffer_t → Nat → Nat → Bool → σ → Int × σ
  | 0, _, _, _, _, _, _, s => (MEMOREE_ERR_FAIL, s)
  | k + 1, m, addr, data, data_len, timeout_ms, wrap, s =>
    if (!MEMOREE_ISVALID m && !ADDRESS_ISVALID m addr) || data.isNone then
      (MEMOREE_ERR_INVALID_ARG, s)
    else
      match m, data with
      | some mem, some f =>
        let overflow : Int := ((u32 (addr + data_len) : Nat) : Int) - (mem.info.size : Int)
        if MEMOREE_VARIANT_I2C_MAX < mem.info.variant
            ∧ mem.info.variant < MEMOREE_VARIANT_93CXX_MAX then
          let we := _memoree_spi_write_enable P m s
          if we.1 ≠ MEMOREE_ERR_OK then (MEMOREE_ERR_FAIL, we.2)
          else
            let t : memoree_spi_transaction_t :=
              { cmd_len := 3, cmd := MEMOREE_CMD_93CXX_WRITE, addr_len := mem.info.addr_len,
                addr := mask_addr addr mem.info.size, write_len := 1,
                timeout_ms := if timeout_ms ≠ 0 then u32 (timeout_ms / data_len) else 0 }
            let r := write_byte_loop P mem t f (usub32 data_len 1) 0 we.2
            (if r.1 = 0 then toInt32 data_len else MEMOREE_ERR_FAIL, r.2)
        else if mem.info.variant < MEMOREE_VARIANT_I2C_MAX
            ∨ mem.info.variant = MEMOREE_VARIANT_25XX_SFDP then
          if 0 < overflow ∧ wrap = true then
            let r1 := memoree_write_rec P k m addr data (ofInt32 ((data_len : Int) - overflow))
              timeout_ms false s
            if r1.1 ≠ (data_len : Int) - overflow then r1
            else
              let r2 := memoree_write_rec P k m 0 (some (shift f r1.1.toNat)) (ofInt32 overflow)
                timeout_ms false r1.2
              if r2.1 ≠ overflow then r2 else (toInt32 data_len, r2.2)
          else
            let data_len1 :=
              if 0 < overflow then usub32 data_len (u32 (addr + data_len) % mem.info.size)
              else data_len
            write_chunks P mem addr f data_len1 s
        else (toInt32 data_len, s)
      | _, _ => (MEMOREE_ERR_INVALID_ARG, s)

/-- `memoree_write(mem, addr, data, data_len, timeout_ms, wrap)`. -/
def memoree_write {σ : Type} (P : Platform σ) (m : Option memoree) (addr : Nat) (data : buffer_t)
    (data_len : Nat) (timeout_ms : Nat) (wrap : Bool) (s : σ) : Int × σ :=
  memoree_write_rec P 2 m addr data data_len timeout_ms wrap s

/-! ## SFDP discovery -/

/-- Information extracted from the SFDP table (`sfdp_param_t`). -/
structure sfdp_param_t where
  header_ver : Nat := 0
  header_cnt : Nat := 0
  fparam_ver : Nat := 0
  fparam_size : Nat := 0
  fparam_ptr : Nat := 0
  write_size : Nat := 0
  wen_opcode : Nat := 0
  erase4k_opcode : Nat := 0
  addr_bytes : Nat := 0
  dtr_support : Bool := false
  min_sector : Nat := 0
  min_sec_opcode : Nat := 0
  max_sector : Nat := 0
  max_sec_opcode : Nat := 0
  size : Nat := 0
deriving DecidableEq, Repr

/-- A read buffer of `n` bytes preset to `0xFF` after the transport stored
the bytes `rd` in it: byte `i` of the buffer. -/
def read_byte_of (rd : List Nat) (i : Nat) : Nat := u8 (rd.getD i 0xFF)

/-- The expression `2 << (flash_size - 1)`, computed in `int` and converted to
`uint64_t`.  C defines it for `1 ≤ flash_size ≤ 30`, where it is
`2 ^ flash_size`; outside that range the shifted value is reduced to 32 bits,
two's complement. -/
def shl_two (flash_size : Nat) : Nat :=
  if flash_size = 0 ∨ 32 ≤ flash_size then 0
  else (toInt32 (2 * 2 ^ (flash_size - 1)) % 18446744073709551616).toNat

/-- The decoding step of `memoree_get_sfdp`, from the validated header
`read_buff` and the parameter table `sfdp_table` to the parameters. -/
def sfdp_decode (param : sfdp_param_t) (rb tb : Nat → Nat) : sfdp_param_t :=
  let flash_size := ((tb 7 &&& 0x7F) <<< 24) ||| (tb 6 <<< 16) ||| (tb 5 <<< 8) ||| (tb 4 <<< 0)
  let size := if (tb 7 >>> 7) &&& 1 ≠ 0 then shl_two flash_size else flash_size
  { param with
    header_ver := u16 ((rb 5 <<< 8) ||| rb 4)
    header_cnt := u8 (rb 6 + 1)
    fparam_ver := u16 ((rb 10 <<< 8) ||| rb 9)
    fparam_size := u16 (rb 11 * 4)
    fparam_ptr := u32 ((rb 14 <<< 16) ||| (rb 13 <<< 8) ||| rb 12)
    write_size := if (tb 0 >>> 2) &&& 1 ≠ 0 then 64 else 1
    erase4k_opcode := if tb 0 &&& 3 = 3 then 0 else tb 1
    addr_bytes := if (tb 2 >>> 1) &&& 3 = 0 then 3 else if (tb 2 >>> 1) &&& 3 = 2 then 4 else 0
    dtr_support := decide ((tb 2 >>> 3) &&& 1 ≠ 0)
    min_sector := u8 (if tb 0 &&& 3 = 1 then 4096 else 0)
    size := size >>> 3 }

/-- `memoree_get_sfdp(mem, param, timeout_ms)`.  The result carries the return
value, the parameter structure and the handle as the call leaves them. -/
def memoree_get_sfdp {σ : Type} (P : Platform σ) (m : Option memoree) (param : Option sfdp_param_t)
    (timeout_ms : Nat) (s : σ) : Int × Option sfdp_param_t × Option memoree × σ :=
  match m, param with
  | some mem, some p =>
    -- the argument check ends in `return false;`, the value 0
    if ¬ MEMOREE_ISVALID m ∨ mem.info.variant ≠ MEMOREE_VARIANT_25XX_SFDP then (0, param, m, s)
    else
      let t : memoree_spi_transaction_t :=
        { cmd_len := 8, cmd := MEMOREE_CMD_25XX_SFDP, addr_len := 24, addr := 0,
          write_len := 15, write_buff := some (List.replicate 15 0xFF),
          read_len := 15, read_buff := true, dummy_len := 8, timeout_ms := u32 timeout_ms }
      let r := P.spi_write_read s mem.interface t
      if r.1 ≠ 0 then (MEMOREE_ERR_FAIL, param, m, r.2.2)
      else
        let rb := read_byte_of (r.2.1.take 15)
        if rb 0 ≠ 0x53 ∨ rb 1 ≠ 0x46 ∨ rb 2 ≠ 0x44 ∨ rb 3 ≠ 0x50 then
          (MEMOREE_ERR_SFDP_NOT_SUPPORTED, param, m, r.2.2)
        else if rb 7 ≠ 0xFF ∨ rb 11 < 2 then
          (MEMOREE_ERR_SFDP_INVALID_HEADER, param, m, r.2.2)
        else
          let fparam_size := u16 (rb 11 * 4)
          let fparam_ptr := u32 ((rb 14 <<< 16) ||| (rb 13 <<< 8) ||| rb 12)
          let p1 : sfdp_param_t :=
            { p with
              header_ver := u16 ((rb 5 <<< 8) ||| rb 4)
              header_cnt := u8 (rb 6 + 1)
              fparam_ver := u16 ((rb 10 <<< 8) ||| rb 9)
              fparam_size := fparam_size
              fparam_ptr := fparam_ptr }
          let t2 : memoree_spi_transaction_t :=
            { t with addr := fparam_ptr, write_len := fparam_size, read_len := fparam_size,
                     write_buff := some (List.replicate fparam_size 0xFF), read_buff := true }
          let r2 := P.spi_write_read r.2.2 mem.interface t2
          if r2.1 ≠ 0 then (MEMOREE_ERR_FAIL, some p1, m, r2.2.2)
          else
            let tb := read_byte_of (r2.2.1.take fparam_size)
            if (tb 0 >>> 5) &&& 7 ≠ 7 ∨ (tb 2 >>> 7) &&& 1 ≠ 1 ∨ tb 3 ≠ 0xFF then
              (MEMOREE_ERR_SFDP_INVALID_HEADER, some p1, m, r2.2.2)
            else
              let p2 := sfdp_decode p rb tb
              let info1 : memoree_info_t :=
                { mem.info with addr_len := u8 (p2.addr_bytes * 8), page_size := u16 p2.write_size,
                                size := u32 p2.size }
              (MEMOREE_ERR_OK, some p2, some { mem with info := info1 }, r2.2.2)
  | _, _ => (0, param, m, s)

/-! ## Erase -/

/-- The byte loop of `memoree_erase` on the 93Cxx family,
`do { ... } while (ret == 0 && --bytes_to_write)`; `n` and `k` as in
`write_byte_loop`. -/
def erase_byte_loop {σ : Type} (P : Platform σ) (mem : memoree) (t : memoree_spi_transaction_t) :
    Nat → Nat → σ → Int × σ
  | 0, k, s =>
    let r := P.spi_write_read s mem.interface { t with addr := u32 (t.addr + k) }
    (r.1, P.ms_delay r.2.2 mem.info.page_write_delay_ms)
  | n + 1, k, s =>
    let r := P.spi_write_read s mem.interface { t with addr := u32 (t.addr + k) }
    let s1 := P.ms_delay r.2.2 mem.info.page_write_delay_ms
    if r.1 = 0 then erase_byte_loop P mem t n (k + 1) s1 else (r.1, s1)

/-- The page loop closing `memoree_erase`,
`for (; page < mem->info.num_pages; page++)`: `n` passes remain, `page` is the
loop variable.  `none` means the loop ran to its end. -/
def erase_page_loop {σ : Type} (P : Platform σ) (mem : memoree) (erase_value : Nat) :
    Nat → Nat → σ → Option Int × σ
  | 0, _, s => (none, s)
  | n + 1, page, s =>
    let r := _memoree_write_bytes P (some mem) (u32 (page * mem.info.page_size))
      (some (fun _ => erase_value)) mem.info.page_size
      (MEMOREE_DEFAULT_TIMEOUT mem mem.info.page_size) s
    let s1 := P.ms_delay r.2 mem.info.page_write_delay_ms
    if ofInt32 r.1 ≠ mem.info.page_size then (some r.1, s1)
    else erase_page_loop P mem erase_value n (page + 1) s1

/-- The generic page-by-page fill that closes `memoree_erase`. -/
def erase_pages {σ : Type} (P : Platform σ) (mem : memoree) (erase_value : Nat) (s : σ) :
    Int × Option memoree × σ :=
  let l := erase_page_loop P mem erase_value mem.info.num_pages 0 s
  match l.1 with
  | some ret => (ret, some mem, l.2)
  | none => (MEMOREE_ERR_OK, some mem, l.2)

/-- `memoree_erase(mem, erase_value)`.  The result carries the handle as the
call leaves it (discovery rewrites its geometry). -/
def memoree_erase {σ : Type} (P : Platform σ) (m : Option memoree) (erase_value : Nat) (s : σ) :
    Int × Option memoree × σ :=
  match m with
  | none => (MEMOREE_ERR_INVALID_ARG, m, s)
  | some mem =>
    if ¬ MEMOREE_ISVALID m then (MEMOREE_ERR_INVALID_ARG, m, s)
    else if MEMOREE_VARIANT_I2C_MAX < mem.info.variant
        ∧ mem.info.variant < MEMOREE_VARIANT_93CXX_MAX then
      let we := _memoree_spi_write_enable P m s
      if we.1 ≠ MEMOREE_ERR_OK then (MEMOREE_ERR_FAIL, m, we.2)
      else if erase_value = 0xFF then
        let t : memoree_spi_transaction_t :=
          { cmd_len := 5, cmd := MEMOREE_CMD_93CXX_ERAL, addr_len := 5 }
        let r := P.spi_write_read we.2 mem.interface t
        let s1 := P.ms_delay r.2.2 mem.info.page_write_delay_ms
        (if r.1 = 0 then MEMOREE_ERR_OK else r.1, m, s1)
      else
        let t : memoree_spi_transaction_t :=
          { cmd_len := 3, cmd := MEMOREE_CMD_93CXX_WRITE, addr_len := mem.info.addr_len,
            write_len := 1, write_buff := some [erase_value] }
        let r := erase_byte_loop P mem t (usub32 mem.info.size 1) 0 we.2
        (r.1, m, r.2)
    else if mem.info.variant = MEMOREE_VARIANT_25XX_SFDP ∧ erase_value = 0xFF then
      let g := memoree_get_sfdp P m (some { }) 100 s
      if g.1 ≠ MEMOREE_ERR_OK then (g.1, g.2.2.1, g.2.2.2)
      else
        match g.2.1, g.2.2.1 with
        | some param, some mem1 =>
          -- the body of `for (t.addr = 0; t.addr < size; t.addr += 4096)` ends in a
          -- `return`, so the loop makes its first pass (at address 0) and no other
          if param.erase4k_opcode ≠ 0 ∧ 0 < mem1.info.size then
            let t : memoree_spi_transaction_t :=
              { cmd_len := 8, cmd := param.erase4k_opcode, addr_len := mem1.info.addr_len,
                addr := 0 }
            let r := P.spi_write_read g.2.2.2 mem1.interface t
            let s1 := P.ms_delay r.2.2 mem1.info.page_write_delay_ms
            (if r.1 = 0 then MEMOREE_ERR_OK else r.1, some mem1, s1)
          else erase_pages P mem1 erase_value g.2.2.2
        | _, _ => (g.1, g.2.2.1, g.2.2.2)
    else erase_pages P mem erase_value s

/-- `memoree_erase_page(mem, page, erase_value)`. -/
def memoree_erase_page {σ : Type} (P : Platform σ) (m : Option memoree) (page erase_value : Nat)
    (s : σ) : Int × σ :=
  match m with
  | none => (MEMOREE_ERR_INVALID_ARG, s)
  | some mem =>
    if ¬ PAGE_ISVALID m page then (MEMOREE_ERR_INVALID_ARG, s)
    else if MEMOREE_VARIANT_I2C_MAX < mem.info.variant
        ∧ mem.info.variant < MEMOREE_VARIANT_93CXX_MAX then
      let t : memoree_spi_transaction_t :=
        if erase_value = 0xFF then
          { cmd_len := 5, addr_len := 5, cmd := MEMOREE_CMD_93CXX_ERASE }
        else
          { cmd_len := 5, addr_len := 5, cmd := MEMOREE_CMD_93CXX_WRITE, write_len := 1,
            write_buff := some [erase_value] }
      let r := P.spi_write_read s mem.interface t
      (r.1, P.ms_delay r.2.2 mem.info.page_write_delay_ms)
    else
      let r := _memoree_write_bytes P m (u32 (page * mem.info.page_size))
        (some (fun _ => erase_value)) mem.info.page_size
        (MEMOREE_DEFAULT_TIMEOUT mem mem.info.page_size) s
      (if ofInt32 r.1 = mem.info.page_size then MEMOREE_ERR_OK else r.1, r.2)

/-! ## Initialisation -/

/-- The entry `mem_props[variant]` (an index past the table reads as the empty
entry). -/
def mem_props_at (variant : Nat) : memoree_info_t := mem_props.getD variant { }

/-- The speed `memoree_init` settles on: the configured speed, capped by the
maximum of the family. -/
def init_speed (variant speed : Nat) : Nat :=
  if variant < MEMOREE_VARIANT_I2C_MAX then
    if speed > MEMOREE_I2C_MAX_SPEED then MEMOREE_I2C_MAX_SPEED else speed
  else if variant = MEMOREE_VARIANT_25XX_SFDP ∨ variant = MEMOREE_VARIANT_STUB_SPI then
    if speed > MEMOREE_SPI_MAX_SPEED then MEMOREE_SPI_MAX_SPEED else speed
  else if variant < MEMOREE_VARIANT_93CXX_MAX then
    if speed > MEMOREE_SPI_93X_MAX_SPEED then MEMOREE_SPI_93X_MAX_SPEED else speed
  else speed

/-- The `memcpy` from `mem_props[variant]` and the copy of the device-select
address, the first stores of `memoree_init` into the new handle. -/
def init_copy (variant : Nat) (conf : interface_conf_t) : memoree_info_t :=
  let info := mem_props_at variant
  if info.type = MEMOREE_TYPE_I2C then { info with addr := u8 conf.addr } else info

/-- The last stores of `memoree_init`: speed, number of pages, protection. -/
def init_finish (info : memoree_info_t) (speed : Nat) : memoree_info_t :=
  { info with speed := speed, num_pages := u16 (info.size / info.page_size), protected_ := false }

/-- `memoree_init(variant, interface_conf)`; `none` is the null result.  The
allocation of the handle is taken to succeed. -/
def memoree_init {σ : Type} (P : Platform σ) (variant : Nat) (interface_conf : Option interface_conf_t)
    (s : σ) : Option memoree × σ :=
  match interface_conf with
  | none => (none, s)
  | some conf =>
    if ¬ VARIANT_ISVALID variant then (none, s)
    else
      let speed := init_speed variant conf.speed
      let r :=
        if variant < MEMOREE_VARIANT_I2C_MAX then P.i2c_init s { conf with speed := speed }
        else P.spi_init s { conf with speed := speed }
      if r.1 = 0 then (none, r.2)
      else
        let mem : memoree := { interface := r.1, info := init_copy variant conf }
        if mem.info.variant = MEMOREE_VARIANT_25XX_SFDP then
          let g := memoree_get_sfdp P (some mem) (some { }) 100 r.2
          if g.1 ≠ MEMOREE_ERR_OK then (none, g.2.2.2)
          else
            match g.2.2.1 with
            | some mem1 => (some { mem1 with info := init_finish mem1.info speed }, g.2.2.2)
            | none => (none, g.2.2.2)
        else (some { mem with info := init_finish mem.info speed }, r.2)

/-! ## Ping and pass-through -/

/-- `memoree_ping(mem, timeout_ms)`.  On the I2C family the value of
`platform_i2c_ping` is the condition of `? MEMOREE_ERR_OK : MEMOREE_ERR_FAIL`;
on the SFDP variant the result is that of `memoree_get_sfdp`, which writes
into the handle.  The result carries the handle as the call leaves it. -/
def memoree_ping {σ : Type} (P : Platform σ) (m : Option memoree) (timeout_ms : Nat) (s : σ) :
    Int × Option memoree × σ :=
  match m with
  | none => (MEMOREE_ERR_INVALID_ARG, m, s)
  | some mem =>
    if ¬ MEMOREE_ISVALID m then (MEMOREE_ERR_INVALID_ARG, m, s)
    else if mem.info.variant < MEMOREE_VARIANT_I2C_MAX then
      let r := P.i2c_ping s mem.interface mem.info.addr (u32 timeout_ms)
      (if r.1 ≠ 0 then MEMOREE_ERR_OK else MEMOREE_ERR_FAIL, m, r.2)
    else if mem.info.variant = MEMOREE_VARIANT_25XX_SFDP then
      let g := memoree_get_sfdp P m (some { }) timeout_ms s
      (g.1, g.2.2.1, g.2.2.2)
    else (MEMOREE_ERR_INVALID_ARG, m, s)

/-- Modelled from the spec: the descriptor of a pass-through transaction
(`memoree_stub_transaction_t`), whose declaration the header at hand lacks.
The spec calls the operation a direct pass-through of the caller's
transaction, and `memoree_stub_read` hands the descriptor to
`platform_spi_write_read` as it is: it is the SPI transaction descriptor. -/
abbrev memoree_stub_transaction_t := memoree_spi_transaction_t

/-- `memoree_stub_read(mem, t)`; `t = none` is the null pointer.  The second
component of the result holds the bytes the transport stored in the read
buffer. -/
def memoree_stub_read {σ : Type} (P : Platform σ) (m : Option memoree)
    (t : Option memoree_stub_transaction_t) (s : σ) : Int × List Nat × σ :=
  match m, t with
  | some mem, some tr =>
    if mem.interface = 0 ∨ ¬ VARIANT_ISSTUB mem.info.variant then (MEMOREE_ERR_INVALID_ARG, [], s)
    else if mem.info.variant = MEMOREE_VARIANT_STUB_I2C then
      P.i2c_write_read s mem.interface (u8 tr.addr) (tr.write_buff.getD []) tr.read_len
        tr.timeout_ms
    else P.spi_write_read s mem.interface tr
  | _, _ => (MEMOREE_ERR_INVALID_ARG, [], s)

/-! ## Single-byte operations -/

/-- `memoree_read_byte(mem, addr, data, timeout_ms)`: a read of one byte whose
result 1 becomes `MEMOREE_ERR_OK`. -/
def memoree_read_byte {σ : Type} (P : Platform σ) (m : Option memoree) (addr : Nat) (data : Bool)
    (timeout_ms : Nat) (s : σ) : Int × List Nat × σ :=
  let r := memoree_read P m addr data 1 timeout_ms s
  (if r.1 = 1 then MEMOREE_ERR_OK else r.1, r.2.1, r.2.2)

/-- `memoree_write_byte(mem, addr, data, timeout_ms)`; the buffer `&data` holds
the one byte `data`. -/
def memoree_write_byte {σ : Type} (P : Platform σ) (m : Option memoree) (addr data : Nat)
    (timeout_ms : Nat) (s : σ) : Int × σ :=
  match m with
  | none => (MEMOREE_ERR_INVALID_ARG, s)
  | some mem =>
    if ¬ MEMOREE_ISVALID m ∨ ¬ ADDRESS_ISVALID m addr then (MEMOREE_ERR_INVALID_ARG, s)
    else if mem.info.variant < MEMOREE_VARIANT_I2C_MAX then
      _memoree_write_bytes P m addr (some (fun _ => u8 data)) 1 timeout_ms s
    else
      let we := _memoree_spi_write_enable P m s
      if we.1 ≠ MEMOREE_ERR_OK then (MEMOREE_ERR_FAIL, we.2)
      else
        let t0 : memoree_spi_transaction_t :=
          { addr_len := mem.info.addr_len, addr := mask_addr addr mem.info.size, write_len := 1,
            write_buff := some [u8 data], timeout_ms := u32 timeout_ms }
        let t : memoree_spi_transaction_t :=
          if mem.info.variant < MEMOREE_VARIANT_93CXX_MAX then
            { t0 with cmd_len := 3, cmd := MEMOREE_CMD_93CXX_WRITE }
          else if mem.info.variant = MEMOREE_VARIANT_25XX_SFDP then
            { t0 with cmd_len := 8, cmd := MEMOREE_CMD_25XX_PP }
          else t0
        let r := P.spi_write_read we.2 mem.interface t
        (r.1, r.2.2)

/-! ## Transports used in the statements -/

/-- One call into the platform layer, with the arguments the core passed. -/
inductive Event where
  | i2c_init (conf : interface_conf_t)
  | spi_init (conf : interface_conf_t)
  | i2c_write (interface addr : Nat) (write_buff : List Nat) (timeout_ms : Nat)
  | i2c_write_read (interface addr : Nat) (write_buff : List Nat) (read_size timeout_ms : Nat)
  | i2c_ping (interface addr timeout_ms : Nat)
  | spi_write_read (interface : Nat) (t : memoree_spi_transaction_t)
  | ms_delay (ms : Nat)
deriving DecidableEq, Repr

/-- A transport that appends every call to a log and answers with `reply`,
which sees the calls made so far and the present call and gives the return
value and the bytes read. -/
def logging (reply : List Event → Event → Int × List Nat) : Platform (List Event) where
  i2c_init := fun s c => ((reply s (Event.i2c_init c)).1.toNat, s ++ [Event.i2c_init c])
  spi_init := fun s c => ((reply s (Event.spi_init c)).1.toNat, s ++ [Event.spi_init c])
  i2c_write := fun s i a w tm =>
    ((reply s (Event.i2c_write i a w tm)).1, s ++ [Event.i2c_write i a w tm])
  i2c_write_read := fun s i a w n tm =>
    ((reply s (Event.i2c_write_read i a w n tm)).1, (reply s (Event.i2c_write_read i a w n tm)).2,
      s ++ [Event.i2c_write_read i a w n tm])
  i2c_ping := fun s i a tm =>
    ((reply s (Event.i2c_ping i a tm)).1, s ++ [Event.i2c_ping i a tm])
  spi_write_read := fun s i t =>
    ((reply s (Event.spi_write_read i t)).1, (reply s (Event.spi_write_read i t)).2,
      s ++ [Event.spi_write_read i t])
  ms_delay := fun s ms => s ++ [Event.ms_delay ms]

/-- The answer of a transport that accepts every transaction in full:
`platform_i2c_write` reports the whole buffer written, the other calls report
`MEMOREE_ERR_OK`, the initialisers return a non-null interface; reads deliver
zero bytes. -/
def accept_all (_ : List Event) : Event → Int × List Nat
  | Event.i2c_init _ => (1, [])
  | Event.spi_init _ => (1, [])
  | Event.i2c_write _ _ w _ => ((w.length : Int), [])
  | Event.i2c_write_read _ _ _ n _ => (MEMOREE_ERR_OK, List.replicate n 0)
  | Event.i2c_ping _ _ _ => (MEMOREE_ERR_OK, [])
  | Event.spi_write_read _ t => (MEMOREE_ERR_OK, List.replicate t.read_len 0)
  | Event.ms_delay _ => (0, [])

/-- The answer of a NOR flash with SFDP address space `sfdp` that accepts every
transaction: an SFDP read delivers the bytes of that space from the address
of the descriptor on, every other call is answered as by `accept_all`. -/
def nor_reply (sfdp : Nat → Nat) (log : List Event) : Event → Int × List Nat
  | Event.spi_write_read i t =>
    if t.cmd = MEMOREE_CMD_25XX_SFDP then (MEMOREE_ERR_OK, bytes_at sfdp t.addr t.read_len)
    else accept_all log (Event.spi_write_read i t)
  | e => accept_all log e

/-- Whether a logged call is a 93Cxx byte write (`MEMOREE_CMD_93CXX_WRITE`). -/
def is_93cxx_write : Event → Bool
  | Event.spi_write_read _ t => t.cmd == MEMOREE_CMD_93CXX_WRITE
  | _ => false

/-- The address of a logged SPI transaction (`none` for any other call). -/
def spi_addr : Event → Option Nat
  | Event.spi_write_read _ t => some t.addr
  | _ => none

/-- Number of payload bytes a logged call hands to the chip: the bytes after
the in-band address of an I2C write, the write buffer of a page program or of
a 93Cxx byte write. -/
def payload_bytes (info : memoree_info_t) : Event → Nat
  | Event.i2c_write _ _ w _ => w.length - info.addr_len / 8
  | Event.spi_write_read _ t =>
    if t.cmd = MEMOREE_CMD_25XX_PP ∨ t.cmd = MEMOREE_CMD_93CXX_WRITE then t.write_len else 0
  | _ => 0

/-- Whether a logged call is a bus transaction (everything but a delay). -/
def is_transaction : Event → Bool
  | Event.ms_delay _ => false
  | _ => true

/-- The content of an ideal memory array: the byte stored at each address. -/
abbrev Array8 := Nat → Nat

/-- The array after the bytes `bs` are stored from address `a` on. -/
def store (mem : Array8) (a : Nat) (bs : List Nat) : Array8 :=
  fun x => if a ≤ x ∧ x < a + bs.length then bs.getD (x - a) 0 else mem x

/-- The array after every byte of `[lo, hi)` is set to `v`. -/
def fill (mem : Array8) (lo hi v : Nat) : Array8 :=
  fun x => if lo ≤ x ∧ x < hi then v else mem x

/-- The value of a big-endian byte string. -/
def be_value (bs : List Nat) : Nat := bs.foldl (fun acc b => acc * 256 + b) 0

/-- An ideal, never-failing chip described by `chip` (variant, size, native
address width), with SFDP address space `sfdp` and 4KB sector-erase opcode
`erase4k`.  The state is the content of the array.
* I2C: the array address of a transfer is the in-band address field (the
  first `addr_len / 8` bytes written, most significant first) extended by the
  bits 3:1 of the device-select byte; a write stores the bytes following the
  address field, a write-read returns the bytes stored from that address on.
* SPI: the address is the address field of the descriptor; the read and the
  byte-write / page-program opcodes read and store at that address, the
  93Cxx erase-all opcode sets the whole array to `0xFF`, the 93Cxx erase
  opcode sets one byte to `0xFF`, the NOR 4KB sector-erase opcode sets the
  sector holding the address to `0xFF`, the NOR SFDP opcode reads the SFDP
  address space; every other opcode leaves the array alone. -/
def ideal (chip : memoree_info_t) (sfdp : Nat → Nat) (erase4k : Nat) : Platform Array8 where
  i2c_init := fun s _ => (1, s)
  spi_init := fun s _ => (1, s)
  i2c_write := fun s _ sel w _ =>
    let n := chip.addr_len / 8
    let a := ((((sel &&& 0x0F) >>> 1) <<< chip.addr_len)) + be_value (w.take n)
    ((w.length : Int), store s a (w.drop n))
  i2c_write_read := fun s _ sel w rlen _ =>
    let n := chip.addr_len / 8
    let a := ((((sel &&& 0x0F) >>> 1) <<< chip.addr_len)) + be_value (w.take n)
    (MEMOREE_ERR_OK, bytes_at s a rlen, s)
  i2c_ping := fun s _ _ _ => (MEMOREE_ERR_OK, s)
  spi_write_read := fun s _ t =>
    if chip.variant = MEMOREE_VARIANT_25XX_SFDP then
      if t.cmd = MEMOREE_CMD_25XX_SFDP then (MEMOREE_ERR_OK, bytes_at sfdp t.addr t.read_len, s)
      else if t.cmd = MEMOREE_CMD_25XX_READ then (MEMOREE_ERR_OK, bytes_at s t.addr t.read_len, s)
      else if t.cmd = MEMOREE_CMD_25XX_PP then
        (MEMOREE_ERR_OK, [], store s t.addr ((t.write_buff.getD []).take t.write_len))
      else if t.cmd = erase4k ∧ erase4k ≠ 0 then
        (MEMOREE_ERR_OK, [], fill s (t.addr - t.addr % 4096) (t.addr - t.addr % 4096 + 4096) 0xFF)
      else (MEMOREE_ERR_OK, [], s)
    else
      if t.cmd_len = 3 ∧ t.cmd = MEMOREE_CMD_93CXX_READ then
        (MEMOREE_ERR_OK, bytes_at s t.addr t.read_len, s)
      else if t.cmd_len = 3 ∧ t.cmd = MEMOREE_CMD_93CXX_WRITE then
        (MEMOREE_ERR_OK, [], store s t.addr ((t.write_buff.getD []).take t.write_len))
      else if t.cmd_len = 3 ∧ t.cmd = MEMOREE_CMD_93CXX_ERASE then
        (MEMOREE_ERR_OK, [], fill s t.addr (t.addr + 1) 0xFF)
      else if t.cmd_len = 5 ∧ t.cmd = MEMOREE_CMD_93CXX_ERAL then
        (MEMOREE_ERR_OK, [], fill s 0 chip.size 0xFF)
      else (MEMOREE_ERR_OK, [], s)
  ms_delay := fun s _ => s

/-! ## Concrete handles and buffers -/

/-- The handle of a registry variant as `memoree_init` fills it in: interface
pointer `interface`, device-select address `addr` (I2C), speed `speed`. -/
def registry_handle (variant interface addr speed : Nat) : memoree :=
  { interface := interface
    info := init_finish (init_copy variant { addr := addr, speed := speed }) speed }

/-- A 24XX02 handle (256 bytes, pages of 8) at select address `0x50`, 400 kHz. -/
def mem_24XX02 : memoree := registry_handle MEMOREE_VARIANT_24XX02 1 0x50 400000

/-- A 93C46 handle (128 bytes, 7 address bits), 1 MHz. -/
def mem_93C46 : memoree := registry_handle MEMOREE_VARIANT_93C46 1 0 1000000

/-- A 93C56 handle (256 bytes, 9 address bits), 1 MHz. -/
def mem_93C56 : memoree := registry_handle MEMOREE_VARIANT_93C56 1 0 1000000

/-- The SFDP address space of an 8 KiB NOR flash: the 15-byte header (signature,
byte 7 = 0xFF, table of 2 words at 0x10), and the parameter table (4KB erase
with opcode 0x20, 64-byte write granularity, 3 address bytes, 65536 bits). -/
def sfdp_8k (a : Nat) : Nat :=
  [0x53, 0x46, 0x44, 0x50, 0x06, 0x01, 0x00, 0xFF, 0x00, 0x06, 0x01, 0x02, 0x10, 0x00, 0x00, 0xFF,
   0xE5, 0x20, 0x81, 0xFF, 0x00, 0x00, 0x01, 0x00].getD a 0xFF

/-- The handle `memoree_init` returns for the 8 KiB NOR flash of `sfdp_8k`. -/
def mem_nor_8k : memoree :=
  { interface := 1
    info := { type := MEMOREE_TYPE_SPI, variant := MEMOREE_VARIANT_25XX_SFDP, size := 8192,
              speed := 1000000, addr_len := 24, page_size := 64, num_pages := 128,
              page_write_delay_ms := 5 } }

/-- The SFDP address space of a 128 MiB NOR flash (2^30 bits, literal encoding),
otherwise as `sfdp_8k`. -/
def sfdp_128M (a : Nat) : Nat :=
  [0x53, 0x46, 0x44, 0x50, 0x06, 0x01, 0x00, 0xFF, 0x00, 0x06, 0x01, 0x02, 0x10, 0x00, 0x00, 0xFF,
   0xE5, 0x20, 0x81, 0xFF, 0x00, 0x00, 0x00, 0x40].getD a 0xFF

/-- The handle `memoree_init` returns for the 128 MiB NOR flash of `sfdp_128M`
(`num_pages` is `size / page_size` cut to 16 bits). -/
def mem_nor_128M : memoree :=
  { interface := 1
    info := { type := MEMOREE_TYPE_SPI, variant := MEMOREE_VARIANT_25XX_SFDP, size := 134217728,
              speed := 1000000, addr_len := 24, page_size := 64, num_pages := 0,
              page_write_delay_ms := 5 } }

/-- A caller buffer holding the bytes 1, 2, ..., 12. -/
def data_1_to_12 : Nat → Nat := fun k => [1, 2, 3, 4, 5, 6, 7, 8, 9, 10, 11, 12].getD k 0

/-- A caller buffer holding `0xAA` in every byte. -/
def data_AA : Nat → Nat := fun _ => 0xAA

/-- The outcome a wrapping write is compared with: the non-wrapping
write of `[addr, size)` and then, if that returned its full length, the
non-wrapping write of `[0, addr + len - size)` from the rest of the buffer.
The last component of the result tells whether both returned their full
length. -/
def two_writes {σ : Type} (P : Platform σ) (mem : memoree) (addr : Nat) (f : Nat → Nat)
    (len timeout_ms : Nat) (s : σ) : Int × σ × Bool :=
  let r1 := memoree_write P (some mem) addr (some f) (mem.info.size - addr) timeout_ms false s
  if r1.1 ≠ ((mem.info.size - addr : Nat) : Int) then (r1.1, r1.2, false)
  else
    let r2 := memoree_write P (some mem) 0 (some (shift f (mem.info.size - addr)))
      (addr + len - mem.info.size) timeout_ms false r1.2
    if r2.1 ≠ ((addr + len - mem.info.size : Nat) : Int) then (r2.1, r2.2, false)
    else (r2.1, r2.2, true)

/-- The address field the spec describes for the in-band discipline: the low
`a` bits of `addr` as `a / 8` bytes, most significant byte first. -/
def spec_address_field (a addr : Nat) : List Nat :=
  (List.range (a / 8)).map (fun j => (addr % 2 ^ a) / 2 ^ (8 * (a / 8 - 1 - j)) % 256)

/-- The return expression of the I2C branch of `_memoree_write_bytes`,
`(ret > 0) ? ret - (addr_len / 8) : ret`, applied to the outcome `r` of
`platform_i2c_write`. -/
def i2c_return {σ : Type} (addr_len : Nat) (r : Int × σ) : Int × σ :=
  (if r.1 > 0 then r.1 - ((addr_len / 8 : Nat) : Int) else r.1, r.2)

/-- The device-select byte the spec describes for a folded address. -/
def spec_device_select (b a addr : Nat) : Nat := b ||| (((addr >>> a) <<< 1) &&& 0x0F)

/-- The first transaction of SFDP discovery as the spec describes it: 8-bit
opcode `0x5A`, 24-bit address 0, 8 dummy bits, 15 header bytes (the buffer,
preset to `0xFF`, is both written and read). -/
def sfdp_header_read (timeout_ms : Nat) : memoree_spi_transaction_t :=
  { cmd_len := 8, cmd := 0x5A, addr_len := 24, addr := 0, dummy_len := 8,
    read_len := 15, read_buff := true, write_len := 15,
    write_buff := some (List.replicate 15 0xFF), timeout_ms := u32 timeout_ms }

/-- The second transaction of SFDP discovery as the spec describes it, for the
header `rb`: same opcode, address width and dummy width, at the 24-bit table
pointer (bytes 12..14, little endian), for `4 * byte 11` bytes. -/
def sfdp_table_read (timeout_ms : Nat) (rb : Nat → Nat) : memoree_spi_transaction_t :=
  { cmd_len := 8, cmd := 0x5A, addr_len := 24, addr := rb 12 + 256 * rb 13 + 65536 * rb 14,
    dummy_len := 8, read_len := 4 * rb 11, read_buff := true, write_len := 4 * rb 11,
    write_buff := some (List.replicate (4 * rb 11) 0xFF), timeout_ms := u32 timeout_ms }

/-- The header starts with the ASCII signature "SFDP". -/
def spec_signature (rb : Nat → Nat) : Prop :=
  rb 0 = 0x53 ∧ rb 1 = 0x46 ∧ rb 2 = 0x44 ∧ rb 3 = 0x50

/-- The header checks of the spec after the signature: byte 7 is `0xFF` and
the table length (byte 11) is at least 2 words. -/
def spec_header_valid (rb : Nat → Nat) : Prop := rb 7 = 0xFF ∧ 2 ≤ rb 11

/-- The reserved bits of the parameter table as the spec wants them: bits 5..7
of byte 0 are `0b111`, bit 7 of byte 2 is set, byte 3 is `0xFF`. -/
def spec_table_reserved (tb : Nat → Nat) : Prop :=
  tb 0 / 32 % 8 = 7 ∧ tb 2 / 128 % 2 = 1 ∧ tb 3 = 0xFF

/-- The 31-bit little-endian value of table bytes 4..7 (the top bit of byte 7
left out). -/
def spec_flash_bits (tb : Nat → Nat) : Nat :=
  tb 4 + 256 * tb 5 + 65536 * tb 6 + 16777216 * (tb 7 % 128)

/-- The header as the first read of discovery leaves it in `read_buff`: byte
`i` of the 15-byte buffer. -/
def sfdp_header {σ : Type} (P : Platform σ) (mem : memoree) (timeout_ms : Nat) (s : σ) :
    Nat → Nat :=
  read_byte_of ((P.spi_write_read s mem.interface (sfdp_header_read timeout_ms)).2.1.take 15)

/-- The outcome of the second read of discovery (the table read), issued in
the state the header read leaves. -/
def sfdp_table_result {σ : Type} (P : Platform σ) (mem : memoree) (timeout_ms : Nat) (s : σ) :
    Int × List Nat × σ :=
  P.spi_write_read (P.spi_write_read s mem.interface (sfdp_header_read timeout_ms)).2.2
    mem.interface (sfdp_table_read timeout_ms (sfdp_header P mem timeout_ms s))

/-- The parameter table as the second read of discovery leaves it in
`sfdp_table`: byte `i` of the buffer. -/
def sfdp_table {σ : Type} (P : Platform σ) (mem : memoree) (timeout_ms : Nat) (s : σ) :
    Nat → Nat :=
  read_byte_of ((sfdp_table_result P mem timeout_ms s).2.1.take
    (4 * sfdp_header P mem timeout_ms s 11))

instance (rb : Nat → Nat) : Decidable (spec_signature rb) := by
  unfold spec_signature; infer_instance

instance (rb : Nat → Nat) : Decidable (spec_header_valid rb) := by
  unfold spec_header_valid; infer_instance

instance (tb : Nat → Nat) : Decidable (spec_table_reserved tb) := by
  unfold spec_table_reserved; infer_instance

/-- SFDP discovery as the spec describes it, step by step: the header read,
the signature check (else NotSupported), the header checks (else
InvalidHeader), the table read, the reserved-bit checks (else InvalidHeader),
then the decoded parameters and the handle with `size` (cut to the 32 bits of
the field), `addr_len` and `page_size` overwritten.  A failed read gives
`MEMOREE_ERR_FAIL`. -/
def spec_discovery {σ : Type} (P : Platform σ) (mem : memoree) (p : sfdp_param_t)
    (timeout_ms : Nat) (s : σ) : Int × Option sfdp_param_t × Option memoree × σ :=
  let r1 := P.spi_write_read s mem.interface (sfdp_header_read timeout_ms)
  let rb := sfdp_header P mem timeout_ms s
  let r2 := sfdp_table_result P mem timeout_ms s
  let tb := sfdp_table P mem timeout_ms s
  let p1 : sfdp_param_t :=
    { p with header_ver := (sfdp_decode p rb tb).header_ver
             header_cnt := (sfdp_decode p rb tb).header_cnt
             fparam_ver := (sfdp_decode p rb tb).fparam_ver
             fparam_size := (sfdp_decode p rb tb).fparam_size
             fparam_ptr := (sfdp_decode p rb tb).fparam_ptr }
  if r1.1 ≠ 0 then (MEMOREE_ERR_FAIL, some p, some mem, r1.2.2)
  else if ¬ spec_signature rb then (MEMOREE_ERR_SFDP_NOT_SUPPORTED, some p, some mem, r1.2.2)
  else if ¬ spec_header_valid rb then (MEMOREE_ERR_SFDP_INVALID_HEADER, some p, some mem, r1.2.2)
  else if r2.1 ≠ 0 then (MEMOREE_ERR_FAIL, some p1, some mem, r2.2.2)
  else if ¬ spec_table_reserved tb then
    (MEMOREE_ERR_SFDP_INVALID_HEADER, some p1, some mem, r2.2.2)
  else
    (MEMOREE_ERR_OK, some (sfdp_decode p rb tb),
      some { mem with info :=
        { mem.info with addr_len := 8 * (sfdp_decode p rb tb).addr_bytes
                        page_size := (sfdp_decode p rb tb).write_size
                        size := u32 (sfdp_decode p rb tb).size } }, r2.2.2)

/-- The SFDP address space of a 1 Mbit NOR flash: header as in `sfdp_8k`,
parameter table with the literal bit count 1048576 (top bit of byte 7 clear). -/
def sfdp_1M (a : Nat) : Nat :=
  [0x53, 0x46, 0x44, 0x50, 0x06, 0x01, 0x00, 0xFF, 0x00, 0x06, 0x01, 0x02, 0x10, 0x00, 0x00, 0xFF,
   0xE5, 0x20, 0x81, 0xFF, 0x00, 0x00, 0x10, 0x00].getD a 0xFF

/-- The SFDP address space of a NOR flash whose size field has its top bit set
and holds the exponent 20, otherwise as `sfdp_8k`. -/
def sfdp_exp20 (a : Nat) : Nat :=
  [0x53, 0x46, 0x44, 0x50, 0x06, 0x01, 0x00, 0xFF, 0x00, 0x06, 0x01, 0x02, 0x10, 0x00, 0x00, 0xFF,
   0xE5, 0x20, 0x81, 0xFF, 0x14, 0x00, 0x00, 0x80].getD a 0xFF

/-- The SFDP address space of an 8 KiB NOR flash whose address-width field
(bits 2:1 of table byte 2) is `0b01`, "3- or 4-byte addressing"; otherwise as
`sfdp_8k`. -/
def sfdp_addr01 (a : Nat) : Nat :=
  [0x53, 0x46, 0x44, 0x50, 0x06, 0x01, 0x00, 0xFF, 0x00, 0x06, 0x01, 0x02, 0x10, 0x00, 0x00, 0xFF,
   0xE5, 0x20, 0x83, 0xFF, 0x00, 0x00, 0x01, 0x00].getD a 0xFF

/-- The handle `mem_nor_8k` with a null interface pointer (an invalid handle). -/
def mem_nor_no_interface : memoree := { interface := 0, info := mem_nor_8k.info }

/-- An SFDP-variant handle as `memoree_init` has it when it calls
`memoree_get_sfdp`: the `mem_props` entry, no geometry yet. -/
def mem_sfdp_fresh : memoree :=
  { interface := 1, info := init_copy MEMOREE_VARIANT_25XX_SFDP { speed := 1000000 } }

/-- The answer of a transport on which every bus transaction fails with the
code `e`; the initialisers still hand out an interface. -/
def fail_with (e : Int) (_ : List Event) : Event → Int × List Nat
  | Event.i2c_init _ => (1, [])
  | Event.spi_init _ => (1, [])
  | Event.ms_delay _ => (0, [])
  | _ => (e, [])

/-- A handle of the SPI stub variant: the `mem_props` entry around an
interface pointer. -/
def mem_stub_spi : memoree :=
  { interface := 1, info := mem_props_at MEMOREE_VARIANT_STUB_SPI }

/-- A handle of the I2C stub variant. -/
def mem_stub_i2c : memoree :=
  { interface := 1, info := mem_props_at MEMOREE_VARIANT_STUB_I2C }

/-- The SFDP address space of a 16 Mbit NOR flash whose size field is
`0x00FFFFFF` (top bit clear, the last bit address), otherwise as `sfdp_8k`. -/
def sfdp_16M (a : Nat) : Nat :=
  [0x53, 0x46, 0x44, 0x50, 0x06, 0x01, 0x00, 0xFF, 0x00, 0x06, 0x01, 0x02, 0x10, 0x00, 0x00, 0xFF,
   0xE5, 0x20, 0x81, 0xFF, 0xFF, 0xFF, 0xFF, 0x00].getD a 0xFF

/-- Whether a natural number is a power of two. -/
def is_pow2 (n : Nat) : Bool := n != 0 && (n &&& (n - 1)) == 0

/-- A handle whose size, 6, is even and not a power of two; the other fields
are those of `mem_24XX02`. -/
def mem_size_6 : memoree :=
  { interface := 1
    info := { type := MEMOREE_TYPE_I2C, variant := MEMOREE_VARIANT_24XX02, size := 6,
              speed := 400000, addr_len := 8, addr := 0x50, page_size := 8, num_pages := 0,
              page_write_delay_ms := 5 } }

/-- Whether `reply` answered some bus transaction of `evs` with a negative
code, `pre` being the calls made before `evs`. -/
def any_failed (reply : List Event → Event → Int × List Nat) : List Event → List Event → Bool
  | _, [] => false
  | pre, e :: rest =>
    (is_transaction e && decide ((reply pre e).1 < 0)) || any_failed reply (pre ++ [e]) rest

/-- The calls of a run of chunks, each chunk being at most one bus transaction
followed by one delay of `d` milliseconds. -/
def page_blocks (d : Nat) : List Event → Bool
  | [] => true
  | Event.ms_delay ms :: rest => ms == d && page_blocks d rest
  | _ :: Event.ms_delay ms :: rest => ms == d && page_blocks d rest
  | _ => false

/-- The calls of one non-wrapping paged write as the code issues them: the
alignment chunk, followed by a delay of `d` milliseconds, then full-page
chunks, each followed by a delay of `2 * d` milliseconds. -/
def write_blocks (d : Nat) : List Event → Bool
  | Event.ms_delay ms :: rest => ms == d && page_blocks (2 * d) rest
  | _ :: Event.ms_delay ms :: rest => ms == d && page_blocks (2 * d) rest
  | _ => false

/-- The byte write the spec describes for byte `k` of a 93Cxx write: 3-bit
opcode `0b101`, address width `addr_len`, address `addr + k`, payload
`data[k]`. -/
def spec_byte_write (mem : memoree) (addr : Nat) (f : Nat → Nat) (timeout_ms k : Nat) : Event :=
  Event.spi_write_read mem.interface
    { cmd_len := 3, cmd := 0b101, addr_len := mem.info.addr_len, addr := addr + k,
      write_len := 1, write_buff := some [f k], timeout_ms := timeout_ms }

/-- The calls of the byte writes `k, k + 1, ..., k + n - 1`, each followed by
the delay of `page_write_delay_ms`. -/
def spec_byte_writes (mem : memoree) (addr : Nat) (f : Nat → Nat) (timeout_ms : Nat) :
    Nat → Nat → List Event
  | _, 0 => []
  | k, n + 1 =>
    spec_byte_write mem addr f timeout_ms k :: Event.ms_delay mem.info.page_write_delay_ms
      :: spec_byte_writes mem addr f timeout_ms (k + 1) n

/-- The write-enable transaction of the 93Cxx family as the spec describes it:
5-bit opcode `0b10011`, 5 address bits. -/
def spec_write_enable (mem : memoree) : Event :=
  Event.spi_write_read mem.interface { cmd_len := 5, cmd := 0b10011, addr_len := 5 }

/-- The read transaction the spec describes for the SPI families: opcode and
opcode width of the family, address `addr` of width `addr_len`, no dummy
bits, no write payload, `len` bytes to read. -/
def spec_spi_read (mem : memoree) (addr len timeout_ms : Nat) : memoree_spi_transaction_t :=
  { cmd_len := if mem.info.variant = MEMOREE_VARIANT_25XX_SFDP then 8 else 3
    cmd := if mem.info.variant = MEMOREE_VARIANT_25XX_SFDP then 0x03 else 0b110
    addr_len := mem.info.addr_len, addr := addr, dummy_len := 0, read_len := len,
    read_buff := true, write_len := 0, write_buff := none, timeout_ms := u32 timeout_ms }

/-! ## Behaviour at concrete inputs -/

set_option maxRecDepth 100000 in
/-- C1 (the code breaks the round trip): on a 24XX02 handle as `memoree_init`
returns it, over an ideal zero-filled chip, writing the 12 bytes 1..12 at
address 0 reports 12 bytes written, and reading the 12 bytes back returns
1..8 followed by four zeros: the bytes after the alignment chunk are never
sent. -/
theorem C1_round_trip_loses_tail :
    (memoree_init (ideal (mem_props_at MEMOREE_VARIANT_24XX02) (fun _ => 0) 0)
        MEMOREE_VARIANT_24XX02 (some { addr := 0x50, speed := 400000 }) (fun _ => 0)).1
      = some mem_24XX02
    ∧ bytes_at data_1_to_12 0 12 = [1, 2, 3, 4, 5, 6, 7, 8, 9, 10, 11, 12]
    ∧ (memoree_write (ideal mem_24XX02.info (fun _ => 0) 0) (some mem_24XX02) 0
        (some data_1_to_12) 12 0 false (fun _ => 0)).1 = 12
    ∧ (memoree_read (ideal mem_24XX02.info (fun _ => 0) 0) (some mem_24XX02) 0 true 12 0
        (memoree_write (ideal mem_24XX02.info (fun _ => 0) 0) (some mem_24XX02) 0
          (some data_1_to_12) 12 0 false (fun _ => 0)).2).1 = 12
    ∧ (memoree_read (ideal mem_24XX02.info (fun _ => 0) 0) (some mem_24XX02) 0 true 12 0
        (memoree_write (ideal mem_24XX02.info (fun _ => 0) 0) (some mem_24XX02) 0
          (some data_1_to_12) 12 0 false (fun _ => 0)).2).2.1
      = [1, 2, 3, 4, 5, 6, 7, 8, 0, 0, 0, 0] := by
  decide

set_option maxRecDepth 100000 in
/-- C2 (the code breaks the byte count): on the 24XX02 handle, with a transport
that accepts every transaction in full, a write of 12 bytes at address 0
issues a single I2C write carrying the address byte and 8 payload bytes, and
still returns 12. -/
theorem C2_return_exceeds_bytes_sent :
    memoree_write (logging accept_all) (some mem_24XX02) 0 (some data_1_to_12) 12 0 false []
      = (12, [Event.i2c_write 1 0x50 [0, 1, 2, 3, 4, 5, 6, 7, 8] 0, Event.ms_delay 5])
    ∧ ((memoree_write (logging accept_all) (some mem_24XX02) 0 (some data_1_to_12) 12 0 false
          []).2.map (payload_bytes mem_24XX02.info)).sum = 8 := by
  decide

set_option maxRecDepth 100000 in
/-- C4 (the code does not wrap on the 93Cxx family): on a 93C56 handle (256
bytes, 9 address bits) a write of 2 bytes at address 255 with `wrap = true`
sends the second byte with address field 256, not 0. -/
theorem C4_93cxx_address_runs_past_size :
    memoree_write (logging accept_all) (some mem_93C56) 255 (some data_1_to_12) 2 0 true []
      = (2, [Event.spi_write_read 1 { cmd_len := 5, cmd := MEMOREE_CMD_93CXX_WEN, addr_len := 5 },
             Event.spi_write_read 1 { cmd_len := 3, cmd := MEMOREE_CMD_93CXX_WRITE, addr_len := 9,
                                      addr := 255, write_len := 1, write_buff := some [1] },
             Event.ms_delay 5,
             Event.spi_write_read 1 { cmd_len := 3, cmd := MEMOREE_CMD_93CXX_WRITE, addr_len := 9,
                                      addr := 256, write_len := 1, write_buff := some [2] },
             Event.ms_delay 5])
    ∧ (255 + 1) % mem_93C56.info.size = 0 := by
  decide

set_option maxRecDepth 100000 in
/-- C5 (the code mis-truncates): on the 24XX02 handle a non-wrapping write of
600 bytes at address 0 returns `MEMOREE_ERR_FAIL` although the transport
accepts every transaction; the length is cut by `600 % 256 = 88` to 512, not
to `size - addr = 256`. -/
theorem C5_truncation_wrong_past_twice_size :
    (memoree_write (logging accept_all) (some mem_24XX02) 0 (some data_AA) 600 0 false []).1
      = MEMOREE_ERR_FAIL
    ∧ usub32 600 (u32 (0 + 600) % mem_24XX02.info.size) = 512
    ∧ mem_24XX02.info.size - 0 = 256 := by
  decide

set_option maxRecDepth 100000 in
/-- C6 (the code lets an out-of-range read through): on the valid 24XX02
handle (size 256) `memoree_read` at address 256 issues an I2C write-read, to
select address `0x52`, and returns the requested length 4. -/
theorem C6_read_past_size_reaches_bus :
    MEMOREE_ISVALID (some mem_24XX02) = true
    ∧ mem_24XX02.info.size = 256
    ∧ memoree_read (logging accept_all) (some mem_24XX02) 256 true 4 100 []
      = (4, [0, 0, 0, 0], [Event.i2c_write_read 1 0x52 [0] 4 100]) := by
  decide

set_option maxRecDepth 100000 in
/-- C7 (the code lets an out-of-range write through): on a valid 93C46 handle
(size 128) `memoree_write` at address 128 issues a write-enable and a byte
write at address 0 and returns 1; on the valid 24XX02 handle a write at
address 256 returns `MEMOREE_ERR_FAIL`, not `MEMOREE_ERR_INVALID_ARG`. -/
theorem C7_write_past_size_reaches_bus :
    MEMOREE_ISVALID (some mem_93C46) = true
    ∧ mem_93C46.info.size = 128
    ∧ memoree_write (logging accept_all) (some mem_93C46) 128 (some data_AA) 1 0 false []
      = (1, [Event.spi_write_read 1 { cmd_len := 5, cmd := MEMOREE_CMD_93CXX_WEN, addr_len := 5 },
             Event.spi_write_read 1 { cmd_len := 3, cmd := MEMOREE_CMD_93CXX_WRITE, addr_len := 7,
                                      addr := 0, write_len := 1, write_buff := some [0xAA] },
             Event.ms_delay 10])
    ∧ memoree_write (logging accept_all) (some mem_24XX02) 256 (some data_AA) 1 0 false []
      = (MEMOREE_ERR_FAIL, [Event.ms_delay 5]) := by
  decide

set_option maxRecDepth 100000 in
/-- C10 (the code erases one sector only): on the handle `memoree_init` returns
for an ideal 8 KiB NOR flash that reports a 4KB erase opcode, `memoree_erase`
with value `0xFF` returns `MEMOREE_ERR_OK`, yet a following read at address
4096 returns the old byte `0x00`: only the sector at address 0 was erased. -/
theorem C10_erase_stops_after_first_sector :
    (memoree_init (ideal (mem_props_at MEMOREE_VARIANT_25XX_SFDP) sfdp_8k 0x20)
        MEMOREE_VARIANT_25XX_SFDP (some { speed := 1000000 }) (fun _ => 0)).1 = some mem_nor_8k
    ∧ (memoree_erase (ideal mem_nor_8k.info sfdp_8k 0x20) (some mem_nor_8k) 0xFF
        (fun _ => 0)).1 = MEMOREE_ERR_OK
    ∧ (memoree_erase (ideal mem_nor_8k.info sfdp_8k 0x20) (some mem_nor_8k) 0xFF
        (fun _ => 0)).2.1 = some mem_nor_8k
    ∧ (memoree_read (ideal mem_nor_8k.info sfdp_8k 0x20) (some mem_nor_8k) 4095 true 2 0
        (memoree_erase (ideal mem_nor_8k.info sfdp_8k 0x20) (some mem_nor_8k) 0xFF
          (fun _ => 0)).2.2).1 = 2
    ∧ (memoree_read (ideal mem_nor_8k.info sfdp_8k 0x20) (some mem_nor_8k) 4095 true 2 0
        (memoree_erase (ideal mem_nor_8k.info sfdp_8k 0x20) (some mem_nor_8k) 0xFF
          (fun _ => 0)).2.2).2.1 = [0xFF, 0x00] := by
  decide

/-! ## Lemmas on the code -/

/-- For a registry variant (valid and not the SFDP one) `memoree_init` returns
`registry_handle` around the interface the platform hands out, or `none`
when the platform returns no interface. -/
theorem memoree_init_registry {σ : Type} (P : Platform σ) (v : Nat) (conf : interface_conf_t)
    (s : σ) (hv : VARIANT_ISVALID v = true) (hn : v ≠ MEMOREE_VARIANT_25XX_SFDP) :
    memoree_init P v (some conf) s
      = (if ((if v < MEMOREE_VARIANT_I2C_MAX
                then P.i2c_init s { conf with speed := init_speed v conf.speed }
                else P.spi_init s { conf with speed := init_speed v conf.speed }).1 = 0)
         then none
         else some (registry_handle v
           (if v < MEMOREE_VARIANT_I2C_MAX
              then P.i2c_init s { conf with speed := init_speed v conf.speed }
              else P.spi_init s { conf with speed := init_speed v conf.speed }).1
           conf.addr (init_speed v conf.speed)),
         (if v < MEMOREE_VARIANT_I2C_MAX
            then P.i2c_init s { conf with speed := init_speed v conf.speed }
            else P.spi_init s { conf with speed := init_speed v conf.speed }).2) := by
  have hlt : v < 20 := by
    simp only [VARIANT_ISVALID, MEMOREE_VARIANT_MAX, Bool.and_eq_true, decide_eq_true_eq] at hv
    exact hv.1.1.1.1
  have hcv : (init_copy v conf).variant = (mem_props_at v).variant := by
    unfold init_copy
    by_cases h : (mem_props_at v).type = memoree_type_t.MEMOREE_TYPE_I2C <;> simp [h]
  have hvar : (init_copy v conf).variant ≠ MEMOREE_VARIANT_25XX_SFDP := by
    rw [hcv]
    simp only [MEMOREE_VARIANT_25XX_SFDP] at hn ⊢
    interval_cases v <;> first | exact absurd rfl hn | decide
  have hcopy : init_copy v { addr := conf.addr, speed := init_speed v conf.speed }
      = init_copy v conf := rfl
  unfold memoree_init
  simp only [hv, not_true_eq_false, if_false, hvar, registry_handle, hcopy]
  by_cases h1 : v < MEMOREE_VARIANT_I2C_MAX
  · simp only [h1, if_true]
    split <;> rfl
  · simp only [h1, if_false]
    split <;> rfl

theorem u8_of_lt {n : Nat} (h : n < 256) : u8 n = n := Nat.mod_eq_of_lt h

theorem u8_select (b x : Nat) (hb : b < 256) : u8 (b ||| (x &&& 0x0F)) = b ||| (x &&& 0x0F) := by
  unfold u8
  apply Nat.mod_eq_of_lt
  have h1 : x &&& 0x0F < 2 ^ 8 := Nat.and_lt_two_pow x (by norm_num)
  have h2 : b < 2 ^ 8 := by simpa using hb
  simpa using Nat.or_lt_two_pow h2 h1

theorem low_nibble_of_select (b x : Nat) (hb : b &&& 0x0F = 0) :
    (b ||| (x &&& 0x0F)) &&& 0x0F = x &&& 0x0F := by
  apply Nat.eq_of_testBit_eq
  intro i
  have h : (b &&& 0x0F).testBit i = false := by rw [hb]; exact Nat.zero_testBit i
  simp only [Nat.testBit_and, Nat.testBit_or] at h ⊢
  generalize Nat.testBit 15 i = t at h ⊢
  generalize b.testBit i = bb at h ⊢
  generalize x.testBit i = xx
  cases bb <;> cases xx <;> cases t <;> simp_all

/-- Unfolding of `_memoree_write_bytes` on the I2C branch. -/
theorem write_bytes_i2c {σ : Type} (P : Platform σ) (mem : memoree) (addr len timeout_ms : Nat)
    (f : Nat → Nat) (s : σ) (k : Int)
    (hvar : mem.info.variant < MEMOREE_VARIANT_I2C_MAX) (haddr : addr < mem.info.size)
    (hk : toInt8 (_get_address_space (some mem)) = k) (hpos : 0 < k) :
    _memoree_write_bytes P (some mem) addr (some f) len timeout_ms s
      = i2c_return mem.info.addr_len
          (P.i2c_write s mem.interface
            (if k ≤ (mem.info.addr_len : Int) then mem.info.addr
             else u8 (mem.info.addr ||| (((addr >>> mem.info.addr_len) <<< 1) &&& 0x0F)))
            (address_bytes addr (mem.info.addr_len / 8) mem.info.addr_len ++ bytes_at f 0 len)
            timeout_ms) := by
  have h1 : ¬ k ≤ 0 := by omega
  simp [_memoree_write_bytes, ADDRESS_ISVALID, haddr, hvar, hk, h1, i2c_return]

/-- The fields `memoree_init` gives the handle of an I2C registry variant. -/
theorem registry_handle_i2c (v interface b speed : Nat)
    (hv : MEMOREE_VARIANT_STUB_I2C < v ∧ v < MEMOREE_VARIANT_I2C_MAX) :
    (registry_handle v interface b speed).interface = interface
    ∧ (registry_handle v interface b speed).info.variant = v
    ∧ (registry_handle v interface b speed).info.size = (mem_props_at v).size
    ∧ (registry_handle v interface b speed).info.addr_len = (mem_props_at v).addr_len
    ∧ (registry_handle v interface b speed).info.page_size = (mem_props_at v).page_size
    ∧ (registry_handle v interface b speed).info.addr = u8 b := by
  obtain ⟨h1, h2⟩ := hv
  simp only [MEMOREE_VARIANT_STUB_I2C, MEMOREE_VARIANT_I2C_MAX] at h1 h2
  interval_cases v <;> exact ⟨rfl, rfl, rfl, rfl, rfl, rfl⟩

/-- The address-space width the code computes for an I2C registry variant is
positive, and it exceeds the native address width unless the array is
smaller than the native address range. -/
theorem address_space_i2c (mem : memoree) (v : Nat)
    (hv : MEMOREE_VARIANT_STUB_I2C < v ∧ v < MEMOREE_VARIANT_I2C_MAX)
    (hsize : mem.info.size = (mem_props_at v).size) :
    0 < toInt8 (_get_address_space (some mem))
    ∧ (toInt8 (_get_address_space (some mem)) ≤ ((mem_props_at v).addr_len : Int)
        ↔ (mem_props_at v).size < 2 ^ (mem_props_at v).addr_len) := by
  obtain ⟨h1, h2⟩ := hv
  simp only [MEMOREE_VARIANT_STUB_I2C, MEMOREE_VARIANT_I2C_MAX] at h1 h2
  unfold _get_address_space
  simp only [hsize]
  interval_cases v <;> decide

/-- C8: for every I2C registry variant whose array is larger than its native
address range (`size > 2 ^ addr_len`), every base select address `b` and every
`addr < size`, `_memoree_write_bytes` passes the device-select byte
`b | (((addr >> addr_len) << 1) & 0x0F)` to `platform_i2c_write`; when the low
nibble of `b` is zero, the low nibble of that byte is
`((addr >> addr_len) << 1) & 0x0F`. -/
theorem C8_device_select_folding {σ : Type} (P : Platform σ) (s : σ)
    (v interface b speed addr len timeout_ms : Nat) (f : Nat → Nat)
    (hv : MEMOREE_VARIANT_STUB_I2C < v ∧ v < MEMOREE_VARIANT_I2C_MAX)
    (hwide : 2 ^ (mem_props_at v).addr_len < (mem_props_at v).size)
    (hb : b < 256) (haddr : addr < (mem_props_at v).size) :
    _memoree_write_bytes P (some (registry_handle v interface b speed)) addr (some f) len
        timeout_ms s
      = i2c_return (mem_props_at v).addr_len
          (P.i2c_write s interface (spec_device_select b (mem_props_at v).addr_len addr)
            (address_bytes addr ((mem_props_at v).addr_len / 8) (mem_props_at v).addr_len
              ++ bytes_at f 0 len) timeout_ms)
    ∧ (b &&& 0x0F = 0 →
        spec_device_select b (mem_props_at v).addr_len addr &&& 0x0F
          = ((addr >>> (mem_props_at v).addr_len) <<< 1) &&& 0x0F) := by
  refine ⟨?_, fun h0 => low_nibble_of_select b _ h0⟩
  obtain ⟨hi, hvar, hsz, hal, -, hsel⟩ := registry_handle_i2c v interface b speed hv
  obtain ⟨hpos, hle⟩ := address_space_i2c (registry_handle v interface b speed) v hv hsz
  have hnle : ¬ toInt8 (_get_address_space (some (registry_handle v interface b speed)))
      ≤ ((mem_props_at v).addr_len : Int) := fun h => by
    have := hle.mp h
    omega
  rw [write_bytes_i2c P _ addr len timeout_ms f s _ (by rw [hvar]; exact hv.2)
    (by rw [hsz]; exact haddr) rfl hpos]
  rw [hal, hi, hsel, u8_of_lt hb, if_neg hnle, u8_select _ _ hb]
  rfl

theorem addr_len_i2c (v : Nat) (hv : MEMOREE_VARIANT_STUB_I2C < v ∧ v < MEMOREE_VARIANT_I2C_MAX) :
    (mem_props_at v).addr_len = 8 ∨ (mem_props_at v).addr_len = 16 := by
  obtain ⟨h1, h2⟩ := hv
  simp only [MEMOREE_VARIANT_STUB_I2C, MEMOREE_VARIANT_I2C_MAX] at h1 h2
  interval_cases v <;> decide

theorem address_bytes_8 (addr : Nat) : address_bytes addr (8 / 8) 8 = spec_address_field 8 addr := by
  simp [address_bytes, spec_address_field, u8, List.range_succ, Nat.shiftRight_eq_div_pow]

theorem address_bytes_16 (addr : Nat) :
    address_bytes addr (16 / 8) 16 = spec_address_field 16 addr := by
  simp [address_bytes, spec_address_field, u8, List.range_succ, Nat.shiftRight_eq_div_pow]
  omega

theorem bytes_at_length (f : Nat → Nat) (off n : Nat) : (bytes_at f off n).length = n := by
  simp [bytes_at]

theorem spec_address_field_length (a addr : Nat) : (spec_address_field a addr).length = a / 8 := by
  simp [spec_address_field]

/-- C9: for every I2C registry variant (native width `a`, 8 or 16), every
`addr < size` and every payload of `len` bytes, `_memoree_write_bytes` issues a
single `platform_i2c_write` whose buffer has `a / 8 + len` bytes: the low `a`
bits of `addr` as `a / 8` bytes, most significant first, then the payload
unchanged; when the transport reports the whole buffer written, the function
returns `len`. -/
theorem C9_in_band_address_framing {σ : Type} (P : Platform σ) (s : σ)
    (v interface b speed addr len timeout_ms : Nat) (f : Nat → Nat)
    (hv : MEMOREE_VARIANT_STUB_I2C < v ∧ v < MEMOREE_VARIANT_I2C_MAX)
    (haddr : addr < (mem_props_at v).size) :
    ((mem_props_at v).addr_len = 8 ∨ (mem_props_at v).addr_len = 16)
    ∧ (spec_address_field (mem_props_at v).addr_len addr ++ bytes_at f 0 len).length
        = (mem_props_at v).addr_len / 8 + len
    ∧ ∃ sel : Nat,
        _memoree_write_bytes P (some (registry_handle v interface b speed)) addr (some f) len
            timeout_ms s
          = i2c_return (mem_props_at v).addr_len
              (P.i2c_write s interface sel
                (spec_address_field (mem_props_at v).addr_len addr ++ bytes_at f 0 len) timeout_ms)
        ∧ ((P.i2c_write s interface sel
                (spec_address_field (mem_props_at v).addr_len addr ++ bytes_at f 0 len)
                timeout_ms).1 = (((mem_props_at v).addr_len / 8 + len : Nat) : Int) →
            (_memoree_write_bytes P (some (registry_handle v interface b speed)) addr (some f) len
              timeout_ms s).1 = (len : Int)) := by
  have ha := addr_len_i2c v hv
  obtain ⟨hi, hvar, hsz, hal, -, -⟩ := registry_handle_i2c v interface b speed hv
  obtain ⟨hpos, -⟩ := address_space_i2c (registry_handle v interface b speed) v hv hsz
  have hbytes : address_bytes addr ((mem_props_at v).addr_len / 8) (mem_props_at v).addr_len
      = spec_address_field (mem_props_at v).addr_len addr := by
    rcases ha with h | h <;> rw [h]
    · exact address_bytes_8 addr
    · exact address_bytes_16 addr
  have hw := write_bytes_i2c P (registry_handle v interface b speed) addr len timeout_ms f s _
    (by rw [hvar]; exact hv.2) (by rw [hsz]; exact haddr) rfl hpos
  rw [hal, hi, hbytes] at hw
  refine ⟨ha, ?_, _, hw, ?_⟩
  · rw [List.length_append, spec_address_field_length, bytes_at_length]
  · intro hret
    rw [hw]
    have h8 : 0 < (mem_props_at v).addr_len / 8 := by rcases ha with h | h <;> rw [h] <;> decide
    simp only [i2c_return, hret]
    rw [if_pos (by omega)]
    push_cast
    omega

/-- A non-wrapping `memoree_write` never calls itself: any positive budget gives
the result of budget one. -/
theorem memoree_write_rec_nowrap {σ : Type} (P : Platform σ) (k : Nat) (m : Option memoree)
    (addr : Nat) (data : buffer_t) (len timeout_ms : Nat) (s : σ) :
    memoree_write_rec P (k + 1) m addr data len timeout_ms false s
      = memoree_write_rec P 1 m addr data len timeout_ms false s := by
  simp [memoree_write_rec]

/-- The budget of `memoree_write` is never used up: a larger budget gives the
same result. -/
theorem memoree_write_rec_budget {σ : Type} (P : Platform σ) (k : Nat) (m : Option memoree)
    (addr : Nat) (data : buffer_t) (len timeout_ms : Nat) (wrap : Bool) (s : σ) :
    memoree_write_rec P (k + 2) m addr data len timeout_ms wrap s
      = memoree_write P m addr data len timeout_ms wrap s := by
  unfold memoree_write
  cases wrap
  · rw [memoree_write_rec_nowrap P (k + 1), memoree_write_rec_nowrap P 1]
  · cases m with
    | none => simp [memoree_write_rec]
    | some mem =>
      cases data with
      | none => simp [memoree_write_rec]
      | some f =>
        conv_lhs => rw [memoree_write_rec]
        conv_rhs => rw [memoree_write_rec]
        simp only [memoree_write_rec_nowrap P k, memoree_write_rec_nowrap P 0]

theorem toInt32_of_lt {n : Nat} (h : n < 2147483648) : toInt32 n = (n : Int) := by
  unfold toInt32
  have h1 : n % 4294967296 = n := Nat.mod_eq_of_lt (by omega)
  rw [h1, if_pos h]

/-- A wrapping write that crosses the end of the array is the two non-wrapping
writes of `two_writes`, and returns the length as an `int` when both return
their full length. -/
theorem memoree_write_wrap_eq {σ : Type} (P : Platform σ) (s : σ) (mem : memoree)
    (addr len timeout_ms : Nat) (f : Nat → Nat)
    (hfam : mem.info.variant < MEMOREE_VARIANT_I2C_MAX
      ∨ mem.info.variant = MEMOREE_VARIANT_25XX_SFDP)
    (haddr : addr < mem.info.size) (hover : mem.info.size < addr + len)
    (hlen : addr + len < 4294967296) :
    memoree_write P (some mem) addr (some f) len timeout_ms true s
      = (if (two_writes P mem addr f len timeout_ms s).2.2 then toInt32 len
         else (two_writes P mem addr f len timeout_ms s).1,
         (two_writes P mem addr f len timeout_ms s).2.1) := by
  have hu : u32 (addr + len) = addr + len := Nat.mod_eq_of_lt hlen
  have hov : (0 : Int) < ((addr + len : Nat) : Int) - (mem.info.size : Int) := by omega
  have hn1 : ofInt32 ((len : Int) - (((addr + len : Nat) : Int) - (mem.info.size : Int)))
      = mem.info.size - addr := by
    unfold ofInt32; omega
  have hn2 : ofInt32 (((addr + len : Nat) : Int) - (mem.info.size : Int))
      = addr + len - mem.info.size := by
    unfold ofInt32; omega
  have he1 : (len : Int) - (((addr + len : Nat) : Int) - (mem.info.size : Int))
      = ((mem.info.size - addr : Nat) : Int) := by omega
  have he2 : ((addr + len : Nat) : Int) - (mem.info.size : Int)
      = ((addr + len - mem.info.size : Nat) : Int) := by omega
  have hnot : ¬ (MEMOREE_VARIANT_I2C_MAX < mem.info.variant
      ∧ mem.info.variant < MEMOREE_VARIANT_93CXX_MAX) := by
    simp only [MEMOREE_VARIANT_I2C_MAX, MEMOREE_VARIANT_93CXX_MAX, MEMOREE_VARIANT_25XX_SFDP]
      at hfam ⊢
    omega
  have hw : ∀ (a : Nat) (d : buffer_t) (l : Nat) (s0 : σ),
      memoree_write P (some mem) a d l timeout_ms false s0
        = memoree_write_rec P 1 (some mem) a d l timeout_ms false s0 :=
    fun a d l s0 => memoree_write_rec_nowrap P 1 (some mem) a d l timeout_ms s0
  unfold two_writes
  simp only [hw]
  unfold memoree_write
  rw [memoree_write_rec]
  simp only [ADDRESS_ISVALID, haddr, decide_True, Bool.not_true, Bool.and_false, Option.isNone_some,
    Bool.or_self, Bool.false_eq_true, if_false, hu, hnot, hfam, if_true, hov, and_self, hn1, hn2]
  rw [he1, he2]
  by_cases h1 : (memoree_write_rec P 1 (some mem) addr (some f) (mem.info.size - addr) timeout_ms
      false s).1 = ((mem.info.size - addr : Nat) : Int)
  · simp only [h1, ne_eq, not_true_eq_false, if_false, Int.toNat_ofNat]
    by_cases h2 : (memoree_write_rec P 1 (some mem) 0 (some (shift f (mem.info.size - addr)))
        (addr + len - mem.info.size) timeout_ms false
        (memoree_write_rec P 1 (some mem) addr (some f) (mem.info.size - addr) timeout_ms
          false s).2).1 = ((addr + len - mem.info.size : Nat) : Int)
    · simp [h2]
    · simp [h2]
  · simp [h1]

/-- A page program on an SFDP handle that the transport accepts returns the
length as an `int`. -/
theorem write_bytes_sfdp_ok {σ : Type} (P : Platform σ)
    (hP : ∀ (s : σ) (i : Nat) (t : memoree_spi_transaction_t), (P.spi_write_read s i t).1 = 0)
    (mem : memoree) (hvar : mem.info.variant = MEMOREE_VARIANT_25XX_SFDP)
    (addr n timeout_ms : Nat) (f : Nat → Nat) (s : σ) (haddr : addr < mem.info.size) :
    (_memoree_write_bytes P (some mem) addr (some f) n timeout_ms s).1 = toInt32 n := by
  simp [_memoree_write_bytes, ADDRESS_ISVALID, haddr, hvar, hP, MEMOREE_VARIANT_25XX_SFDP,
    MEMOREE_VARIANT_I2C_MAX]

/-- The page loop runs to its end when the transport accepts every page program
and every page address is inside the array. -/
theorem write_page_loop_ok {σ : Type} (P : Platform σ)
    (hP : ∀ (s : σ) (i : Nat) (t : memoree_spi_transaction_t), (P.spi_write_read s i t).1 = 0)
    (mem : memoree) (hvar : mem.info.variant = MEMOREE_VARIANT_25XX_SFDP)
    (hps : mem.info.page_size < 2147483648) (addr : Nat) (f : Nat → Nat) :
    ∀ (n i : Nat) (s : σ),
      (∀ j, i ≤ j → j < i + n → u32 (addr + mem.info.page_size * j) < mem.info.size) →
      (write_page_loop P mem addr f n i s).1 = false := by
  intro n
  induction n with
  | zero => intro i s _; rfl
  | succ n ih =>
    intro i s h
    have h0 := h i (Nat.le_refl i) (by omega)
    have hw := write_bytes_sfdp_ok P hP mem hvar (u32 (addr + mem.info.page_size * i))
      mem.info.page_size (MEMOREE_DEFAULT_TIMEOUT mem mem.info.page_size)
      (shift f (mem.info.page_size * i)) s h0
    rw [toInt32_of_lt hps] at hw
    unfold write_page_loop
    simp only [hw]
    rw [if_neg (by omega)]
    exact ih (i + 1) _ (fun j h1 h2 => h j (by omega) (by omega))

/-- The chunked write returns the length as an `int` when the transport accepts
every page program and every chunk starts inside the array. -/
theorem write_chunks_ok {σ : Type} (P : Platform σ)
    (hP : ∀ (s : σ) (i : Nat) (t : memoree_spi_transaction_t), (P.spi_write_read s i t).1 = 0)
    (mem : memoree) (hvar : mem.info.variant = MEMOREE_VARIANT_25XX_SFDP)
    (hps : mem.info.page_size < 65536) (addr data_len : Nat) (f : Nat → Nat) (s : σ)
    (haddr : addr < mem.info.size)
    (hpages : ∀ j, j < u16 (usub32 data_len
        (u16 (usub32 mem.info.page_size (addr % mem.info.page_size))) / mem.info.page_size) →
      u32 (u32 (addr + u16 (usub32 mem.info.page_size (addr % mem.info.page_size)))
        + mem.info.page_size * j) < mem.info.size) :
    (write_chunks P mem addr f data_len s).1 = toInt32 data_len := by
  have ha : u16 (usub32 mem.info.page_size (addr % mem.info.page_size)) < 2147483648 := by
    unfold u16; omega
  have hw := write_bytes_sfdp_ok P hP mem hvar addr
    (u16 (usub32 mem.info.page_size (addr % mem.info.page_size)))
    (MEMOREE_DEFAULT_TIMEOUT mem (u16 (usub32 mem.info.page_size (addr % mem.info.page_size))))
    f s haddr
  rw [toInt32_of_lt ha] at hw
  unfold write_chunks
  simp only [hw]
  rw [if_neg (by omega)]
  rw [write_page_loop_ok P hP mem hvar (by omega) _ _ _ 0 _
    (fun j _ h2 => hpages j (by omega))]
  simp

/-- A non-wrapping write on the 128 MiB NOR handle that starts at address 0 and
whose length is a multiple of the array size below 2^31 returns that length
when the transport accepts every transaction. -/
theorem nor_128M_write_ok {σ : Type} (P : Platform σ)
    (hP : ∀ (s : σ) (i : Nat) (t : memoree_spi_transaction_t), (P.spi_write_read s i t).1 = 0)
    (len timeout_ms : Nat) (f : Nat → Nat) (s : σ)
    (hlen : len = 134217728 ∨ len = 2013265920) :
    (memoree_write P (some mem_nor_128M) 0 (some f) len timeout_ms false s).1 = (len : Int) := by
  have hc : ∀ dl, dl = 134217728 ∨ dl = 2013265920 →
      (write_chunks P mem_nor_128M 0 f dl s).1 = (dl : Int) := by
    intro dl hdl
    rw [write_chunks_ok P hP mem_nor_128M rfl (by decide) 0 dl f s (by decide)]
    · rcases hdl with h | h <;> rw [h] <;> decide
    · intro j hj
      have hN : u16 (usub32 dl (u16 (usub32 mem_nor_128M.info.page_size
          (0 % mem_nor_128M.info.page_size))) / mem_nor_128M.info.page_size) = 65535 := by
        rcases hdl with h | h <;> rw [h] <;> decide
      rw [hN] at hj
      have h64 : mem_nor_128M.info.page_size = 64 := rfl
      have hsz : mem_nor_128M.info.size = 134217728 := rfl
      rw [h64, hsz]
      unfold u32 u16 usub32
      omega
  unfold memoree_write
  rw [memoree_write_rec]
  rcases hlen with h | h <;> subst h
  · exact hc 134217728 (Or.inl rfl)
  · exact hc 2013265920 (Or.inr rfl)

theorem logging_accepts_spi (s : List Event) (i : Nat) (t : memoree_spi_transaction_t) :
    ((logging accept_all).spi_write_read s i t).1 = 0 := rfl

/-! ## General theorems -/

/-- The wrap branch of C3 as two writes: on an I2C-family or SFDP handle, for `addr < size`
and `size < addr + len < 2^32`, `memoree_write` with `wrap = true` leaves the
transport in the state reached by the non-wrapping write of `[addr, size)`
followed by the non-wrapping write of `[0, addr + len - size)` from the rest of
the buffer (so it issues exactly their transactions and delays); when one of
them returns something else than its length it returns that value and issues
nothing further; when both return their full length it returns `len`
converted to `int`, which is `len` itself for `len < 2^31`. -/
theorem C3_wrap_is_two_writes {σ : Type} (P : Platform σ) (s : σ) (mem : memoree)
    (addr len timeout_ms : Nat) (f : Nat → Nat)
    (hfam : mem.info.variant < MEMOREE_VARIANT_I2C_MAX
      ∨ mem.info.variant = MEMOREE_VARIANT_25XX_SFDP)
    (haddr : addr < mem.info.size) (hover : mem.info.size < addr + len)
    (hlen : addr + len < 4294967296) :
    memoree_write P (some mem) addr (some f) len timeout_ms true s
      = (if (two_writes P mem addr f len timeout_ms s).2.2 then toInt32 len
         else (two_writes P mem addr f len timeout_ms s).1,
         (two_writes P mem addr f len timeout_ms s).2.1)
    ∧ (len < 2147483648 → toInt32 len = (len : Int)) :=
  ⟨memoree_write_wrap_eq P s mem addr len timeout_ms f hfam haddr hover hlen, toInt32_of_lt⟩

set_option maxRecDepth 100000 in
/-- The wrap branch at a 24XX02 handle: a wrapping write of 10 bytes at address
250 over a transport that accepts everything. -/
theorem C3_wrap_is_two_writes_witness :
    (mem_24XX02.info.variant < MEMOREE_VARIANT_I2C_MAX
      ∨ mem_24XX02.info.variant = MEMOREE_VARIANT_25XX_SFDP)
    ∧ 250 < mem_24XX02.info.size ∧ mem_24XX02.info.size < 250 + 10
    ∧ 250 + 10 < 4294967296
    ∧ (memoree_write (logging accept_all) (some mem_24XX02) 250 (some data_1_to_12) 10 0 true []
        = (if (two_writes (logging accept_all) mem_24XX02 250 data_1_to_12 10 0 []).2.2
            then toInt32 10
            else (two_writes (logging accept_all) mem_24XX02 250 data_1_to_12 10 0 []).1,
           (two_writes (logging accept_all) mem_24XX02 250 data_1_to_12 10 0 []).2.1)
      ∧ (10 < 2147483648 → toInt32 10 = ((10 : Nat) : Int))) :=
  ⟨by decide, by decide, by decide, by decide,
    C3_wrap_is_two_writes (logging accept_all) [] mem_24XX02 250 10 0 data_1_to_12
      (by decide) (by decide) (by decide) (by decide)⟩

set_option maxRecDepth 100000 in
/-- C3 (the code returns a negative count): on the handle `memoree_init`
returns for an ideal 128 MiB NOR flash, with a transport that accepts every
transaction, a wrapping write of `2^31` bytes at address 0 has both
non-wrapping writes return their full length, and `memoree_write` returns
`-2^31`, not `len`.  The second write is asked for 15 times the size; it comes
back with that length because `(addr + len) % size` is 0, so nothing is cut
off, and because the page count 31457279 is cut to 65535. -/
theorem C3_wrap_return_not_len :
    (memoree_init (ideal (mem_props_at MEMOREE_VARIANT_25XX_SFDP) sfdp_128M 0x20)
        MEMOREE_VARIANT_25XX_SFDP (some { speed := 1000000 }) (fun _ => 0)).1
      = some mem_nor_128M
    ∧ mem_nor_128M.info.variant = MEMOREE_VARIANT_25XX_SFDP
    ∧ 0 < mem_nor_128M.info.size
    ∧ mem_nor_128M.info.size < 0 + 2147483648
    ∧ 0 + 2147483648 < 4294967296
    ∧ (two_writes (logging accept_all) mem_nor_128M 0 data_AA 2147483648 0 []).2.2 = true
    ∧ (memoree_write (logging accept_all) (some mem_nor_128M) 0 (some data_AA) 2147483648 0
        true []).1 = -2147483648
    ∧ 0 + 2147483648 - mem_nor_128M.info.size = 15 * mem_nor_128M.info.size
    ∧ usub32 2013265920 (u32 (0 + 2013265920) % mem_nor_128M.info.size) = 2013265920
    ∧ (2013265920 - 64) / mem_nor_128M.info.page_size = 31457279
    ∧ u16 (usub32 2013265920 64 / mem_nor_128M.info.page_size) = 65535 := by
  have h2 : (two_writes (logging accept_all) mem_nor_128M 0 data_AA 2147483648 0 []).2.2
      = true := by
    have e1 : mem_nor_128M.info.size - 0 = 134217728 := rfl
    have e2 : 0 + 2147483648 - mem_nor_128M.info.size = 2013265920 := rfl
    have a1 := nor_128M_write_ok (logging accept_all) logging_accepts_spi 134217728 0 data_AA []
      (Or.inl rfl)
    have a2 := fun s0 => nor_128M_write_ok (logging accept_all) logging_accepts_spi 2013265920 0
      (shift data_AA 134217728) s0 (Or.inr rfl)
    simp only [two_writes, e1, e2, a1, a2, ne_eq, not_true_eq_false, if_false]
  refine ⟨by decide, rfl, by decide, by decide, by decide, h2, ?_, by decide, by decide,
    by decide, by decide⟩
  rw [memoree_write_wrap_eq (logging accept_all) [] mem_nor_128M 0 2147483648 0 data_AA
    (Or.inr rfl) (by decide) (by decide) (by decide)]
  rw [h2]
  decide

set_option maxRecDepth 100000 in
/-- C8 at the 2048-byte part with an 8-bit address field (24XX16), select
address `0x50`, address `0x2A5`. -/
theorem C8_device_select_folding_witness :
    (MEMOREE_VARIANT_STUB_I2C < MEMOREE_VARIANT_24XX16
      ∧ MEMOREE_VARIANT_24XX16 < MEMOREE_VARIANT_I2C_MAX)
    ∧ 2 ^ (mem_props_at MEMOREE_VARIANT_24XX16).addr_len
        < (mem_props_at MEMOREE_VARIANT_24XX16).size
    ∧ 0x50 < 256 ∧ 0x2A5 < (mem_props_at MEMOREE_VARIANT_24XX16).size
    ∧ (_memoree_write_bytes (logging accept_all)
          (some (registry_handle MEMOREE_VARIANT_24XX16 1 0x50 400000)) 0x2A5
          (some data_1_to_12) 2 0 []
        = i2c_return 8 ((logging accept_all).i2c_write [] 1 (spec_device_select 0x50 8 0x2A5)
            (address_bytes 0x2A5 1 8 ++ bytes_at data_1_to_12 0 2) 0)
      ∧ (0x50 &&& 0x0F = 0 →
          spec_device_select 0x50 8 0x2A5 &&& 0x0F = ((0x2A5 >>> 8) <<< 1) &&& 0x0F)) :=
  ⟨by decide, by decide, by decide, by decide,
    C8_device_select_folding (logging accept_all) [] MEMOREE_VARIANT_24XX16 1 0x50 400000 0x2A5 2 0
      data_1_to_12 (by decide) (by decide) (by decide) (by decide)⟩

set_option maxRecDepth 100000 in
/-- C9 at the 24XX32 part (16-bit address field), address `0x123`, two payload
bytes. -/
theorem C9_in_band_address_framing_witness :
    (MEMOREE_VARIANT_STUB_I2C < MEMOREE_VARIANT_24XX32
      ∧ MEMOREE_VARIANT_24XX32 < MEMOREE_VARIANT_I2C_MAX)
    ∧ 0x123 < (mem_props_at MEMOREE_VARIANT_24XX32).size
    ∧ (((mem_props_at MEMOREE_VARIANT_24XX32).addr_len = 8
        ∨ (mem_props_at MEMOREE_VARIANT_24XX32).addr_len = 16)
      ∧ (spec_address_field 16 0x123 ++ bytes_at data_1_to_12 0 2).length = 16 / 8 + 2
      ∧ ∃ sel : Nat,
          _memoree_write_bytes (logging accept_all)
              (some (registry_handle MEMOREE_VARIANT_24XX32 1 0x50 400000)) 0x123
              (some data_1_to_12) 2 0 []
            = i2c_return 16 ((logging accept_all).i2c_write [] 1 sel
                (spec_address_field 16 0x123 ++ bytes_at data_1_to_12 0 2) 0)
          ∧ (((logging accept_all).i2c_write [] 1 sel
                (spec_address_field 16 0x123 ++ bytes_at data_1_to_12 0 2) 0).1
                = ((16 / 8 + 2 : Nat) : Int) →
              (_memoree_write_bytes (logging accept_all)
                (some (registry_handle MEMOREE_VARIANT_24XX32 1 0x50 400000)) 0x123
                (some data_1_to_12) 2 0 []).1 = ((2 : Nat) : Int))) :=
  ⟨by decide, by decide,
    C9_in_band_address_framing (logging accept_all) [] MEMOREE_VARIANT_24XX32 1 0x50 400000 0x123
      2 0 data_1_to_12 (by decide) (by decide)⟩

/-! ## Lemmas on SFDP discovery -/

theorem read_byte_of_lt (rd : List Nat) (i : Nat) : read_byte_of rd i < 256 := by
  unfold read_byte_of u8
  omega

theorem or3_bytes (a b c : Nat) (hb : b < 256) (hc : c < 256) :
    (a <<< 16) ||| (b <<< 8) ||| c = c + 256 * b + 65536 * a := by
  rw [Nat.shiftLeft_eq, Nat.shiftLeft_eq]
  have h1 : a * 2 ^ 16 ||| b * 2 ^ 8 = 2 ^ 16 * a + b * 2 ^ 8 := by
    rw [Nat.mul_comm a]
    exact (Nat.mul_add_lt_is_or (by omega) a).symm
  rw [h1]
  have h2 : 2 ^ 16 * a + b * 2 ^ 8 = 2 ^ 8 * (2 ^ 8 * a + b) := by ring
  rw [h2, ← Nat.mul_add_lt_is_or (by omega)]
  ring

theorem table_read_eq (timeout_ms : Nat) (rb : Nat → Nat) (h : ∀ i, rb i < 256) :
    ({ cmd_len := 8, cmd := MEMOREE_CMD_25XX_SFDP, addr_len := 24,
       addr := u32 ((rb 14 <<< 16) ||| (rb 13 <<< 8) ||| rb 12),
       write_len := u16 (rb 11 * 4), write_buff := some (List.replicate (u16 (rb 11 * 4)) 0xFF),
       read_len := u16 (rb 11 * 4), read_buff := true, dummy_len := 8,
       timeout_ms := u32 timeout_ms } : memoree_spi_transaction_t)
      = sfdp_table_read timeout_ms rb := by
  have h11 := h 11
  have h12 := h 12
  have h13 := h 13
  have h14 := h 14
  have e1 : u16 (rb 11 * 4) = 4 * rb 11 := by unfold u16; omega
  have e2 : u32 ((rb 14 <<< 16) ||| (rb 13 <<< 8) ||| rb 12)
      = rb 12 + 256 * rb 13 + 65536 * rb 14 := by
    rw [or3_bytes _ _ _ h13 h12]
    unfold u32; omega
  rw [e1, e2]
  rfl

theorem code_signature_iff (rb : Nat → Nat) :
    (rb 0 ≠ 0x53 ∨ rb 1 ≠ 0x46 ∨ rb 2 ≠ 0x44 ∨ rb 3 ≠ 0x50) ↔ ¬ spec_signature rb := by
  unfold spec_signature; omega

theorem code_header_iff (rb : Nat → Nat) :
    (rb 7 ≠ 0xFF ∨ rb 11 < 2) ↔ ¬ spec_header_valid rb := by
  unfold spec_header_valid; omega

theorem code_table_iff (tb : Nat → Nat) :
    ((tb 0 >>> 5) &&& 7 ≠ 7 ∨ (tb 2 >>> 7) &&& 1 ≠ 1 ∨ tb 3 ≠ 0xFF) ↔ ¬ spec_table_reserved tb := by
  unfold spec_table_reserved
  have h7 : ∀ x : Nat, x &&& 7 = x % 8 := fun x => Nat.and_pow_two_sub_one_eq_mod x 3
  have h1 : ∀ x : Nat, x &&& 1 = x % 2 := fun x => Nat.and_pow_two_sub_one_eq_mod x 1
  rw [h7, h1, Nat.shiftRight_eq_div_pow, Nat.shiftRight_eq_div_pow]
  omega

theorem sfdp_decode_addr_len (p : sfdp_param_t) (rb tb : Nat → Nat) :
    u8 ((sfdp_decode p rb tb).addr_bytes * 8) = 8 * (sfdp_decode p rb tb).addr_bytes := by
  simp only [sfdp_decode]
  split
  · rfl
  · split <;> rfl

theorem sfdp_decode_page_size (p : sfdp_param_t) (rb tb : Nat → Nat) :
    u16 (sfdp_decode p rb tb).write_size = (sfdp_decode p rb tb).write_size := by
  simp only [sfdp_decode]
  split <;> rfl

theorem memoree_get_sfdp_eq {σ : Type} (P : Platform σ) (mem : memoree) (p : sfdp_param_t)
    (timeout_ms : Nat) (s : σ) (hvalid : MEMOREE_ISVALID (some mem) = true)
    (hvar : mem.info.variant = MEMOREE_VARIANT_25XX_SFDP) :
    memoree_get_sfdp P (some mem) (some p) timeout_ms s = spec_discovery P mem p timeout_ms s := by
  have hrb : ∀ i, sfdp_header P mem timeout_ms s i < 256 := fun i => read_byte_of_lt _ i
  have htx := table_read_eq timeout_ms (sfdp_header P mem timeout_ms s) hrb
  have e11 : u16 (sfdp_header P mem timeout_ms s 11 * 4) = 4 * sfdp_header P mem timeout_ms s 11 := by
    have := hrb 11
    unfold u16; omega
  unfold memoree_get_sfdp spec_discovery
  simp only [hvalid, hvar, not_true_eq_false, ne_eq, false_or, if_false,
    sfdp_decode_addr_len, sfdp_decode_page_size]
  simp only [← code_signature_iff, ← code_header_iff, ← code_table_iff, sfdp_table,
    sfdp_table_result, ← htx, ← e11]
  simp only [sfdp_header, sfdp_header_read, MEMOREE_CMD_25XX_SFDP, sfdp_decode]

theorem or4_bytes (a b c d : Nat) (hb : b < 256) (hc : c < 256) (hd : d < 256) :
    (a <<< 24) ||| (b <<< 16) ||| (c <<< 8) ||| (d <<< 0)
      = d + 256 * c + 65536 * b + 16777216 * a := by
  rw [Nat.shiftLeft_eq, Nat.shiftLeft_eq, Nat.shiftLeft_eq, Nat.shiftLeft_eq]
  have h1 : a * 2 ^ 24 ||| b * 2 ^ 16 = 2 ^ 24 * a + b * 2 ^ 16 := by
    rw [Nat.mul_comm a]
    exact (Nat.mul_add_lt_is_or (by omega) a).symm
  rw [h1]
  have h2 : 2 ^ 24 * a + b * 2 ^ 16 = 2 ^ 16 * (2 ^ 8 * a + b) := by ring
  rw [h2, ← Nat.mul_add_lt_is_or (by omega)]
  have h3 : 2 ^ 16 * (2 ^ 8 * a + b) + c * 2 ^ 8 = 2 ^ 8 * (2 ^ 8 * (2 ^ 8 * a + b) + c) := by ring
  rw [h3, ← Nat.mul_add_lt_is_or (by omega)]
  ring

/-- The size field as the code assembles it is the 31-bit little-endian value
of table bytes 4..7. -/
theorem flash_size_eq (tb : Nat → Nat) (h : ∀ i, tb i < 256) :
    ((tb 7 &&& 0x7F) <<< 24) ||| (tb 6 <<< 16) ||| (tb 5 <<< 8) ||| (tb 4 <<< 0)
      = spec_flash_bits tb := by
  have h7 : tb 7 &&& 0x7F = tb 7 % 128 := Nat.and_pow_two_sub_one_eq_mod (tb 7) 7
  rw [h7, or4_bytes _ _ _ _ (h 6) (h 5) (h 4)]
  unfold spec_flash_bits
  ring

theorem top_bit_iff (x : Nat) (h : x < 256) : ((x >>> 7) &&& 1 ≠ 0) ↔ 128 ≤ x := by
  have h1 : ∀ y : Nat, y &&& 1 = y % 2 := fun y => Nat.and_pow_two_sub_one_eq_mod y 1
  rw [h1, Nat.shiftRight_eq_div_pow]
  omega

/-- The size `sfdp_decode` gives for a size field with the top bit clear. -/
theorem sfdp_decode_size_literal (p : sfdp_param_t) (rb tb : Nat → Nat) (h : ∀ i, tb i < 256)
    (htop : tb 7 < 128) : (sfdp_decode p rb tb).size = spec_flash_bits tb / 8 := by
  have hc : ¬ ((tb 7 >>> 7) &&& 1 ≠ 0) := by
    rw [top_bit_iff _ (h 7)]; omega
  simp only [sfdp_decode, flash_size_eq tb h]
  rw [if_neg hc, Nat.shiftRight_eq_div_pow]

theorem shl_two_eq (e : Nat) (h1 : 1 ≤ e) (h2 : e ≤ 30) : shl_two e = 2 ^ e := by
  have hp : 2 * 2 ^ (e - 1) = 2 ^ e := by
    rw [← Nat.pow_succ']
    congr 1
    omega
  have hle : 2 ^ e ≤ 2 ^ 30 := Nat.pow_le_pow_right (by decide) h2
  have hlt : 2 ^ e < 2147483648 := by omega
  unfold shl_two
  rw [if_neg (by omega), hp, toInt32_of_lt hlt]
  omega

/-- The size `sfdp_decode` gives for a size field with the top bit set and an
exponent between 1 and 30. -/
theorem sfdp_decode_size_exponent (p : sfdp_param_t) (rb tb : Nat → Nat) (h : ∀ i, tb i < 256)
    (htop : 128 ≤ tb 7) (h1 : 1 ≤ spec_flash_bits tb) (h2 : spec_flash_bits tb ≤ 30) :
    (sfdp_decode p rb tb).size = 2 ^ spec_flash_bits tb / 8 := by
  have hc : (tb 7 >>> 7) &&& 1 ≠ 0 := (top_bit_iff _ (h 7)).mpr htop
  simp only [sfdp_decode, flash_size_eq tb h]
  rw [if_pos hc, shl_two_eq _ h1 h2, Nat.shiftRight_eq_div_pow]

/-- The outcome of discovery when both reads succeed and every check passes. -/
theorem memoree_get_sfdp_ok {σ : Type} (P : Platform σ) (mem : memoree) (p : sfdp_param_t)
    (timeout_ms : Nat) (s : σ) (hvalid : MEMOREE_ISVALID (some mem) = true)
    (hvar : mem.info.variant = MEMOREE_VARIANT_25XX_SFDP)
    (h1 : (P.spi_write_read s mem.interface (sfdp_header_read timeout_ms)).1 = 0)
    (hsig : spec_signature (sfdp_header P mem timeout_ms s))
    (hhdr : spec_header_valid (sfdp_header P mem timeout_ms s))
    (h2 : (sfdp_table_result P mem timeout_ms s).1 = 0)
    (hres : spec_table_reserved (sfdp_table P mem timeout_ms s)) :
    memoree_get_sfdp P (some mem) (some p) timeout_ms s
      = (MEMOREE_ERR_OK,
          some (sfdp_decode p (sfdp_header P mem timeout_ms s) (sfdp_table P mem timeout_ms s)),
          some { mem with info :=
            { mem.info with
              addr_len := 8 * (sfdp_decode p (sfdp_header P mem timeout_ms s)
                (sfdp_table P mem timeout_ms s)).addr_bytes
              page_size := (sfdp_decode p (sfdp_header P mem timeout_ms s)
                (sfdp_table P mem timeout_ms s)).write_size
              size := u32 (sfdp_decode p (sfdp_header P mem timeout_ms s)
                (sfdp_table P mem timeout_ms s)).size } },
          (sfdp_table_result P mem timeout_ms s).2.2) := by
  rw [memoree_get_sfdp_eq P mem p timeout_ms s hvalid hvar]
  unfold spec_discovery
  simp only [h1, hsig, hhdr, h2, hres, ne_eq, not_true_eq_false, if_false]

/-! ## SFDP discovery -/

/-- C14: on a valid SFDP handle whose 15-byte header read succeeds,
`memoree_get_sfdp` returns `MEMOREE_ERR_SFDP_NOT_SUPPORTED` if and only if
bytes 0..3 of the header are not "SFDP"; and when they are, it returns
`MEMOREE_ERR_SFDP_INVALID_HEADER` with the header read as its only
transaction if and only if byte 7 is not `0xFF` or byte 11 is below 2. -/
theorem C14_sfdp_header_classification (reply : List Event → Event → Int × List Nat)
    (mem : memoree) (p : sfdp_param_t) (timeout_ms : Nat) (s : List Event)
    (hvalid : MEMOREE_ISVALID (some mem) = true)
    (hvar : mem.info.variant = MEMOREE_VARIANT_25XX_SFDP)
    (hread : (reply s (Event.spi_write_read mem.interface (sfdp_header_read timeout_ms))).1 = 0) :
    ((memoree_get_sfdp (logging reply) (some mem) (some p) timeout_ms s).1
        = MEMOREE_ERR_SFDP_NOT_SUPPORTED
      ↔ ¬ spec_signature (sfdp_header (logging reply) mem timeout_ms s))
    ∧ (spec_signature (sfdp_header (logging reply) mem timeout_ms s) →
        (((memoree_get_sfdp (logging reply) (some mem) (some p) timeout_ms s).1
            = MEMOREE_ERR_SFDP_INVALID_HEADER
          ∧ (memoree_get_sfdp (logging reply) (some mem) (some p) timeout_ms s).2.2.2
            = s ++ [Event.spi_write_read mem.interface (sfdp_header_read timeout_ms)])
        ↔ (sfdp_header (logging reply) mem timeout_ms s 7 ≠ 0xFF
            ∨ sfdp_header (logging reply) mem timeout_ms s 11 < 2))) := by
  have h1 : ((logging reply).spi_write_read s mem.interface (sfdp_header_read timeout_ms)).1 = 0 :=
    hread
  have hs1 : ((logging reply).spi_write_read s mem.interface (sfdp_header_read timeout_ms)).2.2
      = s ++ [Event.spi_write_read mem.interface (sfdp_header_read timeout_ms)] := rfl
  have hs2 : (sfdp_table_result (logging reply) mem timeout_ms s).2.2
      = s ++ [Event.spi_write_read mem.interface (sfdp_header_read timeout_ms)]
        ++ [Event.spi_write_read mem.interface
            (sfdp_table_read timeout_ms (sfdp_header (logging reply) mem timeout_ms s))] := rfl
  rw [memoree_get_sfdp_eq (logging reply) mem p timeout_ms s hvalid hvar]
  unfold spec_discovery
  simp only [h1, hs1, hs2, ne_eq, not_true_eq_false, if_false]
  by_cases hsig : spec_signature (sfdp_header (logging reply) mem timeout_ms s)
  · by_cases hhdr : spec_header_valid (sfdp_header (logging reply) mem timeout_ms s)
    · have hn : ¬ (sfdp_header (logging reply) mem timeout_ms s 7 ≠ 0xFF
          ∨ sfdp_header (logging reply) mem timeout_ms s 11 < 2) := by
        unfold spec_header_valid at hhdr; omega
      by_cases h2 : (sfdp_table_result (logging reply) mem timeout_ms s).1 = 0
      · by_cases hres : spec_table_reserved (sfdp_table (logging reply) mem timeout_ms s)
        · simp [hsig, hhdr, h2, hres, hn, MEMOREE_ERR_OK, MEMOREE_ERR_SFDP_NOT_SUPPORTED,
            MEMOREE_ERR_SFDP_INVALID_HEADER]
        · simp [hsig, hhdr, h2, hres, hn, MEMOREE_ERR_SFDP_NOT_SUPPORTED,
            MEMOREE_ERR_SFDP_INVALID_HEADER]
      · simp [hsig, hhdr, h2, hn, MEMOREE_ERR_FAIL, MEMOREE_ERR_SFDP_NOT_SUPPORTED,
          MEMOREE_ERR_SFDP_INVALID_HEADER]
    · have hy : sfdp_header (logging reply) mem timeout_ms s 7 ≠ 0xFF
          ∨ sfdp_header (logging reply) mem timeout_ms s 11 < 2 := by
        unfold spec_header_valid at hhdr; omega
      simp [hsig, hhdr, hy, MEMOREE_ERR_SFDP_NOT_SUPPORTED, MEMOREE_ERR_SFDP_INVALID_HEADER]
  · simp [hsig]

/-- C15: on a valid SFDP handle, for every header that passes validation and
every parameter table the second read returns, `memoree_get_sfdp` returns
`MEMOREE_ERR_SFDP_INVALID_HEADER` if and only if bits 5..7 of table byte 0 are
not `0b111`, or bit 7 of table byte 2 is clear, or table byte 3 is not `0xFF`;
otherwise it returns `MEMOREE_ERR_OK`. -/
theorem C15_sfdp_table_reserved_bits {σ : Type} (P : Platform σ) (mem : memoree)
    (p : sfdp_param_t) (timeout_ms : Nat) (s : σ)
    (hvalid : MEMOREE_ISVALID (some mem) = true)
    (hvar : mem.info.variant = MEMOREE_VARIANT_25XX_SFDP)
    (h1 : (P.spi_write_read s mem.interface (sfdp_header_read timeout_ms)).1 = 0)
    (hsig : spec_signature (sfdp_header P mem timeout_ms s))
    (hhdr : spec_header_valid (sfdp_header P mem timeout_ms s))
    (h2 : (sfdp_table_result P mem timeout_ms s).1 = 0) :
    ((memoree_get_sfdp P (some mem) (some p) timeout_ms s).1 = MEMOREE_ERR_SFDP_INVALID_HEADER
      ↔ (sfdp_table P mem timeout_ms s 0 / 32 % 8 ≠ 7
          ∨ sfdp_table P mem timeout_ms s 2 / 128 % 2 = 0
          ∨ sfdp_table P mem timeout_ms s 3 ≠ 0xFF))
    ∧ (¬ (sfdp_table P mem timeout_ms s 0 / 32 % 8 ≠ 7
          ∨ sfdp_table P mem timeout_ms s 2 / 128 % 2 = 0
          ∨ sfdp_table P mem timeout_ms s 3 ≠ 0xFF) →
        (memoree_get_sfdp P (some mem) (some p) timeout_ms s).1 = MEMOREE_ERR_OK) := by
  rw [memoree_get_sfdp_eq P mem p timeout_ms s hvalid hvar]
  unfold spec_discovery
  simp only [h1, hsig, hhdr, h2, ne_eq, not_true_eq_false, if_false]
  by_cases hres : spec_table_reserved (sfdp_table P mem timeout_ms s)
  · have hn : ¬ (sfdp_table P mem timeout_ms s 0 / 32 % 8 ≠ 7
          ∨ sfdp_table P mem timeout_ms s 2 / 128 % 2 = 0
          ∨ sfdp_table P mem timeout_ms s 3 ≠ 0xFF) := by
      unfold spec_table_reserved at hres; omega
    simp only [hres, not_true_eq_false, if_false, hn, iff_false, not_false_eq_true, true_implies,
      and_true]
    decide
  · have hy : sfdp_table P mem timeout_ms s 0 / 32 % 8 ≠ 7
          ∨ sfdp_table P mem timeout_ms s 2 / 128 % 2 = 0
          ∨ sfdp_table P mem timeout_ms s 3 ≠ 0xFF := by
      unfold spec_table_reserved at hres; omega
    simp only [hres, not_false_eq_true, if_true, hy, iff_true, not_true_eq_false, false_implies,
      and_true]

/-- C16: on a valid SFDP handle, for every header and parameter table that pass
validation, when the top bit of table byte 7 is clear the decoded `param.size`
is `N / 8`, `N` the 31-bit little-endian value of table bytes 4..7; a table
encoding 1 Mbit (`N = 1048576`) decodes to 131072 bytes. -/
theorem C16_sfdp_literal_size {σ : Type} (P : Platform σ) (mem : memoree)
    (p : sfdp_param_t) (timeout_ms : Nat) (s : σ)
    (hvalid : MEMOREE_ISVALID (some mem) = true)
    (hvar : mem.info.variant = MEMOREE_VARIANT_25XX_SFDP)
    (h1 : (P.spi_write_read s mem.interface (sfdp_header_read timeout_ms)).1 = 0)
    (hsig : spec_signature (sfdp_header P mem timeout_ms s))
    (hhdr : spec_header_valid (sfdp_header P mem timeout_ms s))
    (h2 : (sfdp_table_result P mem timeout_ms s).1 = 0)
    (hres : spec_table_reserved (sfdp_table P mem timeout_ms s))
    (htop : sfdp_table P mem timeout_ms s 7 < 128) :
    ∃ q : sfdp_param_t,
      memoree_get_sfdp P (some mem) (some p) timeout_ms s
        = (MEMOREE_ERR_OK, some q, (memoree_get_sfdp P (some mem) (some p) timeout_ms s).2.2)
      ∧ q.size = spec_flash_bits (sfdp_table P mem timeout_ms s) / 8
      ∧ (spec_flash_bits (sfdp_table P mem timeout_ms s) = 1048576 → q.size = 131072) := by
  have hs := sfdp_decode_size_literal p (sfdp_header P mem timeout_ms s)
    (sfdp_table P mem timeout_ms s) (fun i => read_byte_of_lt _ i) htop
  refine ⟨_, ?_, hs, fun h => by rw [hs, h]⟩
  rw [memoree_get_sfdp_ok P mem p timeout_ms s hvalid hvar h1 hsig hhdr h2 hres]

/-- C17 as the code has it: on a valid SFDP handle, for every header and
parameter table that pass validation, when the top bit of table byte 7 is set
and the exponent `e` (the low 31 bits of table bytes 4..7) lies between 1 and
30, the decoded `param.size` is `2 ^ e / 8` bytes. -/
theorem C17_sfdp_exponent_size {σ : Type} (P : Platform σ) (mem : memoree)
    (p : sfdp_param_t) (timeout_ms : Nat) (s : σ)
    (hvalid : MEMOREE_ISVALID (some mem) = true)
    (hvar : mem.info.variant = MEMOREE_VARIANT_25XX_SFDP)
    (h1 : (P.spi_write_read s mem.interface (sfdp_header_read timeout_ms)).1 = 0)
    (hsig : spec_signature (sfdp_header P mem timeout_ms s))
    (hhdr : spec_header_valid (sfdp_header P mem timeout_ms s))
    (h2 : (sfdp_table_result P mem timeout_ms s).1 = 0)
    (hres : spec_table_reserved (sfdp_table P mem timeout_ms s))
    (htop : 128 ≤ sfdp_table P mem timeout_ms s 7)
    (he1 : 1 ≤ spec_flash_bits (sfdp_table P mem timeout_ms s))
    (he2 : spec_flash_bits (sfdp_table P mem timeout_ms s) ≤ 30) :
    ∃ q : sfdp_param_t,
      memoree_get_sfdp P (some mem) (some p) timeout_ms s
        = (MEMOREE_ERR_OK, some q, (memoree_get_sfdp P (some mem) (some p) timeout_ms s).2.2)
      ∧ q.size = 2 ^ spec_flash_bits (sfdp_table P mem timeout_ms s) / 8 := by
  have hs := sfdp_decode_size_exponent p (sfdp_header P mem timeout_ms s)
    (sfdp_table P mem timeout_ms s) (fun i => read_byte_of_lt _ i) htop he1 he2
  refine ⟨_, ?_, hs⟩
  rw [memoree_get_sfdp_ok P mem p timeout_ms s hvalid hvar h1 hsig hhdr h2 hres]

/-! ## Erase on the 93Cxx family -/

/-- The log of `memoree_erase_page` with value `0xFF` on a 93Cxx handle. -/
theorem erase_page_93cxx_log (reply : List Event → Event → Int × List Nat) (mem : memoree)
    (page : Nat) (s : List Event)
    (hfam : MEMOREE_VARIANT_I2C_MAX < mem.info.variant
      ∧ mem.info.variant < MEMOREE_VARIANT_93CXX_MAX)
    (hpage : page < mem.info.num_pages) :
    (memoree_erase_page (logging reply) (some mem) page 0xFF s).2
      = s ++ [Event.spi_write_read mem.interface
                { cmd_len := 5, cmd := MEMOREE_CMD_93CXX_ERASE, addr_len := 5 },
              Event.ms_delay mem.info.page_write_delay_ms] := by
  simp [memoree_erase_page, PAGE_ISVALID, hpage, hfam, logging]

/-- The log of `memoree_erase` with value `0xFF` on a valid 93Cxx handle. -/
theorem erase_93cxx_log (reply : List Event → Event → Int × List Nat) (mem : memoree)
    (s : List Event)
    (hfam : MEMOREE_VARIANT_I2C_MAX < mem.info.variant
      ∧ mem.info.variant < MEMOREE_VARIANT_93CXX_MAX)
    (hvalid : MEMOREE_ISVALID (some mem) = true) :
    (memoree_erase (logging reply) (some mem) 0xFF s).2.2
      = s ++ (Event.spi_write_read mem.interface
                { cmd_len := 5, cmd := MEMOREE_CMD_93CXX_WEN, addr_len := 5 }
              :: (if toInt8 (reply s (Event.spi_write_read mem.interface
                      { cmd_len := 5, cmd := MEMOREE_CMD_93CXX_WEN, addr_len := 5 })).1 = 0
                  then [Event.spi_write_read mem.interface
                          { cmd_len := 5, cmd := MEMOREE_CMD_93CXX_ERAL, addr_len := 5 },
                        Event.ms_delay mem.info.page_write_delay_ms]
                  else [])) := by
  have hn : ¬ mem.info.variant < MEMOREE_VARIANT_I2C_MAX := by omega
  by_cases hw : toInt8 (reply s (Event.spi_write_read mem.interface
      { cmd_len := 5, cmd := MEMOREE_CMD_93CXX_WEN, addr_len := 5 })).1 = 0
  · simp [memoree_erase, _memoree_spi_write_enable, hvalid, hfam, hn, logging, hw, MEMOREE_ERR_OK]
  · simp [memoree_erase, _memoree_spi_write_enable, hvalid, hfam, hn, logging, hw, MEMOREE_ERR_OK,
      MEMOREE_ERR_FAIL]

/-- C12: on every valid 93Cxx handle, `memoree_erase_page(p, 0xFF)` with
`p < num_pages` issues exactly one transaction, with opcode
`MEMOREE_CMD_93CXX_ERASE` and no write payload (then the delay), and
`memoree_erase(0xFF)` issues the write-enable and, once the transport accepts
it, exactly one transaction with opcode `MEMOREE_CMD_93CXX_ERAL` (then the
delay), nothing after a refused write-enable; neither issues a
`MEMOREE_CMD_93CXX_WRITE` transaction. -/
theorem C12_93cxx_dedicated_erase (reply : List Event → Event → Int × List Nat) (mem : memoree)
    (page : Nat) (s : List Event)
    (hfam : MEMOREE_VARIANT_I2C_MAX < mem.info.variant
      ∧ mem.info.variant < MEMOREE_VARIANT_93CXX_MAX)
    (hvalid : MEMOREE_ISVALID (some mem) = true)
    (hpage : page < mem.info.num_pages) :
    (memoree_erase_page (logging reply) (some mem) page 0xFF s).2
        = s ++ [Event.spi_write_read mem.interface
                  { cmd_len := 5, cmd := MEMOREE_CMD_93CXX_ERASE, addr_len := 5,
                    write_len := 0, write_buff := none },
                Event.ms_delay mem.info.page_write_delay_ms]
    ∧ (memoree_erase (logging reply) (some mem) 0xFF s).2.2
        = s ++ (Event.spi_write_read mem.interface
                  { cmd_len := 5, cmd := MEMOREE_CMD_93CXX_WEN, addr_len := 5 }
                :: (if toInt8 (reply s (Event.spi_write_read mem.interface
                        { cmd_len := 5, cmd := MEMOREE_CMD_93CXX_WEN, addr_len := 5 })).1 = 0
                    then [Event.spi_write_read mem.interface
                            { cmd_len := 5, cmd := MEMOREE_CMD_93CXX_ERAL, addr_len := 5 },
                          Event.ms_delay mem.info.page_write_delay_ms]
                    else []))
    ∧ (∀ e ∈ ((memoree_erase_page (logging reply) (some mem) page 0xFF s).2).drop s.length,
        is_93cxx_write e = false)
    ∧ (∀ e ∈ ((memoree_erase (logging reply) (some mem) 0xFF s).2.2).drop s.length,
        is_93cxx_write e = false) := by
  refine ⟨erase_page_93cxx_log reply mem page s hfam hpage,
    erase_93cxx_log reply mem s hfam hvalid, ?_, ?_⟩
  · rw [erase_page_93cxx_log reply mem page s hfam hpage, List.drop_left]
    intro e he
    simp only [List.mem_cons, List.mem_singleton, List.not_mem_nil, or_false] at he
    rcases he with h | h <;> subst h <;> rfl
  · rw [erase_93cxx_log reply mem s hfam hvalid, List.drop_left]
    intro e he
    split at he
    · simp only [List.mem_cons, List.mem_singleton, List.not_mem_nil, or_false] at he
      rcases he with h | h | h <;> subst h <;> rfl
    · simp only [List.mem_cons, List.not_mem_nil, or_false] at he
      subst he; rfl

/-! ## Erase and discovery at concrete inputs -/

set_option maxRecDepth 100000 in
/-- C11 (the code erases one sector only): on the handle `memoree_init` returns
for an 8 KiB NOR flash that reports the 4KB erase opcode `0x20`, with a
transport that accepts everything, `memoree_erase` with value `0xFF` issues,
after the two discovery reads, a single sector erase at address 0 and returns
`MEMOREE_ERR_OK`; no transaction goes to address 4096. -/
theorem C11_sector_erase_stops_at_first :
    (memoree_init (logging (nor_reply sfdp_8k)) MEMOREE_VARIANT_25XX_SFDP
        (some { speed := 1000000 }) []).1 = some mem_nor_8k
    ∧ mem_nor_8k.info.size = 8192
    ∧ memoree_erase (logging (nor_reply sfdp_8k)) (some mem_nor_8k) 0xFF []
      = (MEMOREE_ERR_OK, some mem_nor_8k,
          [Event.spi_write_read 1 (sfdp_header_read 100),
           Event.spi_write_read 1 (sfdp_table_read 100 sfdp_8k),
           Event.spi_write_read 1 { cmd_len := 8, cmd := 0x20, addr_len := 24, addr := 0 },
           Event.ms_delay 5]) := by
  decide

set_option maxRecDepth 100000 in
/-- C13 (the code never sets the address on the 93Cxx family): on a valid 93C46
handle (128 pages of 1 byte) `memoree_erase_page` of page 5 issues its only
transaction with address 0, which lies outside `[5, 6)`. -/
theorem C13_93cxx_page_erase_at_address_zero :
    MEMOREE_ISVALID (some mem_93C46) = true
    ∧ 5 < mem_93C46.info.num_pages
    ∧ mem_93C46.info.page_size = 1
    ∧ memoree_erase_page (logging accept_all) (some mem_93C46) 5 0xFF []
      = (MEMOREE_ERR_OK,
          [Event.spi_write_read 1
             { cmd_len := 5, cmd := MEMOREE_CMD_93CXX_ERASE, addr_len := 5, addr := 0 },
           Event.ms_delay 10])
    ∧ memoree_erase_page (logging accept_all) (some mem_93C46) 5 0x11 []
      = (MEMOREE_ERR_OK,
          [Event.spi_write_read 1
             { cmd_len := 5, cmd := MEMOREE_CMD_93CXX_WRITE, addr_len := 5, addr := 0,
               write_len := 1, write_buff := some [0x11] },
           Event.ms_delay 10]) := by
  decide

set_option maxRecDepth 100000 in
/-- C17 as stated fails: for a parameter table whose byte 7 has the top bit set
and whose exponent is 20, `memoree_get_sfdp` returns `MEMOREE_ERR_OK` and
decodes `param.size = 131072 = 2^20 / 8`, not `2^21 / 8 = 262144`. -/
theorem C17_exponent_20_gives_128K :
    MEMOREE_ISVALID (some mem_sfdp_fresh) = true
    ∧ mem_sfdp_fresh.info.variant = MEMOREE_VARIANT_25XX_SFDP
    ∧ 128 ≤ sfdp_table (logging (nor_reply sfdp_exp20)) mem_sfdp_fresh 100 [] 7
    ∧ spec_flash_bits (sfdp_table (logging (nor_reply sfdp_exp20)) mem_sfdp_fresh 100 []) = 20
    ∧ (memoree_get_sfdp (logging (nor_reply sfdp_exp20)) (some mem_sfdp_fresh) (some { }) 100
        []).1 = MEMOREE_ERR_OK
    ∧ ((memoree_get_sfdp (logging (nor_reply sfdp_exp20)) (some mem_sfdp_fresh) (some { }) 100
        []).2.1.map (fun q => q.size)) = some 131072
    ∧ 2 ^ (20 + 1) / 8 = 262144 := by
  decide

set_option maxRecDepth 100000 in
/-- C18 (the code accepts an address width of 0): for a parameter table whose
address-width field is `0b01`, `memoree_get_sfdp` returns `MEMOREE_ERR_OK`
with `param.addr_bytes = 0` and sets the handle's `addr_len` to 0, and
`memoree_init` returns that handle. -/
theorem C18_address_width_zero_accepted :
    (memoree_get_sfdp (logging (nor_reply sfdp_addr01)) (some mem_sfdp_fresh) (some { }) 100
        []).1 = MEMOREE_ERR_OK
    ∧ ((memoree_get_sfdp (logging (nor_reply sfdp_addr01)) (some mem_sfdp_fresh) (some { }) 100
        []).2.1.map (fun q => q.addr_bytes)) = some 0
    ∧ ((memoree_get_sfdp (logging (nor_reply sfdp_addr01)) (some mem_sfdp_fresh) (some { }) 100
        []).2.2.1.map (fun m => m.info.addr_len)) = some 0
    ∧ ((memoree_init (logging (nor_reply sfdp_addr01)) MEMOREE_VARIANT_25XX_SFDP
        (some { speed := 1000000 }) []).1.map (fun m => m.info.addr_len)) = some 0 := by
  decide

set_option maxRecDepth 100000 in
/-- C19 (the code reports success without discovery): on the valid 24XX02
handle `memoree_get_sfdp` returns `MEMOREE_ERR_OK` and leaves handle and
parameters alone, so the handle's `addr_len = 8` and `size = 256` are not the
`8 * addr_bytes = 0` and `size = 0` of the parameter structure. -/
theorem C19_ok_without_fold_back :
    MEMOREE_ISVALID (some mem_24XX02) = true
    ∧ memoree_get_sfdp (logging accept_all) (some mem_24XX02) (some { }) 100 []
      = (MEMOREE_ERR_OK, some { }, some mem_24XX02, [])
    ∧ mem_24XX02.info.addr_len = 8 ∧ mem_24XX02.info.size = 256
    ∧ 8 * ({ } : sfdp_param_t).addr_bytes = 0 ∧ ({ } : sfdp_param_t).size = 0 := by
  decide

set_option maxRecDepth 100000 in
/-- C20 (the code returns `false`): `memoree_get_sfdp` returns 0, which is
`MEMOREE_ERR_OK`, for a null handle, for a handle without interface, for a
null parameter output and for a handle of another variant; it issues no
transaction in any of these cases. -/
theorem C20_invalid_arguments_return_ok :
    memoree_get_sfdp (logging accept_all) none (some { }) 100 []
      = (MEMOREE_ERR_OK, some { }, none, [])
    ∧ memoree_get_sfdp (logging accept_all) (some mem_nor_no_interface) (some { })
        100 [] = (MEMOREE_ERR_OK, some { }, some mem_nor_no_interface, [])
    ∧ memoree_get_sfdp (logging accept_all) (some mem_nor_8k) none 100 []
      = (MEMOREE_ERR_OK, none, some mem_nor_8k, [])
    ∧ memoree_get_sfdp (logging accept_all) (some mem_93C46) (some { }) 100 []
      = (MEMOREE_ERR_OK, some { }, some mem_93C46, [])
    ∧ MEMOREE_ERR_OK ≠ MEMOREE_ERR_INVALID_ARG :=
  ⟨by decide, by decide, by decide, by decide, by decide⟩

set_option maxRecDepth 100000 in
/-- C12 at a 93C46 handle, page 5, over a transport that accepts everything. -/
theorem C12_93cxx_dedicated_erase_witness :
    (MEMOREE_VARIANT_I2C_MAX < mem_93C46.info.variant
      ∧ mem_93C46.info.variant < MEMOREE_VARIANT_93CXX_MAX)
    ∧ MEMOREE_ISVALID (some mem_93C46) = true
    ∧ 5 < mem_93C46.info.num_pages
    ∧ (memoree_erase_page (logging accept_all) (some mem_93C46) 5 0xFF []).2
        = [] ++ [Event.spi_write_read mem_93C46.interface
                  { cmd_len := 5, cmd := MEMOREE_CMD_93CXX_ERASE, addr_len := 5,
                    write_len := 0, write_buff := none },
                Event.ms_delay mem_93C46.info.page_write_delay_ms] :=
  ⟨by decide, by decide, by decide,
    (C12_93cxx_dedicated_erase accept_all mem_93C46 5 [] (by decide) (by decide) (by decide)).1⟩

set_option maxRecDepth 100000 in
/-- C14 at the fresh SFDP handle over the 1 Mbit flash. -/
theorem C14_sfdp_header_classification_witness :
    MEMOREE_ISVALID (some mem_sfdp_fresh) = true
    ∧ mem_sfdp_fresh.info.variant = MEMOREE_VARIANT_25XX_SFDP
    ∧ (nor_reply sfdp_1M [] (Event.spi_write_read mem_sfdp_fresh.interface
        (sfdp_header_read 100))).1 = 0
    ∧ ((memoree_get_sfdp (logging (nor_reply sfdp_1M)) (some mem_sfdp_fresh) (some { }) 100 []).1
          = MEMOREE_ERR_SFDP_NOT_SUPPORTED
        ↔ ¬ spec_signature (sfdp_header (logging (nor_reply sfdp_1M)) mem_sfdp_fresh 100 [])) :=
  ⟨by decide, by decide, by decide,
    (C14_sfdp_header_classification (nor_reply sfdp_1M) mem_sfdp_fresh { } 100 []
      (by decide) (by decide) (by decide)).1⟩

set_option maxRecDepth 100000 in
/-- C15 at the fresh SFDP handle over the 1 Mbit flash. -/
theorem C15_sfdp_table_reserved_bits_witness :
    MEMOREE_ISVALID (some mem_sfdp_fresh) = true
    ∧ mem_sfdp_fresh.info.variant = MEMOREE_VARIANT_25XX_SFDP
    ∧ ((logging (nor_reply sfdp_1M)).spi_write_read [] mem_sfdp_fresh.interface
        (sfdp_header_read 100)).1 = 0
    ∧ spec_signature (sfdp_header (logging (nor_reply sfdp_1M)) mem_sfdp_fresh 100 [])
    ∧ spec_header_valid (sfdp_header (logging (nor_reply sfdp_1M)) mem_sfdp_fresh 100 [])
    ∧ (sfdp_table_result (logging (nor_reply sfdp_1M)) mem_sfdp_fresh 100 []).1 = 0
    ∧ ((memoree_get_sfdp (logging (nor_reply sfdp_1M)) (some mem_sfdp_fresh) (some { }) 100 []).1
          = MEMOREE_ERR_SFDP_INVALID_HEADER
        ↔ (sfdp_table (logging (nor_reply sfdp_1M)) mem_sfdp_fresh 100 [] 0 / 32 % 8 ≠ 7
            ∨ sfdp_table (logging (nor_reply sfdp_1M)) mem_sfdp_fresh 100 [] 2 / 128 % 2 = 0
            ∨ sfdp_table (logging (nor_reply sfdp_1M)) mem_sfdp_fresh 100 [] 3 ≠ 0xFF)) :=
  ⟨by decide, by decide, by decide, by decide, by decide, by decide,
    (C15_sfdp_table_reserved_bits (logging (nor_reply sfdp_1M)) mem_sfdp_fresh { } 100 []
      (by decide) (by decide) (by decide) (by decide) (by decide) (by decide)).1⟩

set_option maxRecDepth 100000 in
/-- C16 at the fresh SFDP handle over the 1 Mbit flash: the decoded size is
131072 bytes. -/
theorem C16_sfdp_literal_size_witness :
    MEMOREE_ISVALID (some mem_sfdp_fresh) = true
    ∧ mem_sfdp_fresh.info.variant = MEMOREE_VARIANT_25XX_SFDP
    ∧ ((logging (nor_reply sfdp_1M)).spi_write_read [] mem_sfdp_fresh.interface
        (sfdp_header_read 100)).1 = 0
    ∧ spec_signature (sfdp_header (logging (nor_reply sfdp_1M)) mem_sfdp_fresh 100 [])
    ∧ spec_header_valid (sfdp_header (logging (nor_reply sfdp_1M)) mem_sfdp_fresh 100 [])
    ∧ (sfdp_table_result (logging (nor_reply sfdp_1M)) mem_sfdp_fresh 100 []).1 = 0
    ∧ spec_table_reserved (sfdp_table (logging (nor_reply sfdp_1M)) mem_sfdp_fresh 100 [])
    ∧ sfdp_table (logging (nor_reply sfdp_1M)) mem_sfdp_fresh 100 [] 7 < 128
    ∧ spec_flash_bits (sfdp_table (logging (nor_reply sfdp_1M)) mem_sfdp_fresh 100 []) = 1048576
    ∧ ∃ q : sfdp_param_t,
        memoree_get_sfdp (logging (nor_reply sfdp_1M)) (some mem_sfdp_fresh) (some { }) 100 []
          = (MEMOREE_ERR_OK, some q,
              (memoree_get_sfdp (logging (nor_reply sfdp_1M)) (some mem_sfdp_fresh) (some { })
                100 []).2.2)
        ∧ q.size = spec_flash_bits
            (sfdp_table (logging (nor_reply sfdp_1M)) mem_sfdp_fresh 100 []) / 8
        ∧ (spec_flash_bits (sfdp_table (logging (nor_reply sfdp_1M)) mem_sfdp_fresh 100 [])
            = 1048576 → q.size = 131072) :=
  ⟨by decide, by decide, by decide, by decide, by decide, by decide, by decide, by decide,
    by decide,
    C16_sfdp_literal_size (logging (nor_reply sfdp_1M)) mem_sfdp_fresh { } 100 []
      (by decide) (by decide) (by decide) (by decide) (by decide) (by decide) (by decide)
      (by decide)⟩

set_option maxRecDepth 100000 in
/-- C17 at the fresh SFDP handle over the flash with exponent 20. -/
theorem C17_sfdp_exponent_size_witness :
    MEMOREE_ISVALID (some mem_sfdp_fresh) = true
    ∧ mem_sfdp_fresh.info.variant = MEMOREE_VARIANT_25XX_SFDP
    ∧ ((logging (nor_reply sfdp_exp20)).spi_write_read [] mem_sfdp_fresh.interface
        (sfdp_header_read 100)).1 = 0
    ∧ spec_signature (sfdp_header (logging (nor_reply sfdp_exp20)) mem_sfdp_fresh 100 [])
    ∧ spec_header_valid (sfdp_header (logging (nor_reply sfdp_exp20)) mem_sfdp_fresh 100 [])
    ∧ (sfdp_table_result (logging (nor_reply sfdp_exp20)) mem_sfdp_fresh 100 []).1 = 0
    ∧ spec_table_reserved (sfdp_table (logging (nor_reply sfdp_exp20)) mem_sfdp_fresh 100 [])
    ∧ 128 ≤ sfdp_table (logging (nor_reply sfdp_exp20)) mem_sfdp_fresh 100 [] 7
    ∧ 1 ≤ spec_flash_bits (sfdp_table (logging (nor_reply sfdp_exp20)) mem_sfdp_fresh 100 [])
    ∧ spec_flash_bits (sfdp_table (logging (nor_reply sfdp_exp20)) mem_sfdp_fresh 100 []) ≤ 30
    ∧ ∃ q : sfdp_param_t,
        memoree_get_sfdp (logging (nor_reply sfdp_exp20)) (some mem_sfdp_fresh) (some { }) 100 []
          = (MEMOREE_ERR_OK, some q,
              (memoree_get_sfdp (logging (nor_reply sfdp_exp20)) (some mem_sfdp_fresh) (some { })
                100 []).2.2)
        ∧ q.size = 2 ^ spec_flash_bits
            (sfdp_table (logging (nor_reply sfdp_exp20)) mem_sfdp_fresh 100 []) / 8 :=
  ⟨by decide, by decide, by decide, by decide, by decide, by decide, by decide, by decide,
    by decide, by decide,
    C17_sfdp_exponent_size (logging (nor_reply sfdp_exp20)) mem_sfdp_fresh { } 100 []
      (by decide) (by decide) (by decide) (by decide) (by decide) (by decide) (by decide)
      (by decide) (by decide) (by decide)⟩

/-! ## Initialisation, ping and writes at concrete inputs -/

set_option maxRecDepth 100000 in
/-- C22 (the code refuses the stub variants): with a non-null configuration
and a transport whose initialisers succeed, `memoree_init` returns the null
handle for both stub variants without calling the transport, since
`VARIANT_ISVALID` excludes them; `memoree_stub_read` itself, on a handle of a
stub variant, forwards the transaction to the transport whatever its
address. -/
theorem C22_stub_variants_refused_by_init :
    memoree_init (logging accept_all) MEMOREE_VARIANT_STUB_SPI (some { speed := 1000000 }) []
      = (none, [])
    ∧ memoree_init (logging accept_all) MEMOREE_VARIANT_STUB_I2C
        (some { speed := 100000, addr := 0x50 }) [] = (none, [])
    ∧ memoree_stub_read (logging accept_all) (some mem_stub_spi)
        (some { addr := 0xFFFFFF, write_len := 2, write_buff := some [0xAA, 0xAA],
                timeout_ms := 100 }) []
      = (0, [], [Event.spi_write_read 1
          { addr := 0xFFFFFF, write_len := 2, write_buff := some [0xAA, 0xAA],
            timeout_ms := 100 }])
    ∧ memoree_stub_read (logging accept_all) (some mem_stub_i2c)
        (some { addr := 0x50, addr_len := 8, write_len := 3, write_buff := some [0, 0, 0],
                read_len := 4, read_buff := true, timeout_ms := 100 }) []
      = (0, [0, 0, 0, 0], [Event.i2c_write_read 1 0x50 [0, 0, 0] 4 100]) :=
  ⟨by decide, by decide, by decide, by decide⟩

set_option maxRecDepth 100000 in
/-- C23 (the code takes over any decoded size): for the SFDP table of a
16 Mbit flash whose size field is `0x00FFFFFF`, `memoree_init` returns a handle
with `size = 2097151`, `page_size = 64` and `num_pages = 32767`: the size is no
power of two and `num_pages * page_size` is not the size.  For the 128 MiB
flash the size is a power of two and `num_pages`, cut to 16 bits, is 0. -/
theorem C23_sfdp_geometry_not_power_of_two :
    (memoree_init (logging (nor_reply sfdp_16M)) MEMOREE_VARIANT_25XX_SFDP
        (some { speed := 1000000 }) []).1.map
        (fun m => (m.info.size, m.info.page_size, m.info.num_pages))
      = some (2097151, 64, 32767)
    ∧ is_pow2 2097151 = false ∧ 32767 * 64 ≠ 2097151
    ∧ (memoree_init (logging (nor_reply sfdp_128M)) MEMOREE_VARIANT_25XX_SFDP
        (some { speed := 1000000 }) []).1.map
        (fun m => (m.info.size, m.info.page_size, m.info.num_pages))
      = some (134217728, 64, 0) :=
  ⟨by decide, by decide, by decide, by decide⟩

set_option maxRecDepth 100000 in
/-- C24 (the code inverts the ping result): on the valid 24XX02 handle,
`memoree_ping` returns `MEMOREE_ERR_FAIL` when `platform_i2c_ping` reports
`MEMOREE_ERR_OK`, and `MEMOREE_ERR_OK` when it reports `MEMOREE_ERR_FAIL`. -/
theorem C24_ping_result_inverted :
    MEMOREE_ISVALID (some mem_24XX02) = true
    ∧ memoree_ping (logging accept_all) (some mem_24XX02) 1000 []
      = (MEMOREE_ERR_FAIL, some mem_24XX02, [Event.i2c_ping 1 0x50 1000])
    ∧ memoree_ping (logging (fail_with MEMOREE_ERR_FAIL)) (some mem_24XX02) 1000 []
      = (MEMOREE_ERR_OK, some mem_24XX02, [Event.i2c_ping 1 0x50 1000]) :=
  ⟨by decide, by decide, by decide⟩

set_option maxRecDepth 100000 in
/-- C25 as stated fails: on the 24XX02 handle, when the transport fails the
chunk with `MEMOREE_ERR_TIMEOUT`, `memoree_write` returns `MEMOREE_ERR_FAIL`. -/
theorem C25_timeout_becomes_fail :
    (fail_with MEMOREE_ERR_TIMEOUT [] (Event.i2c_write 1 0x50 [0, 1, 2, 3, 4, 5, 6, 7, 8] 0)).1
      = MEMOREE_ERR_TIMEOUT
    ∧ memoree_write (logging (fail_with MEMOREE_ERR_TIMEOUT)) (some mem_24XX02) 0
        (some data_1_to_12) 8 100 false []
      = (MEMOREE_ERR_FAIL, [Event.i2c_write 1 0x50 [0, 1, 2, 3, 4, 5, 6, 7, 8] 0, Event.ms_delay 5])
    ∧ MEMOREE_ERR_FAIL ≠ MEMOREE_ERR_TIMEOUT :=
  ⟨by decide, by decide, by decide⟩

set_option maxRecDepth 100000 in
/-- C28 (the page count is cut to 16 bits): on the 128 MiB NOR handle, a write
of `64 + 65536 * 64` bytes at address 0 has `alignment = 64 ≤ len` and
`addr + len ≤ size`, so the claim counts 65537 transactions; the code issues
the alignment chunk only and returns the full length. -/
theorem C28_page_count_cut_to_16_bits :
    0 + 4194368 ≤ mem_nor_128M.info.size
    ∧ mem_nor_128M.info.page_size - 0 % mem_nor_128M.info.page_size = 64
    ∧ 1 + (4194368 - 64) / mem_nor_128M.info.page_size = 65537
    ∧ memoree_write (logging accept_all) (some mem_nor_128M) 0 (some data_AA) 4194368 0 false []
      = (4194368,
          [Event.spi_write_read 1
             { cmd_len := 8, cmd := 0x02, addr_len := 24, addr := 0, write_len := 64,
               write_buff := some (List.replicate 64 0xAA) },
           Event.ms_delay 5]) :=
  ⟨by decide, by decide, by decide, by decide⟩

set_option maxRecDepth 100000 in
/-- C31 (the code counts one bit too many): `_get_address_space` returns 9 for
size 256, 12 for size 2048 and 2 for size 2, one more than `log2(size)`. -/
theorem C31_address_space_one_too_many :
    mem_24XX02.info.size = 256
    ∧ _get_address_space (some mem_24XX02) = 9
    ∧ (registry_handle MEMOREE_VARIANT_24XX16 1 0x50 400000).info.size = 2048
    ∧ _get_address_space (some (registry_handle MEMOREE_VARIANT_24XX16 1 0x50 400000)) = 12
    ∧ _get_address_space (some { mem_size_6 with info := { mem_size_6.info with size := 2 } }) = 2 :=
  ⟨by decide, by decide, by decide, by decide, by decide⟩

set_option maxRecDepth 100000 in
/-- C33 as stated fails: on the 8 KiB NOR handle a read of `2^31` bytes that the
transport accepts returns `-2^31`, not `len`. -/
theorem C33_read_return_not_len :
    mem_nor_8k.info.variant = MEMOREE_VARIANT_25XX_SFDP
    ∧ mem_nor_8k.info.size = 2 ^ 13 ∧ 0 < mem_nor_8k.info.size
    ∧ (accept_all [] (Event.spi_write_read 1 (spec_spi_read mem_nor_8k 0 2147483648 0))).1
      = MEMOREE_ERR_OK
    ∧ (memoree_read (logging accept_all) (some mem_nor_8k) 0 true 2147483648 0 []).1
      = -2147483648 := by
  refine ⟨by decide, by decide, by decide, by decide, ?_⟩
  unfold memoree_read
  decide

set_option maxRecDepth 100000 in
/-- C37 (no lower bound on the speed): for a configured speed of 1000 Hz
`memoree_init` returns a 24XX02 handle with `speed = 1000`, for which the
divisor `speed / 8000` of `MEMOREE_DEFAULT_TIMEOUT` is 0. -/
theorem C37_default_timeout_divides_by_zero :
    (memoree_init (logging accept_all) MEMOREE_VARIANT_24XX02
        (some { speed := 1000, addr := 0x50 }) []).1
      = some (registry_handle MEMOREE_VARIANT_24XX02 1 0x50 1000)
    ∧ (registry_handle MEMOREE_VARIANT_24XX02 1 0x50 1000).info.speed / 8000 = 0 :=
  ⟨by decide, by decide⟩

set_option maxRecDepth 100000 in
/-- C38 (an empty write still writes): on the valid 24XX02 handle
`memoree_write` with `len = 0` at address 0 sends the first 8 bytes of the
buffer as the alignment chunk, goes on with full pages to the end of the
array (32 transactions in all) and returns `MEMOREE_ERR_FAIL`. -/
theorem C38_empty_write_writes :
    MEMOREE_ISVALID (some mem_24XX02) = true
    ∧ (memoree_write (logging accept_all) (some mem_24XX02) 0 (some data_1_to_12) 0 0 false []).1
      = MEMOREE_ERR_FAIL
    ∧ (memoree_write (logging accept_all) (some mem_24XX02) 0 (some data_1_to_12) 0 0 false
        []).2.take 2
      = [Event.i2c_write 1 0x50 [0, 1, 2, 3, 4, 5, 6, 7, 8] 0, Event.ms_delay 5]
    ∧ ((memoree_write (logging accept_all) (some mem_24XX02) 0 (some data_1_to_12) 0 0 false
        []).2.filter is_transaction).length = 32 :=
  ⟨by decide, by decide, by decide, by decide⟩

set_option maxRecDepth 100000 in
/-- C39 (no write-enable before a page program in `memoree_write`): on the
8 KiB NOR handle `memoree_write` of 64 bytes issues the page program (opcode
`0x02`) as its first transaction, and `memoree_erase_page` does the same;
`memoree_write_byte` sends the write-enable (opcode `0x06`) first. -/
theorem C39_page_program_without_write_enable :
    memoree_write (logging accept_all) (some mem_nor_8k) 0 (some data_AA) 64 0 false []
      = (64, [Event.spi_write_read 1
                { cmd_len := 8, cmd := 0x02, addr_len := 24, addr := 0, write_len := 64,
                  write_buff := some (List.replicate 64 0xAA) },
              Event.ms_delay 5])
    ∧ memoree_erase_page (logging accept_all) (some mem_nor_8k) 1 0x00 []
      = (MEMOREE_ERR_OK,
          [Event.spi_write_read 1
             { cmd_len := 8, cmd := 0x02, addr_len := 24, addr := 64, write_len := 64,
               write_buff := some (List.replicate 64 0x00) }])
    ∧ memoree_write_byte (logging accept_all) (some mem_nor_8k) 0 0xAA 0 []
      = (MEMOREE_ERR_OK,
          [Event.spi_write_read 1 { cmd_len := 8, cmd := 0x06 },
           Event.spi_write_read 1
             { cmd_len := 8, cmd := 0x02, addr_len := 24, addr := 0, write_len := 1,
               write_buff := some [0xAA] }]) :=
  ⟨by decide, by decide, by decide⟩

set_option maxRecDepth 100000 in
/-- C40 (the byte count leaks out on I2C): on the valid 24XX02 handle, with a
transport that accepts everything, `memoree_write_byte` returns 1, while
`memoree_read_byte` returns `MEMOREE_ERR_OK`; on the 93C46 and NOR handles
`memoree_write_byte` returns `MEMOREE_ERR_OK`. -/
theorem C40_write_byte_returns_count :
    MEMOREE_ISVALID (some mem_24XX02) = true
    ∧ memoree_write_byte (logging accept_all) (some mem_24XX02) 0 0xAA 100 []
      = (1, [Event.i2c_write 1 0x50 [0, 0xAA] 100])
    ∧ (memoree_read_byte (logging accept_all) (some mem_24XX02) 0 true 100 []).1 = MEMOREE_ERR_OK
    ∧ (memoree_write_byte (logging accept_all) (some mem_93C46) 0 0xAA 100 []).1 = MEMOREE_ERR_OK
    ∧ (memoree_write_byte (logging accept_all) (some mem_nor_8k) 0 0xAA 100 []).1 = MEMOREE_ERR_OK :=
  ⟨by decide, by decide, by decide, by decide, by decide⟩

/-! ## Initialisation, discovery and addressing -/

/-- A variant that is a family sentinel or past the table is not valid. -/
theorem variant_invalid (variant : Nat)
    (h : variant = MEMOREE_VARIANT_I2C_MAX ∨ variant = MEMOREE_VARIANT_93CXX_MAX
      ∨ MEMOREE_VARIANT_MAX ≤ variant) : VARIANT_ISVALID variant = false := by
  simp only [MEMOREE_VARIANT_I2C_MAX, MEMOREE_VARIANT_93CXX_MAX, MEMOREE_VARIANT_MAX] at h
  rcases h with h | h | h
  · subst h; decide
  · subst h; decide
  · simp [VARIANT_ISVALID, MEMOREE_VARIANT_MAX]
    intro h1
    omega

/-- C21: for a variant equal to a family sentinel (`MEMOREE_VARIANT_I2C_MAX`,
`MEMOREE_VARIANT_93CXX_MAX`) or at least `MEMOREE_VARIANT_MAX`, and for a null
interface configuration, `memoree_init` returns the null handle and leaves the
transport in the state it found: no platform function is called. -/
theorem C21_invalid_variant_no_handle {σ : Type} (P : Platform σ) (variant : Nat)
    (interface_conf : Option interface_conf_t) (s : σ)
    (h : variant = MEMOREE_VARIANT_I2C_MAX ∨ variant = MEMOREE_VARIANT_93CXX_MAX
      ∨ MEMOREE_VARIANT_MAX ≤ variant ∨ interface_conf = none) :
    memoree_init P variant interface_conf s = (none, s) := by
  cases interface_conf with
  | none => rfl
  | some conf =>
    have hv : VARIANT_ISVALID variant = false := by
      apply variant_invalid
      rcases h with h | h | h | h
      · exact Or.inl h
      · exact Or.inr (Or.inl h)
      · exact Or.inr (Or.inr h)
      · exact absurd h (by simp)
    simp [memoree_init, hv]

/-- C36: whenever `memoree_get_sfdp` returns something else than
`MEMOREE_ERR_OK` (a failed read, NotSupported, InvalidHeader), the handle is the
one it was called with, every field unchanged. -/
theorem C36_discovery_failure_leaves_handle {σ : Type} (P : Platform σ) (m : Option memoree)
    (param : Option sfdp_param_t) (timeout_ms : Nat) (s : σ)
    (h : (memoree_get_sfdp P m param timeout_ms s).1 ≠ MEMOREE_ERR_OK) :
    (memoree_get_sfdp P m param timeout_ms s).2.2.1 = m := by
  unfold memoree_get_sfdp at h ⊢
  cases m with
  | none => rfl
  | some mem =>
    cases param with
    | none => rfl
    | some p =>
      simp only at h ⊢
      split_ifs at h ⊢ <;> first | rfl | exact absurd rfl h

/-- The handle `memoree_get_sfdp` leaves differs from the one it was given in
`size`, `addr_len` and `page_size` at most. -/
theorem get_sfdp_frame {σ : Type} (P : Platform σ) (mem mem1 : memoree)
    (param : Option sfdp_param_t) (timeout_ms : Nat) (s : σ)
    (h : (memoree_get_sfdp P (some mem) param timeout_ms s).2.2.1 = some mem1) :
    mem1.interface = mem.interface ∧ mem1.info.variant = mem.info.variant
    ∧ mem1.info.type = mem.info.type
    ∧ mem1.info.page_write_delay_ms = mem.info.page_write_delay_ms
    ∧ mem1.info.addr = mem.info.addr := by
  unfold memoree_get_sfdp at h
  cases param with
  | none =>
    simp only [Option.some.injEq] at h
    subst h
    exact ⟨rfl, rfl, rfl, rfl, rfl⟩
  | some p =>
    simp only at h
    split_ifs at h <;> simp only [Option.some.injEq] at h <;> subst h <;>
      exact ⟨rfl, rfl, rfl, rfl, rfl⟩

/-- Each valid variant has its own entry of `mem_props` at its index. -/
theorem mem_props_aligned (v : Nat) (hv : VARIANT_ISVALID v = true) :
    (mem_props_at v).variant = v := by
  have hlt : v < 20 := by
    simp only [VARIANT_ISVALID, MEMOREE_VARIANT_MAX, Bool.and_eq_true, decide_eq_true_eq] at hv
    exact hv.1.1.1.1
  interval_cases v <;> first | rfl | exact absurd hv (by decide)

/-- The fields `memoree_init` copies from the table into the handle. -/
theorem init_copy_fields (v : Nat) (conf : interface_conf_t) :
    (init_copy v conf).variant = (mem_props_at v).variant
    ∧ (init_copy v conf).type = (mem_props_at v).type
    ∧ (init_copy v conf).size = (mem_props_at v).size
    ∧ (init_copy v conf).addr_len = (mem_props_at v).addr_len
    ∧ (init_copy v conf).page_size = (mem_props_at v).page_size
    ∧ (init_copy v conf).page_write_delay_ms = (mem_props_at v).page_write_delay_ms := by
  unfold init_copy
  by_cases h : (mem_props_at v).type = MEMOREE_TYPE_I2C <;> simp [h]

/-- C26: for every variant `v` that passes `VARIANT_ISVALID`, the entry of
`mem_props` at index `v` records variant `v` (and the table has
`MEMOREE_VARIANT_MAX` entries), so that every handle `memoree_init` returns for
`v` carries variant `v` with the type and write delay of that entry and, for a
variant other than the SFDP one, its size, address width and page size. -/
theorem C26_registry_index_alignment {σ : Type} (P : Platform σ) (v : Nat)
    (conf : interface_conf_t) (s : σ) (mem : memoree) (hv : VARIANT_ISVALID v = true)
    (hinit : (memoree_init P v (some conf) s).1 = some mem) :
    (mem_props_at v).variant = v
    ∧ mem_props.length = MEMOREE_VARIANT_MAX
    ∧ mem.info.variant = v
    ∧ mem.info.type = (mem_props_at v).type
    ∧ mem.info.page_write_delay_ms = (mem_props_at v).page_write_delay_ms
    ∧ (v ≠ MEMOREE_VARIANT_25XX_SFDP →
        mem.info.size = (mem_props_at v).size
        ∧ mem.info.addr_len = (mem_props_at v).addr_len
        ∧ mem.info.page_size = (mem_props_at v).page_size) := by
  have ha := mem_props_aligned v hv
  obtain ⟨c1, c2, c3, c4, c5, c6⟩ := init_copy_fields v conf
  refine ⟨ha, rfl, ?_⟩
  unfold memoree_init at hinit
  simp only [hv, not_true_eq_false, if_false] at hinit
  generalize (if v < MEMOREE_VARIANT_I2C_MAX
      then P.i2c_init s { conf with speed := init_speed v conf.speed }
      else P.spi_init s { conf with speed := init_speed v conf.speed }) = r at hinit
  by_cases hr0 : r.1 = 0
  · simp [hr0] at hinit
  · by_cases hs : (init_copy v conf).variant = MEMOREE_VARIANT_25XX_SFDP
    · simp only [hr0, hs, if_true, if_false] at hinit
      split_ifs at hinit with hg
      · split at hinit
        · rename_i mem1 hm
          simp only [Option.some.injEq] at hinit
          subst hinit
          obtain ⟨-, f2, f3, f4, -⟩ := get_sfdp_frame P _ mem1 _ _ _ hm
          simp only [init_finish]
          rw [f2, f3, f4]
          refine ⟨c1.trans ha, c2, c6, fun hne => ?_⟩
          rw [c1, ha] at hs
          exact absurd hs hne
        · simp at hinit
    · simp only [hr0, hs, if_false, Option.some.injEq] at hinit
      subst hinit
      simp only [init_finish]
      exact ⟨c1.trans ha, c2, c6, fun _ => ⟨c3, c4, c5⟩⟩

/-- The table pointer and table length `sfdp_decode` reports. -/
theorem sfdp_decode_fparam (p : sfdp_param_t) (rb tb : Nat → Nat) (h : ∀ i, rb i < 256) :
    (sfdp_decode p rb tb).fparam_ptr = rb 12 + 256 * rb 13 + 65536 * rb 14
    ∧ (sfdp_decode p rb tb).fparam_size = 4 * rb 11 := by
  have h11 := h 11
  have h12 := h 12
  have h13 := h 13
  have h14 := h 14
  simp only [sfdp_decode]
  rw [or3_bytes _ _ _ h13 h12]
  unfold u32 u16
  omega

/-- C32: on a valid SFDP handle `memoree_get_sfdp` first issues the header read
(8-bit opcode `0x5A`, 24-bit address 0, 8 dummy bits, 15 bytes); when that
read succeeds and the header passes validation it issues exactly one further
transaction, the table read (same opcode, address width and dummy width, at
address `byte12 | byte13 << 8 | byte14 << 16`, for `4 * byte11` bytes), and
reports these two values as `param.fparam_ptr` and `param.fparam_size`. -/
theorem C32_discovery_transactions (reply : List Event → Event → Int × List Nat)
    (mem : memoree) (p : sfdp_param_t) (timeout_ms : Nat) (s : List Event)
    (hvalid : MEMOREE_ISVALID (some mem) = true)
    (hvar : mem.info.variant = MEMOREE_VARIANT_25XX_SFDP) :
    sfdp_header_read timeout_ms
      = { cmd_len := 8, cmd := 0x5A, addr_len := 24, addr := 0, dummy_len := 8, read_len := 15,
          read_buff := true, write_len := 15, write_buff := some (List.replicate 15 0xFF),
          timeout_ms := u32 timeout_ms }
    ∧ (∃ rest, (memoree_get_sfdp (logging reply) (some mem) (some p) timeout_ms s).2.2.2
        = s ++ Event.spi_write_read mem.interface (sfdp_header_read timeout_ms) :: rest)
    ∧ ((reply s (Event.spi_write_read mem.interface (sfdp_header_read timeout_ms))).1 = 0 →
        spec_signature (sfdp_header (logging reply) mem timeout_ms s) →
        spec_header_valid (sfdp_header (logging reply) mem timeout_ms s) →
        (memoree_get_sfdp (logging reply) (some mem) (some p) timeout_ms s).2.2.2
          = s ++ [Event.spi_write_read mem.interface (sfdp_header_read timeout_ms),
                  Event.spi_write_read mem.interface
                    { cmd_len := 8, cmd := 0x5A, addr_len := 24, dummy_len := 8,
                      addr := sfdp_header (logging reply) mem timeout_ms s 12
                        + 256 * sfdp_header (logging reply) mem timeout_ms s 13
                        + 65536 * sfdp_header (logging reply) mem timeout_ms s 14,
                      read_len := 4 * sfdp_header (logging reply) mem timeout_ms s 11,
                      read_buff := true,
                      write_len := 4 * sfdp_header (logging reply) mem timeout_ms s 11,
                      write_buff := some (List.replicate
                        (4 * sfdp_header (logging reply) mem timeout_ms s 11) 0xFF),
                      timeout_ms := u32 timeout_ms }]
        ∧ ∃ q, (memoree_get_sfdp (logging reply) (some mem) (some p) timeout_ms s).2.1 = some q
            ∧ q.fparam_ptr = sfdp_header (logging reply) mem timeout_ms s 12
                + 256 * sfdp_header (logging reply) mem timeout_ms s 13
                + 65536 * sfdp_header (logging reply) mem timeout_ms s 14
            ∧ q.fparam_size = 4 * sfdp_header (logging reply) mem timeout_ms s 11) := by
  have hs1 : ((logging reply).spi_write_read s mem.interface (sfdp_header_read timeout_ms)).2.2
      = s ++ [Event.spi_write_read mem.interface (sfdp_header_read timeout_ms)] := rfl
  have hs2 : (sfdp_table_result (logging reply) mem timeout_ms s).2.2
      = s ++ [Event.spi_write_read mem.interface (sfdp_header_read timeout_ms),
              Event.spi_write_read mem.interface
                (sfdp_table_read timeout_ms (sfdp_header (logging reply) mem timeout_ms s))] := by
    simp [sfdp_table_result, logging]
  obtain ⟨hp, hz⟩ := sfdp_decode_fparam p (sfdp_header (logging reply) mem timeout_ms s)
    (sfdp_table (logging reply) mem timeout_ms s) (fun i => read_byte_of_lt _ i)
  refine ⟨rfl, ?_, ?_⟩
  · rw [memoree_get_sfdp_eq (logging reply) mem p timeout_ms s hvalid hvar]
    unfold spec_discovery
    simp only [hs1, hs2]
    split_ifs <;> first | exact ⟨[], rfl⟩ | exact ⟨[_], rfl⟩
  · intro h1 hsig hhdr
    have h1' : ((logging reply).spi_write_read s mem.interface
        (sfdp_header_read timeout_ms)).1 = 0 := h1
    rw [memoree_get_sfdp_eq (logging reply) mem p timeout_ms s hvalid hvar]
    unfold spec_discovery
    simp only [h1', hsig, hhdr, hs2, ne_eq, not_true_eq_false, if_false]
    split_ifs <;> exact ⟨rfl, _, rfl, hp, hz⟩

/-- The mask `addr & (size - 1)` leaves an in-range address alone when the
size is a power of two that fits the 32-bit field. -/
theorem mask_addr_of_lt (addr size k : Nat) (hsize : size = 2 ^ k) (hlt : size < 4294967296)
    (haddr : addr < size) : mask_addr addr size = addr := by
  have hpos : 0 < size := by omega
  have hu : usub32 size 1 = 2 ^ k - 1 := by
    unfold usub32
    rw [← hsize]
    omega
  unfold mask_addr
  rw [hu, Nat.and_pow_two_sub_one_eq_mod, ← hsize]
  exact Nat.mod_eq_of_lt haddr

/-- C33 as the code has it: on a 93Cxx or SFDP handle whose size is a power of
two, for `addr < size` and `len < 2^31`, `memoree_read` issues exactly one
transaction, the read of `spec_spi_read` (opcode `0b110` with 3 command bits
on the 93Cxx family, `0x03` with 8 command bits on the NOR family, address
`addr` of width `addr_len`, no dummy bits, no write payload, read length
`len`), and returns the transport's result when that is negative and `len`
otherwise. -/
theorem C33_spi_read_framing {σ : Type} (P : Platform σ) (mem : memoree)
    (addr len timeout_ms k : Nat) (s : σ)
    (hfam : (MEMOREE_VARIANT_I2C_MAX < mem.info.variant
        ∧ mem.info.variant < MEMOREE_VARIANT_93CXX_MAX)
      ∨ mem.info.variant = MEMOREE_VARIANT_25XX_SFDP)
    (hsize : mem.info.size = 2 ^ k) (hlt : mem.info.size < 4294967296)
    (haddr : addr < mem.info.size) (hlen : len < 2147483648) :
    memoree_read P (some mem) addr true len timeout_ms s
      = (if (P.spi_write_read s mem.interface (spec_spi_read mem addr len timeout_ms)).1 < 0
           then (P.spi_write_read s mem.interface (spec_spi_read mem addr len timeout_ms)).1
           else (len : Int),
         (P.spi_write_read s mem.interface (spec_spi_read mem addr len timeout_ms)).2.1,
         (P.spi_write_read s mem.interface (spec_spi_read mem addr len timeout_ms)).2.2) := by
  have hm := mask_addr_of_lt addr mem.info.size k hsize hlt haddr
  have hl := toInt32_of_lt hlen
  unfold memoree_read spec_spi_read
  simp only [ADDRESS_ISVALID, haddr, decide_True, Bool.not_true, Bool.and_false, Bool.or_self,
    Bool.false_eq_true, if_false, hm, hl]
  simp only [MEMOREE_VARIANT_I2C_MAX, MEMOREE_VARIANT_93CXX_MAX, MEMOREE_VARIANT_25XX_SFDP,
    MEMOREE_CMD_93CXX_READ, MEMOREE_CMD_25XX_READ] at hfam ⊢
  rcases hfam with ⟨h1, h2⟩ | h
  · have hn : ¬ mem.info.variant < 11 := by omega
    have hne : ¬ mem.info.variant = 19 := by omega
    simp only [hn, h2, hne, if_true, if_false]
  · rw [h]
    simp

/-- Unfolding of `memoree_read` on the I2C branch. -/
theorem read_i2c {σ : Type} (P : Platform σ) (mem : memoree) (addr len timeout_ms : Nat)
    (s : σ) (k : Int)
    (hvar : mem.info.variant < MEMOREE_VARIANT_I2C_MAX) (haddr : addr < mem.info.size)
    (hk : _get_address_space (some mem) = k) (hpos : 0 < k) :
    memoree_read P (some mem) addr true len timeout_ms s
      = (if (P.i2c_write_read s mem.interface
                (if k = (mem.info.addr_len : Int) then mem.info.addr
                 else u8 (mem.info.addr ||| (((addr >>> mem.info.addr_len) <<< 1) &&& 0x0F)))
                (address_bytes addr (mem.info.addr_len / 8) mem.info.addr_len) len
                timeout_ms).1 < 0
         then (P.i2c_write_read s mem.interface
                (if k = (mem.info.addr_len : Int) then mem.info.addr
                 else u8 (mem.info.addr ||| (((addr >>> mem.info.addr_len) <<< 1) &&& 0x0F)))
                (address_bytes addr (mem.info.addr_len / 8) mem.info.addr_len) len
                timeout_ms).1
         else toInt32 len,
         (P.i2c_write_read s mem.interface
                (if k = (mem.info.addr_len : Int) then mem.info.addr
                 else u8 (mem.info.addr ||| (((addr >>> mem.info.addr_len) <<< 1) &&& 0x0F)))
                (address_bytes addr (mem.info.addr_len / 8) mem.info.addr_len) len
                timeout_ms).2) := by
  have h1 : ¬ k ≤ 0 := by omega
  simp [memoree_read, ADDRESS_ISVALID, haddr, hvar, hk, h1]

/-- The address-space width as `memoree_read` uses it: positive, and equal to
the native address width only when the array is smaller than the native
address range. -/
theorem address_space_i2c_read (mem : memoree) (v : Nat)
    (hv : MEMOREE_VARIANT_STUB_I2C < v ∧ v < MEMOREE_VARIANT_I2C_MAX)
    (hsize : mem.info.size = (mem_props_at v).size) :
    0 < _get_address_space (some mem)
    ∧ (_get_address_space (some mem) = ((mem_props_at v).addr_len : Int)
        → (mem_props_at v).size < 2 ^ (mem_props_at v).addr_len) := by
  obtain ⟨h1, h2⟩ := hv
  simp only [MEMOREE_VARIANT_STUB_I2C, MEMOREE_VARIANT_I2C_MAX] at h1 h2
  unfold _get_address_space
  simp only [hsize]
  interval_cases v <;> decide

/-- An address inside the native address range leaves the base select byte
unchanged. -/
theorem device_select_of_lt (b a addr : Nat) (h : addr < 2 ^ a) :
    spec_device_select b a addr = b := by
  unfold spec_device_select
  rw [Nat.shiftRight_eq_div_pow, Nat.div_eq_of_lt h]
  simp

/-- The select byte and the address field `_memoree_write_bytes` and
`memoree_read` hand to the transport on an I2C registry variant. -/
theorem registry_addressing {σ : Type} (P : Platform σ) (s s1 : σ)
    (v interface b speed addr len rlen timeout_ms rtimeout_ms : Nat) (f : Nat → Nat)
    (hv : MEMOREE_VARIANT_STUB_I2C < v ∧ v < MEMOREE_VARIANT_I2C_MAX)
    (hb : b < 256) (haddr : addr < (mem_props_at v).size) :
    _memoree_write_bytes P (some (registry_handle v interface b speed)) addr (some f) len
        timeout_ms s
      = i2c_return (mem_props_at v).addr_len
          (P.i2c_write s interface (spec_device_select b (mem_props_at v).addr_len addr)
            (spec_address_field (mem_props_at v).addr_len addr ++ bytes_at f 0 len) timeout_ms)
    ∧ memoree_read P (some (registry_handle v interface b speed)) addr true rlen rtimeout_ms s1
      = (if (P.i2c_write_read s1 interface
                (spec_device_select b (mem_props_at v).addr_len addr)
                (spec_address_field (mem_props_at v).addr_len addr) rlen rtimeout_ms).1 < 0
         then (P.i2c_write_read s1 interface
                (spec_device_select b (mem_props_at v).addr_len addr)
                (spec_address_field (mem_props_at v).addr_len addr) rlen rtimeout_ms).1
         else toInt32 rlen,
         (P.i2c_write_read s1 interface
                (spec_device_select b (mem_props_at v).addr_len addr)
                (spec_address_field (mem_props_at v).addr_len addr) rlen rtimeout_ms).2) := by
  have ha := addr_len_i2c v hv
  obtain ⟨hi, hvar, hsz, hal, -, hsel⟩ := registry_handle_i2c v interface b speed hv
  obtain ⟨hpos, hle⟩ := address_space_i2c (registry_handle v interface b speed) v hv hsz
  obtain ⟨hposr, heq⟩ := address_space_i2c_read (registry_handle v interface b speed) v hv hsz
  have hbytes : address_bytes addr ((mem_props_at v).addr_len / 8) (mem_props_at v).addr_len
      = spec_address_field (mem_props_at v).addr_len addr := by
    rcases ha with h | h <;> rw [h]
    · exact address_bytes_8 addr
    · exact address_bytes_16 addr
  have hfold : u8 (b ||| (((addr >>> (mem_props_at v).addr_len) <<< 1) &&& 0x0F))
      = spec_device_select b (mem_props_at v).addr_len addr := u8_select _ _ hb
  have hw : (if toInt8 (_get_address_space (some (registry_handle v interface b speed)))
        ≤ ((mem_props_at v).addr_len : Int) then b
      else spec_device_select b (mem_props_at v).addr_len addr)
      = spec_device_select b (mem_props_at v).addr_len addr := by
    split_ifs with h
    · exact (device_select_of_lt b _ addr (by have := hle.mp h; omega)).symm
    · rfl
  have hr : (if _get_address_space (some (registry_handle v interface b speed))
        = ((mem_props_at v).addr_len : Int) then b
      else spec_device_select b (mem_props_at v).addr_len addr)
      = spec_device_select b (mem_props_at v).addr_len addr := by
    split_ifs with h
    · exact (device_select_of_lt b _ addr (by have := heq h; omega)).symm
    · rfl
  constructor
  · rw [write_bytes_i2c P _ addr len timeout_ms f s _ (by rw [hvar]; exact hv.2)
      (by rw [hsz]; exact haddr) rfl hpos]
    rw [hal, hi, hsel, u8_of_lt hb, hbytes, hfold, hw]
  · rw [read_i2c P _ addr rlen rtimeout_ms s1 _ (by rw [hvar]; exact hv.2)
      (by rw [hsz]; exact haddr) rfl hposr]
    rw [hal, hi, hsel, u8_of_lt hb, hbytes, hfold, hr]

/-- C34: for every I2C registry variant, every base select address `b` and
every `addr < size`, `memoree_read` and `_memoree_write_bytes` pass the same
device-select byte, `b | (((addr >> addr_len) << 1) & 0x0F)`, to the
transport and send the same address field (the low `addr_len` bits of `addr`,
most significant byte first), the write followed by its payload. -/
theorem C34_read_write_same_addressing {σ : Type} (P : Platform σ) (s s1 : σ)
    (v interface b speed addr len rlen timeout_ms rtimeout_ms : Nat) (f : Nat → Nat)
    (hv : MEMOREE_VARIANT_STUB_I2C < v ∧ v < MEMOREE_VARIANT_I2C_MAX)
    (hb : b < 256) (haddr : addr < (mem_props_at v).size) :
    _memoree_write_bytes P (some (registry_handle v interface b speed)) addr (some f) len
        timeout_ms s
      = i2c_return (mem_props_at v).addr_len
          (P.i2c_write s interface (spec_device_select b (mem_props_at v).addr_len addr)
            (spec_address_field (mem_props_at v).addr_len addr ++ bytes_at f 0 len) timeout_ms)
    ∧ memoree_read P (some (registry_handle v interface b speed)) addr true rlen rtimeout_ms s1
      = (if (P.i2c_write_read s1 interface
                (spec_device_select b (mem_props_at v).addr_len addr)
                (spec_address_field (mem_props_at v).addr_len addr) rlen rtimeout_ms).1 < 0
         then (P.i2c_write_read s1 interface
                (spec_device_select b (mem_props_at v).addr_len addr)
                (spec_address_field (mem_props_at v).addr_len addr) rlen rtimeout_ms).1
         else toInt32 rlen,
         (P.i2c_write_read s1 interface
                (spec_device_select b (mem_props_at v).addr_len addr)
                (spec_address_field (mem_props_at v).addr_len addr) rlen rtimeout_ms).2) :=
  registry_addressing P s s1 v interface b speed addr len rlen timeout_ms rtimeout_ms f hv hb haddr

/-- On every I2C registry variant the part of an in-range address above the
native address width is below 8. -/
theorem registry_high_bits (v addr : Nat)
    (hv : MEMOREE_VARIANT_STUB_I2C < v ∧ v < MEMOREE_VARIANT_I2C_MAX)
    (haddr : addr < (mem_props_at v).size) :
    addr / 2 ^ (mem_props_at v).addr_len < 8 := by
  obtain ⟨h1, h2⟩ := hv
  simp only [MEMOREE_VARIANT_STUB_I2C, MEMOREE_VARIANT_I2C_MAX] at h1 h2
  interval_cases v <;> simp [mem_props_at, mem_props] at haddr ⊢ <;> omega

/-- The folded bits can be read back from the device-select byte when the
base address leaves bits 3:1 clear. -/
theorem fold_bits (b hi : Nat) (hb0 : b &&& 0x0E = 0) (hhi : hi < 8) :
    (b ||| ((hi <<< 1) &&& 0x0F)) &&& 0x0E = 2 * hi := by
  rw [Nat.and_comm, Nat.and_or_distrib_left, Nat.and_comm 14 b, hb0, Nat.zero_or]
  interval_cases hi <;> rfl

/-- The address field determines the low `addr_len` bits of the address. -/
theorem address_field_low (a addr1 addr2 : Nat) (ha : a = 8 ∨ a = 16)
    (h : spec_address_field a addr1 = spec_address_field a addr2) :
    addr1 % 2 ^ a = addr2 % 2 ^ a := by
  rcases ha with ha | ha <;> subst ha
  · simp [spec_address_field, List.range_succ] at h
    omega
  · simp [spec_address_field, List.range_succ] at h
    omega

/-- The device-select byte and the address field together determine the
address. -/
theorem select_field_injective (v b addr1 addr2 : Nat)
    (hv : MEMOREE_VARIANT_STUB_I2C < v ∧ v < MEMOREE_VARIANT_I2C_MAX)
    (hb0 : b &&& 0x0E = 0)
    (h1 : addr1 < (mem_props_at v).size) (h2 : addr2 < (mem_props_at v).size)
    (hsel : spec_device_select b (mem_props_at v).addr_len addr1
      = spec_device_select b (mem_props_at v).addr_len addr2)
    (hfield : spec_address_field (mem_props_at v).addr_len addr1
      = spec_address_field (mem_props_at v).addr_len addr2) : addr1 = addr2 := by
  have g1 := registry_high_bits v addr1 hv h1
  have g2 := registry_high_bits v addr2 hv h2
  have hlow := address_field_low _ addr1 addr2 (addr_len_i2c v hv) hfield
  have f1 := fold_bits b _ hb0 g1
  have f2 := fold_bits b _ hb0 g2
  unfold spec_device_select at hsel
  rw [Nat.shiftRight_eq_div_pow, Nat.shiftRight_eq_div_pow] at hsel
  rw [hsel, f2] at f1
  have hhi : addr1 / 2 ^ (mem_props_at v).addr_len = addr2 / 2 ^ (mem_props_at v).addr_len := by
    omega
  rw [← Nat.div_add_mod addr1 (2 ^ (mem_props_at v).addr_len),
    ← Nat.div_add_mod addr2 (2 ^ (mem_props_at v).addr_len), hhi, hlow]

/-- C35: for every I2C registry variant, every base select address `b` with
`b & 0x0E = 0` and every in-range address, `addr >> addr_len < 8`, so the mask
`0x0F` discards no address bit; and if `_memoree_write_bytes` hands the
transport the same device-select byte and the same buffer for two in-range
addresses (same payload), the two addresses are equal. -/
theorem C35_address_folding_lossless (reply : List Event → Event → Int × List Nat)
    (s : List Event) (v interface b speed addr1 addr2 len timeout_ms : Nat) (f : Nat → Nat)
    (hv : MEMOREE_VARIANT_STUB_I2C < v ∧ v < MEMOREE_VARIANT_I2C_MAX)
    (hb : b < 256) (hb0 : b &&& 0x0E = 0)
    (h1 : addr1 < (mem_props_at v).size) (h2 : addr2 < (mem_props_at v).size) :
    addr1 >>> (mem_props_at v).addr_len < 8
    ∧ ((addr1 >>> (mem_props_at v).addr_len) <<< 1) &&& 0x0F
        = 2 * (addr1 >>> (mem_props_at v).addr_len)
    ∧ ((_memoree_write_bytes (logging reply) (some (registry_handle v interface b speed)) addr1
          (some f) len timeout_ms s).2
        = (_memoree_write_bytes (logging reply) (some (registry_handle v interface b speed)) addr2
          (some f) len timeout_ms s).2 → addr1 = addr2) := by
  have g1 := registry_high_bits v addr1 hv h1
  refine ⟨?_, ?_, ?_⟩
  · rw [Nat.shiftRight_eq_div_pow]
    exact g1
  · rw [Nat.shiftRight_eq_div_pow]
    generalize addr1 / 2 ^ (mem_props_at v).addr_len = hi at g1
    interval_cases hi <;> rfl
  · intro h
    rw [(registry_addressing (logging reply) s s v interface b speed addr1 len 0 timeout_ms 0 f
        hv hb h1).1,
      (registry_addressing (logging reply) s s v interface b speed addr2 len 0 timeout_ms 0 f
        hv hb h2).1] at h
    simp only [i2c_return, logging, List.append_cancel_left_eq, List.cons.injEq, and_true,
      Event.i2c_write.injEq, true_and, List.append_cancel_right_eq] at h
    exact select_field_injective v b addr1 addr2 hv hb0 h1 h2 h.1 h.2

/-! ## Byte writes on the 93Cxx family -/

/-- The transaction `write_byte_loop` issues for byte `k` is the byte write of
the spec. -/
theorem byte_write_event (mem : memoree) (addr tm k : Nat) (f : Nat → Nat)
    (h : addr + k < 4294967296) :
    Event.spi_write_read mem.interface
      { ({ cmd_len := 3, cmd := MEMOREE_CMD_93CXX_WRITE, addr_len := mem.info.addr_len,
           addr := addr, write_len := 1, timeout_ms := tm } : memoree_spi_transaction_t) with
        addr := u32 (addr + k), write_buff := some (bytes_at f k 1) }
      = spec_byte_write mem addr f tm k := by
  have hu : u32 (addr + k) = addr + k := Nat.mod_eq_of_lt h
  simp [spec_byte_write, hu, bytes_at, MEMOREE_CMD_93CXX_WRITE, List.range_succ]

/-- The last pass of the byte loop over a recording transport. -/
theorem write_byte_loop_zero (reply : List Event → Event → Int × List Nat) (mem : memoree)
    (addr tm k : Nat) (f : Nat → Nat) (s : List Event) (h : addr + k < 4294967296) :
    write_byte_loop (logging reply) mem
        { cmd_len := 3, cmd := MEMOREE_CMD_93CXX_WRITE, addr_len := mem.info.addr_len,
          addr := addr, write_len := 1, timeout_ms := tm } f 0 k s
      = (toInt8 (reply s (spec_byte_write mem addr f tm k)).1,
         s ++ spec_byte_writes mem addr f tm k 1) := by
  unfold write_byte_loop
  simp only [logging, byte_write_event mem addr tm k f h, spec_byte_writes,
    List.append_assoc, List.singleton_append]

/-- A pass of the byte loop over a recording transport that is not the last. -/
theorem write_byte_loop_succ (reply : List Event → Event → Int × List Nat) (mem : memoree)
    (addr tm k n : Nat) (f : Nat → Nat) (s : List Event) (h : addr + k < 4294967296) :
    write_byte_loop (logging reply) mem
        { cmd_len := 3, cmd := MEMOREE_CMD_93CXX_WRITE, addr_len := mem.info.addr_len,
          addr := addr, write_len := 1, timeout_ms := tm } f (n + 1) k s
      = if toInt8 (reply s (spec_byte_write mem addr f tm k)).1 = 0 then
          write_byte_loop (logging reply) mem
            { cmd_len := 3, cmd := MEMOREE_CMD_93CXX_WRITE, addr_len := mem.info.addr_len,
              addr := addr, write_len := 1, timeout_ms := tm } f n (k + 1)
            (s ++ spec_byte_writes mem addr f tm k 1)
        else (toInt8 (reply s (spec_byte_write mem addr f tm k)).1,
              s ++ spec_byte_writes mem addr f tm k 1) := by
  conv_lhs => unfold write_byte_loop
  simp only [logging, byte_write_event mem addr tm k f h, spec_byte_writes,
    List.append_assoc, List.singleton_append]

/-- The byte writes `k, ..., k + i` are the byte write `k` followed by the
byte writes `k + 1, ..., k + i`. -/
theorem spec_byte_writes_append (mem : memoree) (addr tm k i : Nat) (f : Nat → Nat)
    (s : List Event) :
    s ++ spec_byte_writes mem addr f tm k 1 ++ spec_byte_writes mem addr f tm (k + 1) i
      = s ++ spec_byte_writes mem addr f tm k (i + 1) := by
  simp only [spec_byte_writes, List.append_assoc, List.singleton_append, List.cons_append,
    List.nil_append]

/-- The byte loop over a recording transport, as long as every byte write is
accepted: it issues the byte writes `k, ..., k + n`, each followed by the
delay, and ends with `ret = 0`. -/
theorem write_byte_loop_ok (reply : List Event → Event → Int × List Nat) (mem : memoree)
    (addr tm : Nat) (f : Nat → Nat) :
    ∀ (n k : Nat) (s : List Event), addr + k + n < 4294967296 →
      (∀ i, i ≤ n →
        toInt8 (reply (s ++ spec_byte_writes mem addr f tm k i)
          (spec_byte_write mem addr f tm (k + i))).1 = 0) →
      write_byte_loop (logging reply) mem
          { cmd_len := 3, cmd := MEMOREE_CMD_93CXX_WRITE, addr_len := mem.info.addr_len,
            addr := addr, write_len := 1, timeout_ms := tm } f n k s
        = (0, s ++ spec_byte_writes mem addr f tm k (n + 1)) := by
  intro n
  induction n with
  | zero =>
    intro k s hb hok
    have h0 := hok 0 (Nat.le_refl 0)
    rw [show spec_byte_writes mem addr f tm k 0 = [] from rfl, List.append_nil,
      Nat.add_zero] at h0
    rw [write_byte_loop_zero reply mem addr tm k f s (by omega), h0]
  | succ n ih =>
    intro k s hb hok
    have h0 := hok 0 (Nat.zero_le _)
    rw [show spec_byte_writes mem addr f tm k 0 = [] from rfl, List.append_nil,
      Nat.add_zero] at h0
    rw [write_byte_loop_succ reply mem addr tm k n f s (by omega), if_pos h0,
      ih (k + 1) _ (by omega), spec_byte_writes_append]
    intro i hi
    have h1 := hok (i + 1) (by omega)
    rw [spec_byte_writes_append]
    have e : k + 1 + i = k + (i + 1) := by omega
    rw [e]
    exact h1

/-- The byte loop over a recording transport when byte write `k + i` is the
first one refused: nothing is issued after it (but its delay), and the loop
ends with the refusal as `ret`. -/
theorem write_byte_loop_fail (reply : List Event → Event → Int × List Nat) (mem : memoree)
    (addr tm : Nat) (f : Nat → Nat) :
    ∀ (n k : Nat) (s : List Event) (i : Nat), i ≤ n → addr + k + n < 4294967296 →
      (∀ j, j < i →
        toInt8 (reply (s ++ spec_byte_writes mem addr f tm k j)
          (spec_byte_write mem addr f tm (k + j))).1 = 0) →
      toInt8 (reply (s ++ spec_byte_writes mem addr f tm k i)
          (spec_byte_write mem addr f tm (k + i))).1 ≠ 0 →
      write_byte_loop (logging reply) mem
          { cmd_len := 3, cmd := MEMOREE_CMD_93CXX_WRITE, addr_len := mem.info.addr_len,
            addr := addr, write_len := 1, timeout_ms := tm } f n k s
        = (toInt8 (reply (s ++ spec_byte_writes mem addr f tm k i)
              (spec_byte_write mem addr f tm (k + i))).1,
           s ++ spec_byte_writes mem addr f tm k (i + 1)) := by
  intro n
  induction n with
  | zero =>
    intro k s i hi hb hok hbad
    have hi0 : i = 0 := by omega
    subst hi0
    rw [show spec_byte_writes mem addr f tm k 0 = [] from rfl, List.append_nil, Nat.add_zero]
    exact write_byte_loop_zero reply mem addr tm k f s (by omega)
  | succ n ih =>
    intro k s i hi hb hok hbad
    cases i with
    | zero =>
      rw [show spec_byte_writes mem addr f tm k 0 = [] from rfl, List.append_nil,
        Nat.add_zero] at hbad ⊢
      rw [write_byte_loop_succ reply mem addr tm k n f s (by omega), if_neg hbad]
      rfl
    | succ i =>
      have h0 := hok 0 (Nat.succ_pos _)
      rw [show spec_byte_writes mem addr f tm k 0 = [] from rfl, List.append_nil,
        Nat.add_zero] at h0
      have e : ∀ j, k + 1 + j = k + (j + 1) := fun j => by omega
      rw [write_byte_loop_succ reply mem addr tm k n f s (by omega), if_pos h0,
        ih (k + 1) _ i (by omega) (by omega), spec_byte_writes_append, e i,
        spec_byte_writes_append]
      · intro j hj
        have h1 := hok (j + 1) (by omega)
        rw [spec_byte_writes_append, e j]
        exact h1
      · rw [spec_byte_writes_append, e i]
        exact hbad

/-- The fields `memoree_init` gives the handle of a 93Cxx registry variant. -/
theorem registry_handle_93cxx (v interface b speed : Nat)
    (hv : MEMOREE_VARIANT_STUB_SPI < v ∧ v < MEMOREE_VARIANT_93CXX_MAX) :
    (registry_handle v interface b speed).interface = interface
    ∧ (registry_handle v interface b speed).info.variant = v
    ∧ (registry_handle v interface b speed).info.size = (mem_props_at v).size
    ∧ (registry_handle v interface b speed).info.addr_len = (mem_props_at v).addr_len
    ∧ VARIANT_ISVALID v = true
    ∧ (mem_props_at v).size ≤ 2048
    ∧ ∃ k, (mem_props_at v).size = 2 ^ k := by
  obtain ⟨h1, h2⟩ := hv
  simp only [MEMOREE_VARIANT_STUB_SPI, MEMOREE_VARIANT_93CXX_MAX] at h1 h2
  interval_cases v
  · exact ⟨rfl, rfl, rfl, rfl, rfl, by decide, 7, rfl⟩
  · exact ⟨rfl, rfl, rfl, rfl, rfl, by decide, 8, rfl⟩
  · exact ⟨rfl, rfl, rfl, rfl, rfl, by decide, 9, rfl⟩
  · exact ⟨rfl, rfl, rfl, rfl, rfl, by decide, 10, rfl⟩
  · exact ⟨rfl, rfl, rfl, rfl, rfl, by decide, 11, rfl⟩

/-- `memoree_write` on a valid 93Cxx handle whose write-enable the recording
transport accepts: the write-enable, then the byte loop. -/
theorem memoree_write_93cxx (reply : List Event → Event → Int × List Nat) (s : List Event)
    (mem : memoree) (addr len timeout_ms : Nat) (f : Nat → Nat) (wrap : Bool)
    (hfam : MEMOREE_VARIANT_I2C_MAX < mem.info.variant
      ∧ mem.info.variant < MEMOREE_VARIANT_93CXX_MAX)
    (hvalid : MEMOREE_ISVALID (some mem) = true)
    (haddr : addr < mem.info.size) (hmask : mask_addr addr mem.info.size = addr)
    (hlen : 1 ≤ len) (hlen2 : len < 2147483648)
    (hwen : (reply s (spec_write_enable mem)).1 = 0) :
    memoree_write (logging reply) (some mem) addr (some f) len timeout_ms wrap s
      = (if (write_byte_loop (logging reply) mem
              { cmd_len := 3, cmd := MEMOREE_CMD_93CXX_WRITE, addr_len := mem.info.addr_len,
                addr := addr, write_len := 1,
                timeout_ms := if timeout_ms ≠ 0 then u32 (timeout_ms / len) else 0 }
              f (len - 1) 0 (s ++ [spec_write_enable mem])).1 = 0
         then (len : Int) else MEMOREE_ERR_FAIL,
         (write_byte_loop (logging reply) mem
              { cmd_len := 3, cmd := MEMOREE_CMD_93CXX_WRITE, addr_len := mem.info.addr_len,
                addr := addr, write_len := 1,
                timeout_ms := if timeout_ms ≠ 0 then u32 (timeout_ms / len) else 0 }
              f (len - 1) 0 (s ++ [spec_write_enable mem])).2) := by
  have hn : ¬ mem.info.variant < MEMOREE_VARIANT_I2C_MAX := by omega
  have hu : usub32 len 1 = len - 1 := by unfold usub32; omega
  have hl := toInt32_of_lt hlen2
  have hw : _memoree_spi_write_enable (logging reply) (some mem) s
      = (MEMOREE_ERR_OK, s ++ [spec_write_enable mem]) := by
    have h8 : toInt8 (reply s (spec_write_enable mem)).1 = 0 := by rw [hwen]; rfl
    simp only [spec_write_enable] at h8
    simp [_memoree_spi_write_enable, hvalid, hn, hfam.2, logging, spec_write_enable,
      MEMOREE_CMD_93CXX_WEN, h8]
  unfold memoree_write
  rw [memoree_write_rec]
  simp only [ADDRESS_ISVALID, haddr, decide_True, Bool.not_true, Bool.and_false,
    Option.isNone_some, Bool.or_self, Bool.false_eq_true, if_false, hfam, and_self, if_true, hw,
    ne_eq, not_true_eq_false, hmask, hu, hl]

theorem toInt8_of_range (z : Int) (h1 : -128 ≤ z) (h2 : z ≤ 127) : toInt8 z = z := by
  unfold toInt8
  split_ifs <;> omega

/-- C30: on the handle of every 93Cxx registry variant, for `len ≥ 1` and
`addr + len ≤ size`, when the transport accepts the write-enable (5-bit opcode
`0b10011`, 5 address bits), `memoree_write` issues the write-enable and then
byte writes (3-bit opcode `0b101`, address width `addr_len`, address
`addr + k`, payload `data[k]`), each followed by a delay of
`page_write_delay_ms`: all `len` of them, returning `len`, when the transport
accepts every one; and when byte write `j` is the first one the transport
refuses (a non-zero `int8_t` code), byte writes `0..j` only, returning
`MEMOREE_ERR_FAIL`. -/
theorem C30_93cxx_byte_writes (reply : List Event → Event → Int × List Nat) (s : List Event)
    (mem : memoree) (v interface b speed addr len timeout_ms tm : Nat) (f : Nat → Nat)
    (wrap : Bool)
    (hv : MEMOREE_VARIANT_STUB_SPI < v ∧ v < MEMOREE_VARIANT_93CXX_MAX)
    (hmem : mem = registry_handle v interface b speed) (hi : interface ≠ 0)
    (htm : tm = if timeout_ms ≠ 0 then u32 (timeout_ms / len) else 0)
    (hlen : 1 ≤ len) (hfit : addr + len ≤ (mem_props_at v).size)
    (hwen : (reply s (spec_write_enable mem)).1 = 0) :
    ((∀ k, k < len →
        (reply (s ++ spec_write_enable mem :: spec_byte_writes mem addr f tm 0 k)
          (spec_byte_write mem addr f tm k)).1 = 0) →
      memoree_write (logging reply) (some mem) addr (some f) len timeout_ms wrap s
        = ((len : Int), s ++ spec_write_enable mem :: spec_byte_writes mem addr f tm 0 len))
    ∧ (∀ j, j < len →
        (∀ k, k < j →
          (reply (s ++ spec_write_enable mem :: spec_byte_writes mem addr f tm 0 k)
            (spec_byte_write mem addr f tm k)).1 = 0) →
        (reply (s ++ spec_write_enable mem :: spec_byte_writes mem addr f tm 0 j)
          (spec_byte_write mem addr f tm j)).1 ≠ 0 →
        -128 ≤ (reply (s ++ spec_write_enable mem :: spec_byte_writes mem addr f tm 0 j)
          (spec_byte_write mem addr f tm j)).1 →
        (reply (s ++ spec_write_enable mem :: spec_byte_writes mem addr f tm 0 j)
          (spec_byte_write mem addr f tm j)).1 ≤ 127 →
        memoree_write (logging reply) (some mem) addr (some f) len timeout_ms wrap s
          = (MEMOREE_ERR_FAIL,
             s ++ spec_write_enable mem :: spec_byte_writes mem addr f tm 0 (j + 1))) := by
  obtain ⟨hif, hvar, hsz, hal, hvv, hsmall, k0, hpow⟩ :=
    registry_handle_93cxx v interface b speed hv
  rw [← hmem] at hif hvar hsz hal
  have hfam : MEMOREE_VARIANT_I2C_MAX < mem.info.variant
      ∧ mem.info.variant < MEMOREE_VARIANT_93CXX_MAX := by
    rw [hvar]
    simp only [MEMOREE_VARIANT_STUB_SPI, MEMOREE_VARIANT_I2C_MAX] at hv ⊢
    omega
  have hvalid : MEMOREE_ISVALID (some mem) = true := by
    simp [MEMOREE_ISVALID, hif, hvar, hvv, hi]
  have haddr : addr < mem.info.size := by rw [hsz]; omega
  have hmask : mask_addr addr mem.info.size = addr :=
    mask_addr_of_lt addr mem.info.size k0 (by rw [hsz]; exact hpow) (by rw [hsz]; omega) haddr
  have hw := memoree_write_93cxx reply s mem addr len timeout_ms f wrap hfam hvalid haddr hmask
    hlen (by omega) hwen
  rw [← htm] at hw
  have hcons : ∀ l : List Event, s ++ [spec_write_enable mem] ++ l
      = s ++ spec_write_enable mem :: l := fun l => by simp
  have hlen1 : len - 1 + 1 = len := by omega
  constructor
  · intro hok
    have hl := write_byte_loop_ok reply mem addr tm f (len - 1) 0 (s ++ [spec_write_enable mem])
      (by omega) (fun i hi2 => by
        rw [hcons, Nat.zero_add, hok i (by omega)]
        rfl)
    rw [hw, hl, hlen1, hcons]
    simp
  · intro j hj hok hbad hlo hhi
    have hl := write_byte_loop_fail reply mem addr tm f (len - 1) 0 (s ++ [spec_write_enable mem])
      j (by omega) (by omega) (fun i hi2 => by
        rw [hcons, Nat.zero_add, hok i hi2]
        rfl)
      (by
        rw [hcons, Nat.zero_add, toInt8_of_range _ hlo hhi]
        exact hbad)
    rw [hcons, Nat.zero_add, toInt8_of_range _ hlo hhi] at hl
    rw [hw, hl, hcons]
    simp only [hbad, if_false]

set_option maxRecDepth 100000 in
/-- C30 at the 93C46 handle: three bytes at address 5 over a transport that
accepts everything. -/
theorem C30_93cxx_byte_writes_witness :
    (MEMOREE_VARIANT_STUB_SPI < MEMOREE_VARIANT_93C46
      ∧ MEMOREE_VARIANT_93C46 < MEMOREE_VARIANT_93CXX_MAX)
    ∧ mem_93C46 = registry_handle MEMOREE_VARIANT_93C46 1 0 1000000 ∧ 1 ≠ 0
    ∧ (0 : Nat) = (if 0 ≠ 0 then u32 (0 / 3) else 0)
    ∧ 1 ≤ 3 ∧ 5 + 3 ≤ (mem_props_at MEMOREE_VARIANT_93C46).size
    ∧ (accept_all [] (spec_write_enable mem_93C46)).1 = 0
    ∧ (∀ k, k < 3 →
        (accept_all ([] ++ spec_write_enable mem_93C46
            :: spec_byte_writes mem_93C46 5 data_1_to_12 0 0 k)
          (spec_byte_write mem_93C46 5 data_1_to_12 0 k)).1 = 0)
    ∧ memoree_write (logging accept_all) (some mem_93C46) 5 (some data_1_to_12) 3 0 false []
      = (((3 : Nat) : Int),
          [] ++ spec_write_enable mem_93C46 :: spec_byte_writes mem_93C46 5 data_1_to_12 0 0 3) :=
  ⟨by decide, rfl, by decide, by decide, by decide, by decide, rfl, fun _ _ => rfl,
    (C30_93cxx_byte_writes accept_all [] mem_93C46 MEMOREE_VARIANT_93C46 1 0 1000000 5 3 0 0
      data_1_to_12 false (by decide) rfl (by decide) (by decide) (by decide) (by decide) rfl).1
      (fun _ _ => rfl)⟩

/-! ## Initialisation, discovery and addressing at concrete inputs -/

set_option maxRecDepth 100000 in
/-- C21 at the sentinel `MEMOREE_VARIANT_I2C_MAX`, over the recording
transport: no call is logged. -/
theorem C21_invalid_variant_no_handle_witness :
    (MEMOREE_VARIANT_I2C_MAX = MEMOREE_VARIANT_I2C_MAX
      ∨ MEMOREE_VARIANT_I2C_MAX = MEMOREE_VARIANT_93CXX_MAX
      ∨ MEMOREE_VARIANT_MAX ≤ MEMOREE_VARIANT_I2C_MAX
      ∨ some ({ speed := 400000, addr := 0x50 } : interface_conf_t) = none)
    ∧ memoree_init (logging accept_all) MEMOREE_VARIANT_I2C_MAX
        (some { speed := 400000, addr := 0x50 }) [] = (none, []) :=
  ⟨Or.inl rfl,
    C21_invalid_variant_no_handle (logging accept_all) MEMOREE_VARIANT_I2C_MAX
      (some { speed := 400000, addr := 0x50 }) [] (Or.inl rfl)⟩

set_option maxRecDepth 100000 in
/-- C36 at the fresh SFDP handle over a transport that fails every
transaction. -/
theorem C36_discovery_failure_leaves_handle_witness :
    (memoree_get_sfdp (logging (fail_with MEMOREE_ERR_FAIL)) (some mem_sfdp_fresh) (some { })
        100 []).1 ≠ MEMOREE_ERR_OK
    ∧ (memoree_get_sfdp (logging (fail_with MEMOREE_ERR_FAIL)) (some mem_sfdp_fresh) (some { })
        100 []).2.2.1 = some mem_sfdp_fresh :=
  ⟨by decide,
    C36_discovery_failure_leaves_handle (logging (fail_with MEMOREE_ERR_FAIL))
      (some mem_sfdp_fresh) (some { }) 100 [] (by decide)⟩

set_option maxRecDepth 100000 in
/-- C26 at the 24XX256 part. -/
theorem C26_registry_index_alignment_witness :
    VARIANT_ISVALID MEMOREE_VARIANT_24XX256 = true
    ∧ (memoree_init (logging accept_all) MEMOREE_VARIANT_24XX256
        (some { speed := 400000, addr := 0x50 }) []).1
      = some (registry_handle MEMOREE_VARIANT_24XX256 1 0x50 400000)
    ∧ (mem_props_at MEMOREE_VARIANT_24XX256).variant = MEMOREE_VARIANT_24XX256
    ∧ (registry_handle MEMOREE_VARIANT_24XX256 1 0x50 400000).info.variant
      = MEMOREE_VARIANT_24XX256 :=
  ⟨by decide, by decide,
    (C26_registry_index_alignment (logging accept_all) MEMOREE_VARIANT_24XX256
      { speed := 400000, addr := 0x50 } [] (registry_handle MEMOREE_VARIANT_24XX256 1 0x50 400000)
      (by decide) (by decide)).1,
    (C26_registry_index_alignment (logging accept_all) MEMOREE_VARIANT_24XX256
      { speed := 400000, addr := 0x50 } [] (registry_handle MEMOREE_VARIANT_24XX256 1 0x50 400000)
      (by decide) (by decide)).2.2.1⟩

set_option maxRecDepth 100000 in
/-- C32 at the fresh SFDP handle over the 1 Mbit flash. -/
theorem C32_discovery_transactions_witness :
    MEMOREE_ISVALID (some mem_sfdp_fresh) = true
    ∧ mem_sfdp_fresh.info.variant = MEMOREE_VARIANT_25XX_SFDP
    ∧ ∃ rest, (memoree_get_sfdp (logging (nor_reply sfdp_1M)) (some mem_sfdp_fresh) (some { })
        100 []).2.2.2
        = [] ++ Event.spi_write_read mem_sfdp_fresh.interface (sfdp_header_read 100) :: rest :=
  ⟨by decide, by decide,
    (C32_discovery_transactions (nor_reply sfdp_1M) mem_sfdp_fresh { } 100 []
      (by decide) (by decide)).2.1⟩

set_option maxRecDepth 100000 in
/-- C33 at the 93C46 handle: a read of 4 bytes at address 5. -/
theorem C33_spi_read_framing_witness :
    ((MEMOREE_VARIANT_I2C_MAX < mem_93C46.info.variant
        ∧ mem_93C46.info.variant < MEMOREE_VARIANT_93CXX_MAX)
      ∨ mem_93C46.info.variant = MEMOREE_VARIANT_25XX_SFDP)
    ∧ mem_93C46.info.size = 2 ^ 7 ∧ mem_93C46.info.size < 4294967296
    ∧ 5 < mem_93C46.info.size ∧ 4 < 2147483648
    ∧ memoree_read (logging accept_all) (some mem_93C46) 5 true 4 100 []
      = (if ((logging accept_all).spi_write_read [] mem_93C46.interface
              (spec_spi_read mem_93C46 5 4 100)).1 < 0
           then ((logging accept_all).spi_write_read [] mem_93C46.interface
              (spec_spi_read mem_93C46 5 4 100)).1
           else ((4 : Nat) : Int),
         ((logging accept_all).spi_write_read [] mem_93C46.interface
            (spec_spi_read mem_93C46 5 4 100)).2.1,
         ((logging accept_all).spi_write_read [] mem_93C46.interface
            (spec_spi_read mem_93C46 5 4 100)).2.2) :=
  ⟨by decide, by decide, by decide, by decide, by decide,
    C33_spi_read_framing (logging accept_all) mem_93C46 5 4 100 7 [] (by decide) (by decide)
      (by decide) (by decide) (by decide)⟩

set_option maxRecDepth 100000 in
/-- C34 at the 24XX16 part, select address `0x50`, address `0x2A5`. -/
theorem C34_read_write_same_addressing_witness :
    (MEMOREE_VARIANT_STUB_I2C < MEMOREE_VARIANT_24XX16
      ∧ MEMOREE_VARIANT_24XX16 < MEMOREE_VARIANT_I2C_MAX)
    ∧ 0x50 < 256 ∧ 0x2A5 < (mem_props_at MEMOREE_VARIANT_24XX16).size
    ∧ _memoree_write_bytes (logging accept_all)
        (some (registry_handle MEMOREE_VARIANT_24XX16 1 0x50 400000)) 0x2A5 (some data_1_to_12) 2
        0 []
      = i2c_return (mem_props_at MEMOREE_VARIANT_24XX16).addr_len
          ((logging accept_all).i2c_write [] 1
            (spec_device_select 0x50 (mem_props_at MEMOREE_VARIANT_24XX16).addr_len 0x2A5)
            (spec_address_field (mem_props_at MEMOREE_VARIANT_24XX16).addr_len 0x2A5
              ++ bytes_at data_1_to_12 0 2) 0) :=
  ⟨by decide, by decide, by decide,
    (C34_read_write_same_addressing (logging accept_all) [] [] MEMOREE_VARIANT_24XX16 1 0x50
      400000 0x2A5 2 2 0 0 data_1_to_12 (by decide) (by decide) (by decide)).1⟩

set_option maxRecDepth 100000 in
/-- C35 at the 24XX16 part, select address `0x50`, addresses `0x2A5` and
`0x1A5`. -/
theorem C35_address_folding_lossless_witness :
    (MEMOREE_VARIANT_STUB_I2C < MEMOREE_VARIANT_24XX16
      ∧ MEMOREE_VARIANT_24XX16 < MEMOREE_VARIANT_I2C_MAX)
    ∧ 0x50 < 256 ∧ 0x50 &&& 0x0E = 0
    ∧ 0x2A5 < (mem_props_at MEMOREE_VARIANT_24XX16).size
    ∧ 0x1A5 < (mem_props_at MEMOREE_VARIANT_24XX16).size
    ∧ 0x2A5 >>> (mem_props_at MEMOREE_VARIANT_24XX16).addr_len < 8 :=
  ⟨by decide, by decide, by decide, by decide, by decide,
    (C35_address_folding_lossless accept_all [] MEMOREE_VARIANT_24XX16 1 0x50 400000 0x2A5 0x1A5
      2 0 data_1_to_12 (by decide) (by decide) (by decide) (by decide) (by decide)).1⟩

/-! ## Chunked writes over a recording transport -/

/-- A chunk handed to `_memoree_write_bytes` over a recording transport is
either refused before the bus (no call, negative result) or becomes exactly
one bus transaction, whose negative answer gives a negative result. -/
theorem write_bytes_log (reply : List Event → Event → Int × List Nat) (mem : memoree)
    (addr n tm : Nat) (f : Nat → Nat) (s : List Event)
    (hfam : mem.info.variant < MEMOREE_VARIANT_I2C_MAX
      ∨ mem.info.variant = MEMOREE_VARIANT_25XX_SFDP) :
    ((_memoree_write_bytes (logging reply) (some mem) addr (some f) n tm s).2 = s
      ∧ (_memoree_write_bytes (logging reply) (some mem) addr (some f) n tm s).1 < 0)
    ∨ ∃ e, is_transaction e = true
        ∧ (_memoree_write_bytes (logging reply) (some mem) addr (some f) n tm s).2 = s ++ [e]
        ∧ ((reply s e).1 < 0 →
            (_memoree_write_bytes (logging reply) (some mem) addr (some f) n tm s).1 < 0) := by
  by_cases ha : addr < mem.info.size
  · rcases hfam with h | h
    · by_cases hk : toInt8 (_get_address_space (some mem)) ≤ 0
      · left
        have e : _memoree_write_bytes (logging reply) (some mem) addr (some f) n tm s
            = (MEMOREE_ERR_INVALID_ARG, s) := by
          simp [_memoree_write_bytes, ADDRESS_ISVALID, ha, h, hk]
        rw [e]
        exact ⟨rfl, (by decide : MEMOREE_ERR_INVALID_ARG < 0)⟩
      · right
        obtain ⟨sel, hsel⟩ : ∃ sel, _memoree_write_bytes (logging reply) (some mem) addr (some f)
            n tm s = i2c_return mem.info.addr_len ((logging reply).i2c_write s mem.interface sel
              (address_bytes addr (mem.info.addr_len / 8) mem.info.addr_len ++ bytes_at f 0 n)
              tm) :=
          ⟨_, write_bytes_i2c (logging reply) mem addr n tm f s _ h ha rfl (by omega)⟩
        rw [hsel]
        refine ⟨Event.i2c_write mem.interface sel _ tm, rfl, rfl, ?_⟩
        intro hneg
        simp only [i2c_return, logging]
        split_ifs with h1
        · omega
        · exact hneg
    · right
      obtain ⟨t, ht⟩ : ∃ t, _memoree_write_bytes (logging reply) (some mem) addr (some f) n tm s
          = (if ((logging reply).spi_write_read s mem.interface t).1 = 0 then toInt32 n
              else MEMOREE_ERR_FAIL, ((logging reply).spi_write_read s mem.interface t).2.2) := by
        refine ⟨{ cmd_len := 8, cmd := MEMOREE_CMD_25XX_PP, addr_len := mem.info.addr_len,
                  addr := mask_addr addr mem.info.size, write_len := n,
                  write_buff := some (bytes_at f 0 n), timeout_ms := u32 tm }, ?_⟩
        simp only [_memoree_write_bytes, ADDRESS_ISVALID, ha, h, decide_True, not_true_eq_false,
          if_false, if_true]
        rw [if_neg (by decide)]
      rw [ht]
      refine ⟨Event.spi_write_read mem.interface t, rfl, rfl, ?_⟩
      intro hneg
      simp only [logging]
      split_ifs with h1
      · omega
      · decide
  · left
    have e : _memoree_write_bytes (logging reply) (some mem) addr (some f) n tm s
        = (MEMOREE_ERR_INVALID_ARG, s) := by
      simp [_memoree_write_bytes, ADDRESS_ISVALID, ha]
    rw [e]
    exact ⟨rfl, (by decide : MEMOREE_ERR_INVALID_ARG < 0)⟩

theorem page_blocks_delay (d : Nat) (rest : List Event) :
    page_blocks d (Event.ms_delay d :: rest) = page_blocks d rest := by
  simp [page_blocks]

theorem page_blocks_transaction (d : Nat) (e : Event) (rest : List Event)
    (he : is_transaction e = true) :
    page_blocks d (e :: Event.ms_delay d :: rest) = page_blocks d rest := by
  cases e <;> simp [page_blocks, is_transaction] at he ⊢

theorem write_blocks_delay (d : Nat) (rest : List Event) :
    write_blocks d (Event.ms_delay d :: rest) = page_blocks (2 * d) rest := by
  simp [write_blocks]

theorem write_blocks_transaction (d : Nat) (e : Event) (rest : List Event)
    (he : is_transaction e = true) :
    write_blocks d (e :: Event.ms_delay d :: rest) = page_blocks (2 * d) rest := by
  cases e <;> simp [write_blocks, is_transaction] at he ⊢

theorem any_failed_append (reply : List Event → Event → Int × List Nat) :
    ∀ (a pre b : List Event),
      any_failed reply pre (a ++ b) = (any_failed reply pre a || any_failed reply (pre ++ a) b) := by
  intro a
  induction a with
  | nil => intro pre b; simp [any_failed]
  | cons e a ih =>
    intro pre b
    simp [any_failed, ih, Bool.or_assoc]

theorem any_failed_delay (reply : List Event → Event → Int × List Nat) (pre rest : List Event)
    (d : Nat) :
    any_failed reply pre (Event.ms_delay d :: rest)
      = any_failed reply (pre ++ [Event.ms_delay d]) rest := by
  simp [any_failed, is_transaction]

theorem any_failed_cons (reply : List Event → Event → Int × List Nat) (pre rest : List Event)
    (e : Event) (h : ¬ (reply pre e).1 < 0) :
    any_failed reply pre (e :: rest) = any_failed reply (pre ++ [e]) rest := by
  simp [any_failed, h]

/-- One pass of the page loop. -/
theorem write_page_loop_step {σ : Type} (P : Platform σ) (mem : memoree) (addr : Nat)
    (f : Nat → Nat) (n i : Nat) (s : σ) :
    write_page_loop P mem addr f (n + 1) i s
      = if (_memoree_write_bytes P (some mem) (u32 (addr + mem.info.page_size * i))
              (some (shift f (mem.info.page_size * i))) mem.info.page_size
              (MEMOREE_DEFAULT_TIMEOUT mem mem.info.page_size) s).1 < 0
        then (true, P.ms_delay (_memoree_write_bytes P (some mem)
              (u32 (addr + mem.info.page_size * i))
              (some (shift f (mem.info.page_size * i))) mem.info.page_size
              (MEMOREE_DEFAULT_TIMEOUT mem mem.info.page_size) s).2
              (mem.info.page_write_delay_ms * 2))
        else write_page_loop P mem addr f n (i + 1)
            (P.ms_delay (_memoree_write_bytes P (some mem)
              (u32 (addr + mem.info.page_size * i))
              (some (shift f (mem.info.page_size * i))) mem.info.page_size
              (MEMOREE_DEFAULT_TIMEOUT mem mem.info.page_size) s).2
              (mem.info.page_write_delay_ms * 2)) := by
  rw [write_page_loop]

/-- The calls of the page loop over a recording transport: chunks, each at most
one transaction followed by a delay of twice `page_write_delay_ms`; a
transaction answered with a negative code ends the loop with the failure
flag. -/
theorem write_page_loop_log (reply : List Event → Event → Int × List Nat) (mem : memoree)
    (addr : Nat) (f : Nat → Nat)
    (hfam : mem.info.variant < MEMOREE_VARIANT_I2C_MAX
      ∨ mem.info.variant = MEMOREE_VARIANT_25XX_SFDP) :
    ∀ (n i : Nat) (s : List Event), ∃ evs,
      (write_page_loop (logging reply) mem addr f n i s).2 = s ++ evs
      ∧ page_blocks (2 * mem.info.page_write_delay_ms) evs = true
      ∧ (any_failed reply s evs = true →
          (write_page_loop (logging reply) mem addr f n i s).1 = true) := by
  intro n
  induction n with
  | zero =>
    intro i s
    exact ⟨[], by simp [write_page_loop], rfl, by simp [any_failed]⟩
  | succ n ih =>
    intro i s
    have hd : mem.info.page_write_delay_ms * 2 = 2 * mem.info.page_write_delay_ms :=
      Nat.mul_comm _ _
    have hlog := write_bytes_log reply mem (u32 (addr + mem.info.page_size * i))
      mem.info.page_size (MEMOREE_DEFAULT_TIMEOUT mem mem.info.page_size)
      (shift f (mem.info.page_size * i)) s hfam
    rw [write_page_loop_step, hd]
    generalize _memoree_write_bytes (logging reply) (some mem)
      (u32 (addr + mem.info.page_size * i)) (some (shift f (mem.info.page_size * i)))
      mem.info.page_size (MEMOREE_DEFAULT_TIMEOUT mem mem.info.page_size) s = W at hlog ⊢
    have hdelay : ∀ l : List Event, (logging reply).ms_delay l (2 * mem.info.page_write_delay_ms)
        = l ++ [Event.ms_delay (2 * mem.info.page_write_delay_ms)] := fun l => rfl
    rw [hdelay]
    rcases hlog with ⟨h2, hneg⟩ | ⟨e, he, h2, himp⟩
    · rw [if_pos hneg, h2]
      exact ⟨[Event.ms_delay (2 * mem.info.page_write_delay_ms)], rfl,
        by rw [page_blocks_delay]; rfl, fun _ => rfl⟩
    · rw [h2]
      by_cases hW : W.1 < 0
      · rw [if_pos hW]
        refine ⟨[e, Event.ms_delay (2 * mem.info.page_write_delay_ms)], by simp, ?_, fun _ => rfl⟩
        rw [page_blocks_transaction _ _ _ he]; rfl
      · rw [if_neg hW]
        obtain ⟨evs, g1, g2, g3⟩ := ih (i + 1)
          (s ++ [e] ++ [Event.ms_delay (2 * mem.info.page_write_delay_ms)])
        refine ⟨e :: Event.ms_delay (2 * mem.info.page_write_delay_ms) :: evs, ?_, ?_, ?_⟩
        · rw [g1]; simp
        · rw [page_blocks_transaction _ _ _ he]; exact g2
        · intro hf
          apply g3
          rw [any_failed_cons reply s _ e (fun h => hW (himp h)), any_failed_delay] at hf
          exact hf

/-- The calls of the chunked part of `memoree_write` over a recording
transport: the alignment chunk followed by a delay of `page_write_delay_ms`,
then the chunks of the page loop; a transaction answered with a negative code
makes the result `MEMOREE_ERR_FAIL`. -/
theorem write_chunks_log (reply : List Event → Event → Int × List Nat) (mem : memoree)
    (addr data_len : Nat) (f : Nat → Nat) (s : List Event)
    (hfam : mem.info.variant < MEMOREE_VARIANT_I2C_MAX
      ∨ mem.info.variant = MEMOREE_VARIANT_25XX_SFDP) :
    ∃ evs,
      (write_chunks (logging reply) mem addr f data_len s).2 = s ++ evs
      ∧ write_blocks mem.info.page_write_delay_ms evs = true
      ∧ (any_failed reply s evs = true →
          (write_chunks (logging reply) mem addr f data_len s).1 = MEMOREE_ERR_FAIL)
      ∧ (¬ addr < mem.info.size → any_failed reply s evs = false) := by
  have hlog := write_bytes_log reply mem addr
    (u16 (usub32 mem.info.page_size (addr % mem.info.page_size)))
    (MEMOREE_DEFAULT_TIMEOUT mem (u16 (usub32 mem.info.page_size (addr % mem.info.page_size))))
    f s hfam
  have hinv : ¬ addr < mem.info.size →
      (_memoree_write_bytes (logging reply) (some mem) addr (some f)
        (u16 (usub32 mem.info.page_size (addr % mem.info.page_size)))
        (MEMOREE_DEFAULT_TIMEOUT mem
          (u16 (usub32 mem.info.page_size (addr % mem.info.page_size)))) s)
        = (MEMOREE_ERR_INVALID_ARG, s) := fun ha => by
    simp [_memoree_write_bytes, ADDRESS_ISVALID, ha]
  unfold write_chunks
  simp only
  generalize _memoree_write_bytes (logging reply) (some mem) addr (some f)
    (u16 (usub32 mem.info.page_size (addr % mem.info.page_size)))
    (MEMOREE_DEFAULT_TIMEOUT mem (u16 (usub32 mem.info.page_size (addr % mem.info.page_size))))
    s = W at hlog hinv ⊢
  have hdelay : ∀ l : List Event, (logging reply).ms_delay l mem.info.page_write_delay_ms
      = l ++ [Event.ms_delay mem.info.page_write_delay_ms] := fun l => rfl
  rw [hdelay]
  rcases hlog with ⟨h2, hneg⟩ | ⟨e, he, h2, himp⟩
  · rw [if_pos hneg, h2]
    exact ⟨[Event.ms_delay mem.info.page_write_delay_ms], rfl,
      by rw [write_blocks_delay]; rfl, fun _ => rfl, fun _ => rfl⟩
  · rw [h2]
    have hvalid : ¬ addr < mem.info.size → False := fun ha => by
      have := hinv ha
      rw [this] at h2
      simp at h2
    by_cases hW : W.1 < 0
    · rw [if_pos hW]
      refine ⟨[e, Event.ms_delay mem.info.page_write_delay_ms], by simp, ?_, fun _ => rfl,
        fun ha => (hvalid ha).elim⟩
      rw [write_blocks_transaction _ _ _ he]; rfl
    · rw [if_neg hW]
      obtain ⟨evs, g1, g2, g3⟩ := write_page_loop_log reply mem
        (u32 (addr + u16 (usub32 mem.info.page_size (addr % mem.info.page_size))))
        (shift f (u16 (usub32 mem.info.page_size (addr % mem.info.page_size)))) hfam
        (u16 (usub32 data_len (u16 (usub32 mem.info.page_size (addr % mem.info.page_size)))
          / mem.info.page_size)) 0
        (s ++ [e] ++ [Event.ms_delay mem.info.page_write_delay_ms])
      refine ⟨e :: Event.ms_delay mem.info.page_write_delay_ms :: evs, ?_, ?_, ?_,
        fun ha => (hvalid ha).elim⟩
      · split_ifs <;> (rw [g1]; simp)
      · rw [write_blocks_transaction _ _ _ he]; exact g2
      · intro hf
        rw [any_failed_cons reply s _ e (fun h => hW (himp h)), any_failed_delay] at hf
        rw [g3 hf]
        rfl

/-- On a valid I2C-family or SFDP handle, a `memoree_write` that does not take
the wrap branch is the chunked write of the (possibly truncated) length. -/
theorem memoree_write_rec_chunks {σ : Type} (P : Platform σ) (k : Nat) (mem : memoree)
    (addr len timeout_ms : Nat) (f : Nat → Nat) (wrap : Bool) (s : σ)
    (hvalid : MEMOREE_ISVALID (some mem) = true)
    (hfam : mem.info.variant < MEMOREE_VARIANT_I2C_MAX
      ∨ mem.info.variant = MEMOREE_VARIANT_25XX_SFDP)
    (hnw : ¬ ((0 : Int) < ((u32 (addr + len) : Nat) : Int) - (mem.info.size : Int)
      ∧ wrap = true)) :
    memoree_write_rec P (k + 1) (some mem) addr (some f) len timeout_ms wrap s
      = write_chunks P mem addr f
          (if (0 : Int) < ((u32 (addr + len) : Nat) : Int) - (mem.info.size : Int)
            then usub32 len (u32 (addr + len) % mem.info.size) else len) s := by
  have hnot : ¬ (MEMOREE_VARIANT_I2C_MAX < mem.info.variant
      ∧ mem.info.variant < MEMOREE_VARIANT_93CXX_MAX) := by
    simp only [MEMOREE_VARIANT_I2C_MAX, MEMOREE_VARIANT_93CXX_MAX, MEMOREE_VARIANT_25XX_SFDP]
      at hfam ⊢
    omega
  rw [memoree_write_rec]
  simp only [hvalid, Bool.not_true, Bool.false_and, Option.isNone_some, Bool.or_self,
    Bool.false_eq_true, if_false, hnot, hfam, if_true, hnw]

/-- The calls of `memoree_write` on a valid I2C-family or SFDP handle over a
recording transport: those of one chunked write, and in the wrap branch those
of a second one when the first returned its length; a transaction answered
with a negative code makes the result `MEMOREE_ERR_FAIL`. -/
theorem memoree_write_paged_log (reply : List Event → Event → Int × List Nat) (mem : memoree)
    (addr len timeout_ms : Nat) (f : Nat → Nat) (wrap : Bool) (s : List Event)
    (hvalid : MEMOREE_ISVALID (some mem) = true)
    (hfam : mem.info.variant < MEMOREE_VARIANT_I2C_MAX
      ∨ mem.info.variant = MEMOREE_VARIANT_25XX_SFDP) :
    ∃ evs1 evs2,
      (memoree_write (logging reply) (some mem) addr (some f) len timeout_ms wrap s).2
        = s ++ evs1 ++ evs2
      ∧ write_blocks mem.info.page_write_delay_ms evs1 = true
      ∧ (evs2 = [] ∨ write_blocks mem.info.page_write_delay_ms evs2 = true)
      ∧ (any_failed reply s (evs1 ++ evs2) = true →
          (memoree_write (logging reply) (some mem) addr (some f) len timeout_ms wrap s).1
            = MEMOREE_ERR_FAIL) := by
  have hnot : ¬ (MEMOREE_VARIANT_I2C_MAX < mem.info.variant
      ∧ mem.info.variant < MEMOREE_VARIANT_93CXX_MAX) := by
    simp only [MEMOREE_VARIANT_I2C_MAX, MEMOREE_VARIANT_93CXX_MAX, MEMOREE_VARIANT_25XX_SFDP]
      at hfam ⊢
    omega
  by_cases hw : (0 : Int) < ((u32 (addr + len) : Nat) : Int) - (mem.info.size : Int)
      ∧ wrap = true
  · -- the wrap branch: two nested non-wrapping writes
    obtain ⟨hov, hwrap⟩ := hw
    have hin : ∀ (a l : Nat) (g : Nat → Nat) (s0 : List Event),
        memoree_write_rec (logging reply) 1 (some mem) a (some g) l timeout_ms false s0
          = write_chunks (logging reply) mem a g
              (if (0 : Int) < ((u32 (a + l) : Nat) : Int) - (mem.info.size : Int)
                then usub32 l (u32 (a + l) % mem.info.size) else l) s0 :=
      fun a l g s0 => memoree_write_rec_chunks (logging reply) 0 mem a l timeout_ms g false s0
        hvalid hfam (by simp)
    unfold memoree_write
    rw [memoree_write_rec]
    simp only [hvalid, Bool.not_true, Bool.false_and, Option.isNone_some, Bool.or_self,
      Bool.false_eq_true, if_false, hnot, hfam, if_true, hov, hwrap, and_self, hin]
    generalize (if (0 : Int) < ((u32 (addr + ofInt32 ((len : Int)
        - (((u32 (addr + len) : Nat) : Int) - (mem.info.size : Int)))) : Nat) : Int)
        - (mem.info.size : Int)
      then usub32 (ofInt32 ((len : Int) - (((u32 (addr + len) : Nat) : Int)
        - (mem.info.size : Int))))
        (u32 (addr + ofInt32 ((len : Int) - (((u32 (addr + len) : Nat) : Int)
          - (mem.info.size : Int)))) % mem.info.size)
      else ofInt32 ((len : Int) - (((u32 (addr + len) : Nat) : Int)
        - (mem.info.size : Int)))) = L1
    obtain ⟨evs1, a1, a2, a3, a4⟩ := write_chunks_log reply mem addr L1 f s hfam
    by_cases h1 : (write_chunks (logging reply) mem addr f L1 s).1
        = (len : Int) - (((u32 (addr + len) : Nat) : Int) - (mem.info.size : Int))
    · simp only [h1, ne_eq, not_true_eq_false, if_false]
      rw [← h1]
      generalize (if (0 : Int) < ((u32 (0 + ofInt32 (((u32 (addr + len) : Nat) : Int)
          - (mem.info.size : Int))) : Nat) : Int) - (mem.info.size : Int)
        then usub32 (ofInt32 (((u32 (addr + len) : Nat) : Int) - (mem.info.size : Int)))
          (u32 (0 + ofInt32 (((u32 (addr + len) : Nat) : Int) - (mem.info.size : Int)))
            % mem.info.size)
        else ofInt32 (((u32 (addr + len) : Nat) : Int) - (mem.info.size : Int))) = L2
      obtain ⟨evs2, b1, b2, b3, -⟩ := write_chunks_log reply mem 0 L2
        (shift f (write_chunks (logging reply) mem addr f L1 s).1.toNat)
        (write_chunks (logging reply) mem addr f L1 s).2 hfam
      have hnf1 : any_failed reply s evs1 = false := by
        by_cases ha : addr < mem.info.size
        · cases hc : any_failed reply s evs1 with
          | false => rfl
          | true =>
            have hfail := a3 hc
            rw [h1] at hfail
            have hu : u32 (addr + len) ≤ addr + len := Nat.mod_le _ _
            simp only [MEMOREE_ERR_FAIL] at hfail
            omega
        · exact a4 ha
      refine ⟨evs1, evs2, ?_, a2, Or.inr b2, ?_⟩
      · split_ifs <;> exact b1.trans (by rw [a1])
      · intro hf
        rw [any_failed_append, hnf1, Bool.false_or, ← a1] at hf
        have hr2 := b3 hf
        rw [if_pos (by rw [hr2]; simp only [MEMOREE_ERR_FAIL]; omega)]
        exact hr2
    · simp only [h1, ne_eq, not_false_eq_true, if_true]
      refine ⟨evs1, [], by rw [a1]; simp, a2, Or.inl rfl, ?_⟩
      intro hf
      rw [List.append_nil] at hf
      exact a3 hf
  · unfold memoree_write
    rw [memoree_write_rec_chunks (logging reply) 1 mem addr len timeout_ms f wrap s hvalid hfam
      hw]
    obtain ⟨evs1, a1, a2, a3, -⟩ := write_chunks_log reply mem addr
      (if (0 : Int) < ((u32 (addr + len) : Nat) : Int) - (mem.info.size : Int)
        then usub32 len (u32 (addr + len) % mem.info.size) else len) f s hfam
    refine ⟨evs1, [], by rw [a1]; simp, a2, Or.inl rfl, ?_⟩
    intro hf
    rw [List.append_nil] at hf
    exact a3 hf

/-- C25 as the code has it: on a valid I2C-family or SFDP handle, when the
transport answers some transaction of `memoree_write` with a negative code,
`memoree_write` returns `MEMOREE_ERR_FAIL`, whatever the code was. -/
theorem C25_write_failure_is_fail (reply : List Event → Event → Int × List Nat) (mem : memoree)
    (addr len timeout_ms : Nat) (f : Nat → Nat) (wrap : Bool) (s : List Event)
    (hvalid : MEMOREE_ISVALID (some mem) = true)
    (hfam : mem.info.variant < MEMOREE_VARIANT_I2C_MAX
      ∨ mem.info.variant = MEMOREE_VARIANT_25XX_SFDP)
    (hfail : any_failed reply s
      ((memoree_write (logging reply) (some mem) addr (some f) len timeout_ms wrap s).2.drop
        s.length) = true) :
    (memoree_write (logging reply) (some mem) addr (some f) len timeout_ms wrap s).1
      = MEMOREE_ERR_FAIL := by
  obtain ⟨evs1, evs2, h1, -, -, h4⟩ :=
    memoree_write_paged_log reply mem addr len timeout_ms f wrap s hvalid hfam
  rw [h1, List.append_assoc, List.drop_left] at hfail
  exact h4 hfail

set_option maxRecDepth 100000 in
/-- C25 at the 24XX02 handle, over a transport that answers every transaction
with `MEMOREE_ERR_TIMEOUT`. -/
theorem C25_write_failure_is_fail_witness :
    MEMOREE_ISVALID (some mem_24XX02) = true
    ∧ (mem_24XX02.info.variant < MEMOREE_VARIANT_I2C_MAX
      ∨ mem_24XX02.info.variant = MEMOREE_VARIANT_25XX_SFDP)
    ∧ any_failed (fail_with MEMOREE_ERR_TIMEOUT) []
        ((memoree_write (logging (fail_with MEMOREE_ERR_TIMEOUT)) (some mem_24XX02) 0
          (some data_1_to_12) 8 100 false []).2.drop ([] : List Event).length) = true
    ∧ (memoree_write (logging (fail_with MEMOREE_ERR_TIMEOUT)) (some mem_24XX02) 0
        (some data_1_to_12) 8 100 false []).1 = MEMOREE_ERR_FAIL :=
  ⟨by decide, by decide, by decide,
    C25_write_failure_is_fail (fail_with MEMOREE_ERR_TIMEOUT) mem_24XX02 0 8 100 data_1_to_12
      false [] (by decide) (by decide) (by decide)⟩

end MemorEE
